import Mathlib

/-!
# blpwtk2::MainMessagePump

A shallow embedding of `src/blpwtk2/private/blpwtk2_mainmessagepump.cc`, the
cooperative Windows UI message pump of blpwtk2, and the properties proved
about it.

## Modelling conventions

* The data members of the C++ class and the part of the operating system the
  pump talks to (tick counter, thread message queue, the record of the calls
  made) live in one record, `MainMessagePump`. Member functions are functions
  from record to record.
* `LONG`/`int` members are `Int`; `DWORD`/`unsigned int` members are `Nat`
  with explicit reduction modulo `2^32` where the source computes with them.
* Whatever the pump cannot control is an oracle of `Env`: the result of
  `PostMessageW`, the effect of the task handler that runs under the
  synchronous `kMsgHaveWork` send, the effect of `DoIdleWork`, the queue
  inspection of `PeekMessage`, and so on. Each oracle is an arbitrary function
  of the whole record, so a handler may call back into the pump, advance the
  clock or post messages of its own. Oracles are total: a handler is assumed
  to return.
* `DCHECK`s do not abort: a failed check is appended to `trace` and the code
  goes on, which is the control flow of a release build with the observation
  of a debug build kept.
* A call through a null pointer ends the process: `cleanup`, which calls
  `d_runLoop->AfterRun()`, returns an `Option`.
* `ScheduleWork` may run on another thread; the model interleaves whole
  operations only.

Three small functions of other files are embedded after the pump:
`getBrowserContext` (`blpwtk2_processhostimpl.cc`), `setMaxSocketsPerProxy`
(`blpwtk2_toolkitfactory.cc`) and `IsSwitch` with `GetSwitchPrefixLength`
(`blpwtk2_toolkitimpl.cc`).
-/

namespace blpwtk2

/-! ## Constants -/

/-- The 32-bit modulus of `DWORD` and `unsigned int` arithmetic. -/
def DWORD_MOD : Nat := 2 ^ 32

/-- Win32 `WM_USER` (winuser.h). -/
def WM_USER : Nat := 0x0400
/-- Win32 `WM_TIMER` (winuser.h). -/
def WM_TIMER : Nat := 0x0113
/-- Win32 `WM_ENTERMENULOOP` (winuser.h). -/
def WM_ENTERMENULOOP : Nat := 0x0211
/-- Win32 `WM_EXITMENULOOP` (winuser.h). -/
def WM_EXITMENULOOP : Nat := 0x0212
/-- Win32 `WM_ENTERSIZEMOVE` (winuser.h). -/
def WM_ENTERSIZEMOVE : Nat := 0x0231
/-- Win32 `WM_EXITSIZEMOVE` (winuser.h). -/
def WM_EXITSIZEMOVE : Nat := 0x0232
/-- Win32 `MSGF_DIALOGBOX` (winuser.h). -/
def MSGF_DIALOGBOX : Int := 0
/-- Win32 `MSGF_MENU` (winuser.h). -/
def MSGF_MENU : Int := 2
/-- Win32 `MSGF_SCROLLBAR` (winuser.h). -/
def MSGF_SCROLLBAR : Int := 5
/-- Win32 `USER_TIMER_MINIMUM` (winuser.h). -/
def USER_TIMER_MINIMUM : Nat := 0x0000000A
/-- Win32 `USER_TIMER_MAXIMUM` (winuser.h). -/
def USER_TIMER_MAXIMUM : Nat := 0x7FFFFFFF
/-- Win32 `WH_MSGFILTER` (winuser.h), as a hook identifier. -/
def WH_MSGFILTER : Int := -1
/-- Win32 `WH_CALLWNDPROC` (winuser.h). -/
def WH_CALLWNDPROC : Int := 4
/-- Win32 `PM_NOREMOVE` (winuser.h). -/
def PM_NOREMOVE : Nat := 0x0000
/-- Win32 `PM_QS_POSTMESSAGE`: `(QS_POSTMESSAGE | QS_HOTKEY | QS_TIMER) << 16`. -/
def PM_QS_POSTMESSAGE : Nat := 0x00980000
/-- Win32 `PM_QS_SENDMESSAGE`: `QS_SENDMESSAGE << 16`. -/
def PM_QS_SENDMESSAGE : Nat := 0x00400000
/-- Win32 `S_OK`. -/
def S_OK : Int := 0

/-- Line 34: `const int kMsgHaveWork = WM_USER + 1;` -/
def kMsgHaveWork : Nat := WM_USER + 1
/-- Line 35: `const int kPumpMessage = WM_USER + 2;` -/
def kPumpMessage : Nat := WM_USER + 2

/-- Modelled from the spec: the enumerator `READY` of the work flag that
`base::MessagePumpForUI` keeps in `work_state_` (the spec's NO_WORK); the
header that declares it is not under src/. -/
def READY : Int := 0
/-- Modelled from the spec: the enumerator `HAVE_WORK` of the work flag; the
header that declares it is not under src/. -/
def HAVE_WORK : Int := 1
/-- Modelled from the spec: `base::kMessageFilterCode`, the code
`preHandleMessage` hands to `CallMsgFilter`; declared by the base library's
message pump header, which is not under src/ (value `0x5001` there). -/
def kMessageFilterCode : Int := 0x5001

/-! ## Data model -/

/-- The `DCHECK`s of the file. -/
inductive Check where
  /-- `DCHECK(d_nestLevel >= 0)` in `doWork`. -/
  | nestLevel
  /-- `DCHECK_EQ(1, wasPumped)` in `doWork`. -/
  | wasPumped
  /-- `DCHECK_NE(scheduleTime, 0U)` in `resetWorkState`. -/
  | scheduleTime
  /-- `DCHECK(pump->d_isInsideModalLoop)` in `windowProcedure`. -/
  | timerInsideModalLoop
  /-- `DCHECK(d_runLoop)` in `preHandleMessage`/`postHandleMessage`. -/
  | runLoop
  /-- `DCHECK_EQ(0, wasInsideMainLoop)` in `preHandleMessage`. -/
  | wasOutsideMainLoop
  /-- `DCHECK_EQ(1, wasInsideMainLoop)` in `postHandleMessage`. -/
  | wasInsideMainLoop
  /-- `DCHECK(kPumpMessage != msg_.message)` in `postHandleMessage`. -/
  | noPumpMessageQueued
  deriving DecidableEq, Repr

/-- The two places of `doWork` that may log a warning. -/
inductive TraceSite where
  | DoIdleWork
  | HandleWorkMessage
  deriving DecidableEq, Repr

/-- The calls the pump makes on its surroundings, as recorded in `trace`. -/
inductive Call where
  /-- `PostMessageW(d_window, kPumpMessage, this, 0)` and what it returned. -/
  | PostMessageW (ret : Bool)
  /-- The synchronous `SendMessageW(message_window_.hwnd(), kMsgHaveWork, this, 0)`. -/
  | SendMessageW
  /-- `SetTimer(d_window, this, uElapse, nullptr)`. -/
  | SetTimer (uElapse : Nat)
  /-- `KillTimer(d_window, this)`. -/
  | KillTimer
  /-- `std::make_unique<ScopedNestableTaskAllower>(loop)`. -/
  | AllowNestedTasks
  /-- `MessagePumpForUI::DoIdleWork()`. -/
  | DoIdleWork
  /-- A `LOG(WARNING)` of `doWork` with the elapsed milliseconds it prints. -/
  | LogWarning (site : TraceSite) (elapsed : Nat)
  /-- A `LOG(INFO)` of `setTraceThreshold`. -/
  | LogInfo (timeoutMS : Nat)
  /-- `SetWindowsHookEx(idHook, ...)` and the handle it returned. -/
  | SetWindowsHookEx (idHook : Int) (handle : Nat)
  /-- `UnhookWindowsHookEx(handle)`. -/
  | UnhookWindowsHookEx (handle : Nat)
  /-- `RunLoop::BeforeRun`. -/
  | BeforeRun
  /-- `MessageLoop::PrepareRunHandler`. -/
  | PrepareRunHandler
  /-- `PushRunState`. -/
  | PushRunState
  /-- `PopRunState`. -/
  | PopRunState
  /-- `RunLoop::AfterRun`. -/
  | AfterRun
  /-- `DestroyWindow(d_window)`. -/
  | DestroyWindow
  /-- A `DCHECK` whose condition was false. -/
  | DCheckFailed (c : Check)
  deriving DecidableEq, Repr

/-- The pump object together with the part of the system it acts on. -/
structure MainMessagePump where
  /-- Inherited from `MessagePumpForUI`: the work flag (`LONG`). -/
  work_state_ : Int
  d_window : Nat
  d_isInsideModalLoop : Bool
  d_isInsideMainLoop : Int
  d_isPumped : Int
  d_needRepost : Int
  d_scheduleTime : Nat
  d_skipIdleWork : Bool
  d_windowProcedureHook : Nat
  d_messageFilter : Nat
  d_minTimer : Nat
  d_maxTimer : Nat
  d_maxPumpCountInsideModalLoop : Nat
  d_traceThreshold : Nat
  d_nestLevel : Int
  /-- Whether the `unique_ptr` holds an allower. -/
  d_scopedNestedTaskAllower : Bool
  /-- Whether `d_runLoop` holds a run loop. -/
  d_runLoop : Bool
  /-- The system tick counter that `GetTickCount` reads. -/
  tickCount : Nat
  /-- Number of `kPumpMessage`s posted to the thread queue and not yet
  dispatched. -/
  pumpMessages : Nat
  /-- The calls made so far, oldest first. -/
  trace : List Call
  deriving DecidableEq, Repr

/-- What the pump does not control. Every oracle sees the whole record. -/
structure Env where
  /-- Whether `PostMessageW(d_window, kPumpMessage, ...)` succeeds. -/
  PostMessageW : MainMessagePump → Bool
  /-- What happens under `SendMessageW(..., kMsgHaveWork, ...)`: the window
  procedure of `MessagePumpForUI` runs the queued tasks. -/
  handler : MainMessagePump → MainMessagePump
  /-- What `MessagePumpForUI::DoIdleWork()` does. -/
  DoIdleWork : MainMessagePump → MainMessagePump
  /-- The member function `shouldTrace(elapsed)`, declared in the header,
  which is not under src/. -/
  shouldTrace : MainMessagePump → Nat → Bool
  /-- The message `PeekMessage(&msg_, nullptr, 0, 0, flags)` finds, if any. -/
  PeekMessage : Nat → MainMessagePump → Option Nat
  /-- The result of `CallNextHookEx(hook, code, ...)`. -/
  CallNextHookEx : Nat → Int → MainMessagePump → Int
  /-- The result of `DefWindowProc` for a message. -/
  DefWindowProc : Nat → MainMessagePump → Int
  /-- The handle `SetWindowsHookEx(idHook, ...)` returns, `0` on failure. -/
  SetWindowsHookEx : Int → MainMessagePump → Nat

namespace MainMessagePump

/-- The `DWORD` returned by `::GetTickCount()`. -/
def GetTickCount (w : MainMessagePump) : Nat := w.tickCount % DWORD_MOD

/-- Difference `a - b` of two `DWORD`s, as the machine computes it. -/
def subDWORD (a b : Nat) : Nat := (a % DWORD_MOD + DWORD_MOD - b % DWORD_MOD) % DWORD_MOD

/-- Append a call to the record. -/
def record (c : Call) (w : MainMessagePump) : MainMessagePump :=
  { w with trace := w.trace ++ [c] }

/-- A `DCHECK(cond)`: records the failure when `cond` is false. -/
def DCHECK (cond : Bool) (c : Check) (w : MainMessagePump) : MainMessagePump :=
  if cond then w else record (Call.DCheckFailed c) w

/-- Lines 37-45. -/
def isModalCode (code : Int) : Bool :=
  MSGF_DIALOGBOX == code
    || 3 == code
    || 4 == code
    || MSGF_MENU == code
    || MSGF_SCROLLBAR == code

/-- Lines 196-221. -/
def schedulePump (env : Env) (w : MainMessagePump) : MainMessagePump :=
  let wasPumped := w.d_isPumped
  let w1 := { w with d_isPumped := 1 }
  if 0 ≠ wasPumped then
    w1
  else
    let ret := env.PostMessageW w1
    let w2 := record (Call.PostMessageW ret)
      { w1 with pumpMessages := w1.pumpMessages + (if ret then 1 else 0) }
    let w3 := { w2 with d_needRepost := if ret then 0 else 1 }
    if ret then
      w3
    else
      { w3 with d_isPumped := 0 }

/-- Lines 188-194. -/
def schedulePumpIfNecessary (env : Env) (w : MainMessagePump) : MainMessagePump :=
  let workState := w.work_state_
  if HAVE_WORK = workState then schedulePump env w else w

/-- Modelled from the spec: `MessagePumpForUI::ResetWorkState()`, which the
comment in `resetWorkState` says clears the `work_state_` flag; its definition
is not under src/. -/
def ResetWorkState (w : MainMessagePump) : MainMessagePump :=
  { w with work_state_ := READY }

/-- Lines 310-321. -/
def resetWorkState (w : MainMessagePump) : MainMessagePump :=
  let scheduleTime := w.d_scheduleTime
  let w1 := { w with d_scheduleTime := 0 }
  let w2 := DCHECK (scheduleTime != 0) Check.scheduleTime w1
  ResetWorkState w2

/-- Lines 288-308. -/
def modalLoop (enabled : Bool) (w : MainMessagePump) : MainMessagePump :=
  if w.d_isInsideModalLoop != enabled then
    let w1 := { w with d_isInsideModalLoop := enabled }
    if enabled then
      let w2 := record Call.AllowNestedTasks { w1 with d_scopedNestedTaskAllower := true }
      record (Call.SetTimer w2.d_minTimer) w2
    else
      let w2 := { w1 with d_scopedNestedTaskAllower := false }
      record Call.KillTimer w2
  else
    w

/-- Lines 522-548. -/
def ScheduleWork (env : Env) (w : MainMessagePump) : MainMessagePump :=
  let w1 := { w with work_state_ := HAVE_WORK }
  let w2 := { w1 with d_scheduleTime := GetTickCount w1 }
  let isInsideMainLoop := w2.d_isInsideMainLoop
  if 0 = isInsideMainLoop then
    schedulePump env { w2 with d_skipIdleWork := true }
  else
    w2

/-- Lines 225-229 of `doWork`: the nesting counter and the pumped flag. -/
def doWorkEnter (w : MainMessagePump) : MainMessagePump :=
  let w1 := DCHECK (decide (0 ≤ w.d_nestLevel)) Check.nestLevel w
  let w2 := { w1 with d_nestLevel := w1.d_nestLevel + 1 }
  let wasPumped := w2.d_isPumped
  let w3 := { w2 with d_isPumped := 0 }
  DCHECK (1 == wasPumped) Check.wasPumped w3

/-- Lines 242-249 of `doWork`: the bound of the drain loop. -/
def maxPumpCount (w : MainMessagePump) : Nat :=
  if !w.d_isInsideModalLoop then 1 else w.d_maxPumpCountInsideModalLoop

/-- One drain, lines 252-256 of `doWork`: the work flag is reset and the
task queue is run under the synchronous `kMsgHaveWork` send. -/
def drain (env : Env) (w : MainMessagePump) : MainMessagePump :=
  env.handler (record Call.SendMessageW (resetWorkState w))

/-- Lines 251-263 of `doWork`: the loop `for (i = 0; i < maxPumpCount; ++i)`,
with `n` the iterations left. Returns the state after the loop and the number
of drains made. -/
def drainLoop (env : Env) : Nat → MainMessagePump → MainMessagePump × Nat
  | 0, w => (w, 0)
  | n + 1, w =>
    let w1 := drain env w
    let workState := w1.work_state_
    if READY = workState then
      (w1, 1)
    else
      let r := drainLoop env n w1
      (r.1, r.2 + 1)

/-- Lines 265-277 of `doWork`: idle work, unless it is to be skipped. -/
def doWorkIdle (env : Env) (w : MainMessagePump) : MainMessagePump :=
  if !w.d_skipIdleWork then
    let startTime2 := GetTickCount w
    let w1 := env.DoIdleWork (record Call.DoIdleWork w)
    let endTime2 := GetTickCount w1
    if env.shouldTrace w1 (subDWORD endTime2 startTime2) then
      record (Call.LogWarning TraceSite.DoIdleWork (subDWORD endTime2 startTime2)) w1
    else
      w1
  else
    { w with d_skipIdleWork := false }

/-- Lines 279-285 of `doWork`: the trace of the whole cycle and the
decrement of the nesting counter. -/
def doWorkExit (env : Env) (startTime1 : Nat) (w : MainMessagePump) : MainMessagePump :=
  let endTime1 := GetTickCount w
  let w1 :=
    if env.shouldTrace w (subDWORD endTime1 startTime1) then
      record (Call.LogWarning TraceSite.HandleWorkMessage (subDWORD endTime1 startTime1)) w
    else
      w
  { w1 with d_nestLevel := w1.d_nestLevel - 1 }

/-- Lines 223-286. -/
def doWork (env : Env) (w : MainMessagePump) : MainMessagePump :=
  let w1 := doWorkEnter w
  let startTime1 := GetTickCount w1
  let w2 := (drainLoop env (maxPumpCount w1) w1).1
  let w3 := doWorkIdle env w2
  doWorkExit env startTime1 w3

/-- The number of drains one `doWork()` call makes in its own loop. -/
def doWorkDrains (env : Env) (w : MainMessagePump) : Nat :=
  (drainLoop env (maxPumpCount (doWorkEnter w)) (doWorkEnter w)).2

/-- Lines 417-432 of `flush`: the loop `for (i = 0; i < 255; ++i)`, with `n`
the iterations left. Returns the state after the loop and the number of
`doWork()` cycles run. -/
def flushLoop (env : Env) : Nat → MainMessagePump → MainMessagePump × Nat
  | 0, w => (w, 0)
  | n + 1, w =>
    let workState := w.work_state_
    if HAVE_WORK = workState then
      let r := flushLoop env n (doWork env (schedulePump env w))
      (r.1, r.2 + 1)
    else
      (w, 0)

/-- Lines 408-433. -/
def flush (env : Env) (w : MainMessagePump) : MainMessagePump :=
  (flushLoop env 255 w).1

/-- The number of `doWork()` cycles one `flush()` call runs. -/
def flushCycles (env : Env) (w : MainMessagePump) : Nat :=
  (flushLoop env 255 w).2

/-- Lines 121-132. Returns the state and the `LRESULT`. -/
def messageFilter (env : Env) (code : Int) (w : MainMessagePump) : MainMessagePump × Int :=
  let w1 :=
    if !w.d_isInsideModalLoop && isModalCode code then modalLoop true w else w
  (w1, env.CallNextHookEx w1.d_messageFilter code w1)

/-- Lines 142-166 of `windowProcedureHook`: the `switch` on `cwp->message`. -/
def windowProcedureHookSwitch (message : Nat) (w : MainMessagePump) : MainMessagePump :=
  if message = WM_ENTERSIZEMOVE then modalLoop true w
  else if message = WM_EXITSIZEMOVE then modalLoop false w
  else if message = WM_ENTERMENULOOP then modalLoop true w
  else if message = WM_EXITMENULOOP then modalLoop false w
  else if message = kMsgHaveWork then w
  else if w.d_nestLevel > 0 then modalLoop true w
  else w

/-- Lines 135-186, with `message` the `cwp->message` of the hooked call.
Returns the state and the `LRESULT`. -/
def windowProcedureHook (env : Env) (code : Int) (message : Nat) (w : MainMessagePump) :
    MainMessagePump × Int :=
  let w1 := windowProcedureHookSwitch message w
  let needRepost := w1.d_needRepost
  let w2 :=
    if needRepost ≠ 0 then
      schedulePumpIfNecessary env w1
    else if USER_TIMER_MAXIMUM ≠ w1.d_maxTimer && w1.d_isInsideModalLoop then
      let scheduleTime := w1.d_scheduleTime
      let currentTime := GetTickCount w1
      if 0 ≠ scheduleTime && decide (w1.d_maxTimer < subDWORD currentTime scheduleTime) then
        schedulePumpIfNecessary env { w1 with d_skipIdleWork := true }
      else
        w1
    else
      w1
  (w2, env.CallNextHookEx w2.d_windowProcedureHook code w2)

/-- Lines 81-118. Returns the state and the `LRESULT`. -/
def windowProcedure (env : Env) (message : Nat) (w : MainMessagePump) : MainMessagePump × Int :=
  if kPumpMessage = message then
    (doWork env w, S_OK)
  else if WM_TIMER = message then
    let w1 := DCHECK w.d_isInsideModalLoop Check.timerInsideModalLoop w
    let scheduleTime := w1.d_scheduleTime
    let currentTime := GetTickCount w1
    let w2 :=
      if w1.d_minTimer < subDWORD currentTime scheduleTime then
        schedulePumpIfNecessary env { w1 with d_skipIdleWork := true }
      else
        w1
    (w2, S_OK)
  else
    (w, env.DefWindowProc message w)

/-- Lines 447-459. `CallMsgFilter` runs the message-filter hook of the pump
with `base::kMessageFilterCode`. Returns the state and the result. -/
def preHandleMessage (env : Env) (w : MainMessagePump) : MainMessagePump × Bool :=
  let w1 := DCHECK w.d_runLoop Check.runLoop w
  let wasInsideMainLoop := w1.d_isInsideMainLoop
  let w2 := { w1 with d_isInsideMainLoop := 1 }
  let w3 := DCHECK (0 == wasInsideMainLoop) Check.wasOutsideMainLoop w2
  let r := messageFilter env kMessageFilterCode w3
  (r.1, r.2 != 0)

/-- Lines 463-475 of `postHandleMessage`: the main-loop flag is cleared and a
modal loop, if one was detected, is left. -/
def postHandleMessageExit (w : MainMessagePump) : MainMessagePump :=
  let w1 := DCHECK w.d_runLoop Check.runLoop w
  let wasInsideMainLoop := w1.d_isInsideMainLoop
  let w2 := { w1 with d_isInsideMainLoop := 0 }
  let w3 := DCHECK (1 == wasInsideMainLoop) Check.wasInsideMainLoop w2
  if w3.d_isInsideModalLoop then modalLoop false w3 else w3

/-- Lines 477-511 of `postHandleMessage`: the wake-up request. -/
def postHandleMessageSchedule (env : Env) (w : MainMessagePump) : MainMessagePump :=
  let workState := w.work_state_
  let wasPumped := w.d_isPumped
  if HAVE_WORK = workState ∧ 0 = wasPumped then
    match env.PeekMessage PM_NOREMOVE w with
    | some _ =>
      let flags := PM_NOREMOVE ||| PM_QS_POSTMESSAGE ||| PM_QS_SENDMESSAGE
      match env.PeekMessage flags w with
      | some message =>
        let w1 := DCHECK (kPumpMessage != message) Check.noPumpMessageQueued w
        schedulePump env { w1 with d_skipIdleWork := true }
      | none => w
    | none => schedulePump env w
  else
    w

/-- Lines 461-512. -/
def postHandleMessage (env : Env) (w : MainMessagePump) : MainMessagePump :=
  postHandleMessageSchedule env (postHandleMessageExit w)

/-- Lines 514-520. -/
def setTraceThreshold (timeoutMS : Nat) (w : MainMessagePump) : MainMessagePump :=
  record (Call.LogInfo timeoutMS) { w with d_traceThreshold := timeoutMS }

/-- Lines 332-381: the constructor, with `hwnd` the handle `CreateWindowW`
returns and `now` the tick counter at that time. -/
def new (hwnd : Nat) (now : Nat) : MainMessagePump :=
  let w : MainMessagePump :=
    { work_state_ := READY
      d_window := 0
      d_isInsideModalLoop := false
      d_isInsideMainLoop := 0
      d_isPumped := 0
      d_needRepost := 0
      d_scheduleTime := 0
      d_skipIdleWork := false
      d_windowProcedureHook := 0
      d_messageFilter := 0
      d_minTimer := USER_TIMER_MINIMUM
      d_maxTimer := USER_TIMER_MAXIMUM
      d_maxPumpCountInsideModalLoop := 1
      d_traceThreshold := 0
      d_nestLevel := 0
      d_scopedNestedTaskAllower := false
      d_runLoop := false
      tickCount := now
      pumpMessages := 0
      trace := [] }
  let w1 := { w with d_window := hwnd }
  let w2 := { w1 with d_maxTimer := 4 * w1.d_minTimer % DWORD_MOD }
  { w2 with d_maxPumpCountInsideModalLoop := 16 }

/-- Lines 388-406. -/
def init (env : Env) (w : MainMessagePump) : MainMessagePump :=
  let h1 := env.SetWindowsHookEx WH_MSGFILTER w
  let w1 := record (Call.SetWindowsHookEx WH_MSGFILTER h1) { w with d_messageFilter := h1 }
  let h2 := env.SetWindowsHookEx WH_CALLWNDPROC w1
  let w2 := record (Call.SetWindowsHookEx WH_CALLWNDPROC h2) { w1 with d_windowProcedureHook := h2 }
  let w3 := { w2 with d_runLoop := true }
  let w4 := record Call.BeforeRun w3
  let w5 := record Call.PrepareRunHandler w4
  record Call.PushRunState w5

/-- Lines 435-445. Line 440, `d_runLoop->AfterRun()`, dereferences
`d_runLoop`: when it holds no run loop (before `init()`, after an earlier
`cleanup()`) the call goes through a null pointer and the process does not
survive it, which is the result `none`. -/
def cleanup (env : Env) (w : MainMessagePump) : Option MainMessagePump :=
  let w1 := flush env w
  let w2 := record Call.PopRunState w1
  if w2.d_runLoop then
    let w3 := record Call.AfterRun w2
    let w4 := { w3 with d_runLoop := false }
    let w5 := record (Call.UnhookWindowsHookEx w4.d_windowProcedureHook) w4
    some (record (Call.UnhookWindowsHookEx w5.d_messageFilter) w5)
  else
    none

/-- Lines 383-386: the destructor. -/
def delete (w : MainMessagePump) : MainMessagePump :=
  record Call.DestroyWindow w

/-- The host's message loop takes one queued `kPumpMessage` off the thread
queue and hands it to `windowProcedure`; `none` when no such message is
queued. -/
def dispatchPumpMessage (env : Env) (w : MainMessagePump) : Option MainMessagePump :=
  if w.pumpMessages = 0 then
    none
  else
    some (windowProcedure env kPumpMessage { w with pumpMessages := w.pumpMessages - 1 }).1

/-! ## Observations on the record of calls -/

/-- Number of `PostMessageW` calls (wake-up post attempts) recorded. -/
def postAttempts (w : MainMessagePump) : Nat :=
  w.trace.countP fun c => match c with
    | Call.PostMessageW _ => true
    | _ => false

/-- Number of `SetTimer` calls recorded. -/
def setTimerCalls (w : MainMessagePump) : Nat :=
  w.trace.countP fun c => match c with
    | Call.SetTimer _ => true
    | _ => false

/-- Number of `KillTimer` calls recorded. -/
def killTimerCalls (w : MainMessagePump) : Nat :=
  w.trace.countP fun c => c == Call.KillTimer

/-- Number of failures of the check `c` recorded. -/
def dcheckFailures (c : Check) (w : MainMessagePump) : Nat :=
  w.trace.countP fun x => x == Call.DCheckFailed c

/-! ## Concrete surroundings used to evaluate the model -/

/-- Surroundings in which every post succeeds, the task handler and the idle
work leave the record alone, nothing is traced and the queue is empty. -/
def quietEnv : Env :=
  { PostMessageW := fun _ => true
    handler := fun w => w
    DoIdleWork := fun w => w
    shouldTrace := fun _ _ => false
    PeekMessage := fun _ _ => none
    CallNextHookEx := fun _ _ _ => 0
    DefWindowProc := fun _ _ => 0
    SetWindowsHookEx := fun idHook _ => if idHook = WH_MSGFILTER then 11 else 12 }

/-- Surroundings of `quietEnv` with a full message queue: every post fails. -/
def fullQueueEnv : Env :=
  { quietEnv with PostMessageW := fun _ => false }

/-- Surroundings of `quietEnv` whose task handler schedules more work on
every drain, by calling `ScheduleWork` as `HandleWorkMessage` does when the
delegate reports more work. -/
def busyEnv : Env :=
  { quietEnv with handler := fun w => ScheduleWork quietEnv w }

/-- Surroundings of `quietEnv` whose task handler schedules more work and
flips the modal flag on every drain. -/
def flipEnv : Env :=
  { quietEnv with
    handler := fun s =>
      { s with work_state_ := HAVE_WORK, d_isInsideModalLoop := !s.d_isInsideModalLoop } }

/-! ## Predicates used in the statements -/

/-- A function of the record that does what a task handler does when it
neither schedules work nor runs a pump cycle: the work flag, the schedule
time, the pumped flag, the idle-skip flag, the queued wake-up messages and the
number of post attempts are as before. -/
def NoReschedule (f : MainMessagePump → MainMessagePump) : Prop :=
  ∀ s, (f s).work_state_ = s.work_state_ ∧
    (f s).d_scheduleTime = s.d_scheduleTime ∧
    (f s).d_isPumped = s.d_isPumped ∧
    (f s).d_skipIdleWork = s.d_skipIdleWork ∧
    (f s).pumpMessages = s.pumpMessages ∧
    postAttempts (f s) = postAttempts s

/-- The two records agree on what scheduling a pump reads and writes. -/
def SameSchedule (a b : MainMessagePump) : Prop :=
  a.work_state_ = b.work_state_ ∧ a.d_needRepost = b.d_needRepost ∧
  a.d_isPumped = b.d_isPumped ∧ a.d_skipIdleWork = b.d_skipIdleWork ∧
  a.pumpMessages = b.pumpMessages ∧ postAttempts a = postAttempts b

/-- The two records agree on the modal flag and on the timer calls made. -/
def SameTimers (a b : MainMessagePump) : Prop :=
  a.d_isInsideModalLoop = b.d_isInsideModalLoop ∧
  setTimerCalls a = setTimerCalls b ∧ killTimerCalls a = killTimerCalls b

/-- One `SetTimer` call is outstanding when the modal flag is set, none when it
is not. -/
def TimerBalanced (w : MainMessagePump) : Prop :=
  setTimerCalls w = killTimerCalls w + (if w.d_isInsideModalLoop then 1 else 0)

/-- The states reached from a freshly constructed pump by calls of
`modalLoop` and of the functions of the file that call it, possibly
interleaved with `init`, `ScheduleWork`, `setTraceThreshold` and window
messages other than the pump message. -/
inductive ModalReachable : MainMessagePump → Prop
  | new (hwnd now : Nat) : ModalReachable (new hwnd now)
  | modalLoop (b : Bool) {w : MainMessagePump} :
      ModalReachable w → ModalReachable (modalLoop b w)
  | messageFilter (env : Env) (code : Int) {w : MainMessagePump} :
      ModalReachable w → ModalReachable (messageFilter env code w).1
  | windowProcedureHook (env : Env) (code : Int) (message : Nat) {w : MainMessagePump} :
      ModalReachable w → ModalReachable (windowProcedureHook env code message w).1
  | preHandleMessage (env : Env) {w : MainMessagePump} :
      ModalReachable w → ModalReachable (preHandleMessage env w).1
  | postHandleMessage (env : Env) {w : MainMessagePump} :
      ModalReachable w → ModalReachable (postHandleMessage env w)
  | init (env : Env) {w : MainMessagePump} :
      ModalReachable w → ModalReachable (init env w)
  | ScheduleWork (env : Env) {w : MainMessagePump} :
      ModalReachable w → ModalReachable (ScheduleWork env w)
  | setTraceThreshold (timeoutMS : Nat) {w : MainMessagePump} :
      ModalReachable w → ModalReachable (setTraceThreshold timeoutMS w)
  | windowProcedure (env : Env) (message : Nat) {w : MainMessagePump} :
      message ≠ kPumpMessage → ModalReachable w →
      ModalReachable (windowProcedure env message w).1

/-- Lines 168-183 of `windowProcedureHook`: the repost after a failed post and
the starvation check, on the state the `switch` leaves. -/
def windowProcedureHookSchedule (env : Env) (w1 : MainMessagePump) : MainMessagePump :=
  let needRepost := w1.d_needRepost
  if needRepost ≠ 0 then
    schedulePumpIfNecessary env w1
  else if USER_TIMER_MAXIMUM ≠ w1.d_maxTimer && w1.d_isInsideModalLoop then
    let scheduleTime := w1.d_scheduleTime
    let currentTime := GetTickCount w1
    if 0 ≠ scheduleTime && decide (w1.d_maxTimer < subDWORD currentTime scheduleTime) then
      schedulePumpIfNecessary env { w1 with d_skipIdleWork := true }
    else
      w1
  else
    w1

/-- Win32 `WM_MOUSEMOVE` (winuser.h), an input message. -/
def WM_MOUSEMOVE : Nat := 0x0200

/-- Surroundings of `quietEnv` whose thread queue holds one mouse message and
nothing posted or sent: the unfiltered `PeekMessage` finds it, the one
restricted to posted and sent messages finds nothing. -/
def inputOnlyEnv : Env :=
  { quietEnv with
    PeekMessage := fun flags _ => if flags = PM_NOREMOVE then some WM_MOUSEMOVE else none }

/-- Surroundings of `quietEnv` whose thread queue holds one posted message
(`WM_TIMER`), which both `PeekMessage` calls find. -/
def postedMessageEnv : Env :=
  { quietEnv with PeekMessage := fun _ _ => some WM_TIMER }

/-- The pump after `init`, `preHandleMessage` and a `ScheduleWork` made while
the host dispatches the message: work is pending and no wake-up is posted. -/
def pendingInsideMainLoop : MainMessagePump :=
  ScheduleWork quietEnv (preHandleMessage quietEnv (init quietEnv (new 7 100))).1

/-- The state of one `doWork()` call when its drain loop has finished (line
263), before the idle work. -/
def doWorkDrained (env : Env) (w : MainMessagePump) : MainMessagePump :=
  (drainLoop env (maxPumpCount (doWorkEnter w)) (doWorkEnter w)).1

/-- Number of `MessagePumpForUI::DoIdleWork()` calls recorded. -/
def idleCalls (w : MainMessagePump) : Nat :=
  w.trace.countP fun c => c == Call.DoIdleWork

/-- Surroundings of `quietEnv` in which `PeekMessage` sees the queued pump
messages: it finds a `kPumpMessage` whenever one is queued. -/
def pumpQueueEnv : Env :=
  { quietEnv with
    PeekMessage := fun _ w => if w.pumpMessages = 0 then none else some kPumpMessage }

/-- The pump after `init`, one `ScheduleWork` (which posts the wake-up
message) and a `flush()`. -/
def flushedAfterSchedule : MainMessagePump :=
  flush quietEnv (ScheduleWork quietEnv (init quietEnv (new 7 100)))

/-- At most one wake-up message is queued, and none when `d_isPumped` is 0. -/
def WakeupInv (w : MainMessagePump) : Prop :=
  w.pumpMessages ≤ 1 ∧ (w.d_isPumped = 0 → w.pumpMessages = 0)

/-- A function of the record that returns with `d_nestLevel` as it found it,
as a task handler does that touches the counter only through (properly
nested) `doWork()` calls. -/
def NestNeutral (f : MainMessagePump → MainMessagePump) : Prop :=
  ∀ s, (f s).d_nestLevel = s.d_nestLevel

/-- Surroundings of `quietEnv` whose task handler re-enters the pump: it
requests a wake-up and runs a nested `doWork()` cycle. -/
def reentrantEnv : Env :=
  { quietEnv with handler := fun s => doWork quietEnv (schedulePump quietEnv s) }

/-- The states between operations: those reached from a freshly constructed
pump by the operations of the file, with task handlers and idle work that
return with `d_nestLevel` as they found it. -/
inductive NestReachable : MainMessagePump → Prop
  | new (hwnd now : Nat) : NestReachable (new hwnd now)
  | init (env : Env) {w : MainMessagePump} : NestReachable w → NestReachable (init env w)
  | ScheduleWork (env : Env) {w : MainMessagePump} :
      NestReachable w → NestReachable (ScheduleWork env w)
  | setTraceThreshold (timeoutMS : Nat) {w : MainMessagePump} :
      NestReachable w → NestReachable (setTraceThreshold timeoutMS w)
  | messageFilter (env : Env) (code : Int) {w : MainMessagePump} :
      NestReachable w → NestReachable (messageFilter env code w).1
  | windowProcedureHook (env : Env) (code : Int) (message : Nat) {w : MainMessagePump} :
      NestReachable w → NestReachable (windowProcedureHook env code message w).1
  | preHandleMessage (env : Env) {w : MainMessagePump} :
      NestReachable w → NestReachable (preHandleMessage env w).1
  | postHandleMessage (env : Env) {w : MainMessagePump} :
      NestReachable w → NestReachable (postHandleMessage env w)
  | windowProcedure (env : Env) (message : Nat) {w : MainMessagePump} :
      NestNeutral env.handler → NestNeutral env.DoIdleWork →
      NestReachable w → NestReachable (windowProcedure env message w).1
  | dispatchPumpMessage (env : Env) {w w2 : MainMessagePump} :
      NestNeutral env.handler → NestNeutral env.DoIdleWork →
      NestReachable w → dispatchPumpMessage env w = some w2 → NestReachable w2
  | flush (env : Env) {w : MainMessagePump} :
      NestNeutral env.handler → NestNeutral env.DoIdleWork →
      NestReachable w → NestReachable (flush env w)
  | cleanup (env : Env) {w w2 : MainMessagePump} :
      NestNeutral env.handler → NestNeutral env.DoIdleWork →
      NestReachable w → cleanup env w = some w2 → NestReachable w2

/-- Whether a recorded call is log output (`LOG(WARNING)`, `LOG(INFO)`). -/
def isLogCall : Call → Bool
  | Call.LogWarning _ _ => true
  | Call.LogInfo _ => true
  | _ => false

/-- The record with what the trace threshold may influence taken out: the
threshold itself is zeroed and the log output is dropped from the record of
calls. Posts, timer calls, drains, idle-work calls, failed checks and every
other member stay. -/
def behaviour (w : MainMessagePump) : MainMessagePump :=
  { w with d_traceThreshold := 0, trace := w.trace.filter fun c => !isLogCall c }

/-- Surroundings that do not look at the trace threshold or at the log
output: on two records with the same `behaviour` every oracle other than
`shouldTrace` answers the same, and the task handler and the idle work lead
to records with the same `behaviour`. -/
def ThresholdBlind (env : Env) : Prop :=
  ∀ a b, behaviour a = behaviour b →
    env.PostMessageW a = env.PostMessageW b ∧
    behaviour (env.handler a) = behaviour (env.handler b) ∧
    behaviour (env.DoIdleWork a) = behaviour (env.DoIdleWork b) ∧
    (∀ flags, env.PeekMessage flags a = env.PeekMessage flags b) ∧
    (∀ hook code, env.CallNextHookEx hook code a = env.CallNextHookEx hook code b) ∧
    (∀ message, env.DefWindowProc message a = env.DefWindowProc message b) ∧
    (∀ idHook, env.SetWindowsHookEx idHook a = env.SetWindowsHookEx idHook b)

/-- Surroundings of `busyEnv` that trace every cycle taking longer than the
threshold, when the threshold is not 0. -/
def tracingEnv : Env :=
  { busyEnv with
    handler := fun w => ScheduleWork quietEnv { w with tickCount := w.tickCount + 5 }
    shouldTrace := fun w elapsed => decide (w.d_traceThreshold ≠ 0 ∧ w.d_traceThreshold < elapsed) }

/-- Number of `DestroyWindow` calls recorded. -/
def destroyCalls (w : MainMessagePump) : Nat :=
  w.trace.countP fun c => c == Call.DestroyWindow

/-- What `cleanup` needs of the pump to release what `init` acquired: the two
hook handles and the run loop, and the number of `DestroyWindow` calls made
so far. -/
def hookView (w : MainMessagePump) : Nat × Nat × Nat × Bool :=
  (w.d_windowProcedureHook, w.d_messageFilter, destroyCalls w, w.d_runLoop)

/-- A function of the record that leaves the hook handles and the run loop
alone and does not destroy the window, as the task handler and the idle work
do. -/
def KeepsHooks (f : MainMessagePump → MainMessagePump) : Prop :=
  ∀ s, hookView (f s) = hookView s

/-- Lines 53-78, `getClassName`. `className` is the function's static (a null
pointer before the first call) and `atom` is what `RegisterClassW` returns if
it is called. The result is `none` when `CHECK(atom)` aborts the process, and
otherwise the static after the call and the name returned. -/
def getClassName (atom : Nat) (className : Option String) : Option (Option String × String) :=
  match className with
  | none =>
    let className := "blpwtk2::MainMessagePump"
    if atom ≠ 0 then some (some className, className) else none
  | some c => some (some c, c)

/-- Surroundings of `quietEnv` in which no hook can be installed:
`SetWindowsHookEx` returns a null handle. -/
def noHookEnv : Env :=
  { quietEnv with SetWindowsHookEx := fun _ _ => 0 }

/-- The pump after `init` and one `ScheduleWork` made while the thread queue
is full: the post failed, work is pending and `d_isPumped` is 0. -/
def pendingAfterFailedPost : MainMessagePump :=
  ScheduleWork fullQueueEnv (init quietEnv (new 7 100))

/-- The modal pump of the witnesses: after `init` and a dialog-box filter
call, with work scheduled inside the main loop at tick 100 and the clock then
advanced to `now`. -/
def modalPendingAt (now : Nat) : MainMessagePump :=
  { ScheduleWork quietEnv
      (messageFilter quietEnv MSGF_DIALOGBOX
        (preHandleMessage quietEnv (init quietEnv (new 7 100))).1).1 with tickCount := now }

/-- The part of the record that `ScheduleWork` and `resetWorkState` write,
together with the clock `ScheduleWork` reads. -/
def timedView (w : MainMessagePump) : Nat × Int × Nat :=
  (w.tickCount, w.work_state_, w.d_scheduleTime)

/-- The work flag and the schedule timestamp agree: the flag is HAVE_WORK with
a timestamp other than 0, or READY with the timestamp 0; and the tick counter
does not read 0. -/
def TimedInv (w : MainMessagePump) : Prop :=
  GetTickCount w ≠ 0 ∧
    ((w.work_state_ = HAVE_WORK ∧ w.d_scheduleTime ≠ 0) ∨
      (w.work_state_ = READY ∧ w.d_scheduleTime = 0))

/-- A function of the record that writes the work flag and the schedule
timestamp only as the pump does (a task handler reaches them through
`ScheduleWork`), does not set the clock to a tick count of 0 and does not
touch the record of the failed `resetWorkState` checks. -/
def KeepsTimed (f : MainMessagePump → MainMessagePump) : Prop :=
  ∀ s, TimedInv s →
    TimedInv (f s) ∧
    dcheckFailures Check.scheduleTime (f s) = dcheckFailures Check.scheduleTime s

/-- The states between operations in the single-threaded model, with a tick
counter that never reads 0: those reached from a freshly constructed pump by
the operations of the file and by the passing of time. -/
inductive WorkReachable : MainMessagePump → Prop
  | new (hwnd now : Nat) : now % DWORD_MOD ≠ 0 → WorkReachable (new hwnd now)
  | tick (now : Nat) {w : MainMessagePump} :
      now % DWORD_MOD ≠ 0 → WorkReachable w → WorkReachable { w with tickCount := now }
  | init (env : Env) {w : MainMessagePump} : WorkReachable w → WorkReachable (init env w)
  | ScheduleWork (env : Env) {w : MainMessagePump} :
      WorkReachable w → WorkReachable (ScheduleWork env w)
  | setTraceThreshold (timeoutMS : Nat) {w : MainMessagePump} :
      WorkReachable w → WorkReachable (setTraceThreshold timeoutMS w)
  | messageFilter (env : Env) (code : Int) {w : MainMessagePump} :
      WorkReachable w → WorkReachable (messageFilter env code w).1
  | windowProcedureHook (env : Env) (code : Int) (message : Nat) {w : MainMessagePump} :
      WorkReachable w → WorkReachable (windowProcedureHook env code message w).1
  | preHandleMessage (env : Env) {w : MainMessagePump} :
      WorkReachable w → WorkReachable (preHandleMessage env w).1
  | postHandleMessage (env : Env) {w : MainMessagePump} :
      WorkReachable w → WorkReachable (postHandleMessage env w)
  | windowProcedure (env : Env) (message : Nat) {w : MainMessagePump} :
      KeepsTimed env.handler → KeepsTimed env.DoIdleWork →
      WorkReachable w → WorkReachable (windowProcedure env message w).1
  | dispatchPumpMessage (env : Env) {w w2 : MainMessagePump} :
      KeepsTimed env.handler → KeepsTimed env.DoIdleWork →
      WorkReachable w → dispatchPumpMessage env w = some w2 → WorkReachable w2
  | flush (env : Env) {w : MainMessagePump} :
      KeepsTimed env.handler → KeepsTimed env.DoIdleWork →
      WorkReachable w → WorkReachable (flush env w)
  | cleanup (env : Env) {w w2 : MainMessagePump} :
      KeepsTimed env.handler → KeepsTimed env.DoIdleWork →
      WorkReachable w → cleanup env w = some w2 → WorkReachable w2

/-- The pumped flag is set only while a wake-up message is queued. -/
def PumpedQueued (w : MainMessagePump) : Prop :=
  w.d_isPumped ≠ 0 → w.pumpMessages ≠ 0

end MainMessagePump

/-! ## Browser contexts (`blpwtk2_processhostimpl.cc`) -/

/-- The heap of `BrowserContextImpl` objects and the map that registers them.
A `scoped_refptr<BrowserContextImpl>` is `none` (null) or the address of an
object, and the address of an object is its position in `objects`. -/
structure BrowserContexts where
  /-- Line 66: `std::map<std::string, scoped_refptr<BrowserContextImpl>>
  g_browserContexts`, as the list of its entries. -/
  g_browserContexts : List (String × Option Nat)
  /-- The objects constructed so far: the profile directory each was
  constructed with and its reference count. -/
  objects : List (String × Nat)
  /-- Number of failures of `DCHECK(!isolated)`. -/
  dcheckFailed : Nat
  deriving DecidableEq, Repr

namespace BrowserContexts

/-- No object and no map entry: the state at process start. -/
def empty : BrowserContexts :=
  { g_browserContexts := [], objects := [], dcheckFailed := 0 }

/-- The mapped value `g_browserContexts[key]` refers to, once the entry
exists. -/
def lookup (key : String) (s : BrowserContexts) : Option Nat :=
  ((s.g_browserContexts.find? fun e => e.1 == key).map Prod.snd).join

/-- `std::map::operator[]`: an entry with a null pointer is inserted when the
key has none. -/
def index (key : String) (s : BrowserContexts) : BrowserContexts :=
  if s.g_browserContexts.any (fun e => e.1 == key) then s
  else { s with g_browserContexts := s.g_browserContexts ++ [(key, none)] }

/-- `new BrowserContextImpl(profileDir)` assigned to a `scoped_refptr`: the
object is constructed with one reference. Returns the state and the address. -/
def newBrowserContextImpl (profileDir : String) (s : BrowserContexts) : BrowserContexts × Nat :=
  ({ s with objects := s.objects ++ [(profileDir, 1)] }, s.objects.length)

/-- One more reference to the object at `p`. -/
def addRef (p : Nat) (s : BrowserContexts) : BrowserContexts :=
  { s with objects := s.objects.modify (fun o => (o.1, o.2 + 1)) p }

/-- Whether the object at address `p` is alive: it has been constructed and
is referenced. -/
def alive (p : Nat) (s : BrowserContexts) : Bool :=
  match s.objects.get? p with
  | some o => decide (0 < o.2)
  | none => false

end BrowserContexts

/-- Lines 68-89, `getBrowserContext`. Returns the state and the address of the
context handed to the caller (who holds one reference to it). The local
`auto context = g_browserContexts[profileDir]` is a copy of the mapped
pointer, so the assignment of the new object to it leaves the map entry as it
was. -/
def getBrowserContext (isolated : Bool) (profileDir : String) (s : BrowserContexts) :
    BrowserContexts × Nat :=
  let s1 :=
    if profileDir ≠ "" then
      (if !isolated then s else { s with dcheckFailed := s.dcheckFailed + 1 })
    else s
  let isolated1 := if profileDir ≠ "" then false else isolated
  if !isolated1 then
    let s2 := BrowserContexts.index profileDir s1
    let context := BrowserContexts.lookup profileDir s2
    match context with
    | none => BrowserContexts.newBrowserContextImpl profileDir s2
    | some p => (BrowserContexts.addRef p s2, p)
  else
    BrowserContexts.newBrowserContextImpl profileDir s1

/-! ## Socket pool limits (`blpwtk2_toolkitfactory.cc`) -/

/-- The settings of `net::ClientSocketPoolManager` for the pool
`NORMAL_SOCKET_POOL` that `setMaxSocketsPerProxy` reads and writes, and the
number of failed `DCHECK`s of that function. -/
structure ClientSocketPoolManager where
  max_sockets_per_proxy_server : Int
  max_sockets_per_group : Int
  dcheckFailed : Nat
  deriving DecidableEq, Repr

namespace ClientSocketPoolManager

/-- Modelled from the spec: `set_max_sockets_per_proxy_server(POOL, count)` of
`net::ClientSocketPoolManager`, whose definition is not under src/; it is taken
to store `count` as the maximum per proxy server of the pool. -/
def set_max_sockets_per_proxy_server (socket_count : Int) (s : ClientSocketPoolManager) :
    ClientSocketPoolManager :=
  { s with max_sockets_per_proxy_server := socket_count }

/-- Modelled from the spec: `set_max_sockets_per_group(POOL, count)` of
`net::ClientSocketPoolManager`, whose definition is not under src/; it is taken
to store `count` as the maximum per group of the pool. -/
def set_max_sockets_per_group (socket_count : Int) (s : ClientSocketPoolManager) :
    ClientSocketPoolManager :=
  { s with max_sockets_per_group := socket_count }

/-- A `DCHECK(cond)`: counts the failure when `cond` is false. -/
def DCHECK (cond : Bool) (s : ClientSocketPoolManager) : ClientSocketPoolManager :=
  if cond then s else { s with dcheckFailed := s.dcheckFailed + 1 }

end ClientSocketPoolManager

/-- Lines 54-86, `setMaxSocketsPerProxy`, with the constant
`net::kDefaultMaxSocketsPerGroupNormal` (declared outside src/) as a
parameter. Returns the state after the first of the two setter calls and the
state on return. -/
def setMaxSocketsPerProxy (kDefaultMaxSocketsPerGroupNormal : Int) (count : Int)
    (s : ClientSocketPoolManager) : ClientSocketPoolManager × ClientSocketPoolManager :=
  let s0 := ClientSocketPoolManager.DCHECK (decide (99 ≥ count))
    (ClientSocketPoolManager.DCHECK (decide (1 ≤ count)) s)
  let prevMaxPerProxy := s0.max_sockets_per_proxy_server
  let newMaxPerGroup := min count kDefaultMaxSocketsPerGroupNormal
  if newMaxPerGroup > prevMaxPerProxy then
    let s1 := s0.set_max_sockets_per_proxy_server count
    (s1, s1.set_max_sockets_per_group newMaxPerGroup)
  else
    let s1 := s0.set_max_sockets_per_group newMaxPerGroup
    (s1, s1.set_max_sockets_per_proxy_server count)

/-! ## Command-line switches (`blpwtk2_toolkitimpl.cc`) -/

/-- The switch prefixes of `GetSwitchPrefixLength`, line 211, as UTF-16 code
units: `L"--"`, `L"-"`, `L"/"`. -/
def kSwitchPrefixes : List (List Nat) := [[0x2D, 0x2D], [0x2D], [0x2F]]

/-- Line 227: `kSwitchValueSeparator`, the code unit of `=`. -/
def kSwitchValueSeparator : Nat := 0x3D

/-- The loop of `GetSwitchPrefixLength`, lines 214-220, over the prefixes
still to be tried. `string.compare(0, prefix.length(), prefix) == 0` holds
when the first `prefix.length()` code units of `string` (fewer when it is
shorter) are those of `prefix`. -/
def GetSwitchPrefixLengthLoop (string : List Nat) : List (List Nat) → Nat
  | [] => 0
  | p :: ps =>
    if string.take p.length == p then p.length else GetSwitchPrefixLengthLoop string ps

/-- Lines 209-221. A `base::string16` is the list of its UTF-16 code units. -/
def GetSwitchPrefixLength (string : List Nat) : Nat :=
  GetSwitchPrefixLengthLoop string kSwitchPrefixes

/-- The position `string.find(separator)` returns for a separator of one code
unit: that of its first occurrence, `none` for `npos`. -/
def find (string : List Nat) (c : Nat) : Option Nat :=
  match string with
  | [] => none
  | x :: xs => if x = c then some 0 else (find xs c).map (· + 1)

/-- Lines 223-244, `IsSwitch`. Returns the result, `*switch_string` and
`*switch_value`. -/
def IsSwitch (string : List Nat) : Bool × List Nat × List Nat :=
  let switch_string : List Nat := []
  let switch_value : List Nat := []
  let prefix_length := GetSwitchPrefixLength string
  if prefix_length = 0 ∨ prefix_length = string.length then
    (false, switch_string, switch_value)
  else
    let equals_position := find string kSwitchValueSeparator
    let switch_string :=
      match equals_position with
      | some p => string.take p
      | none => string
    let switch_value :=
      match equals_position with
      | some p => string.drop (p + 1)
      | none => switch_value
    (true, switch_string, switch_value)

namespace MainMessagePump

/-! ## Basic facts -/

/-- `cleanup` in closed form: when `flush` leaves a run loop in `d_runLoop`,
the teardown of lines 439-444 releases it and records four calls; when it
leaves none, `cleanup` does not return. -/
theorem cleanup_eq (env : Env) (w : MainMessagePump) :
    cleanup env w =
      (if (flush env w).d_runLoop then
        some { flush env w with
          d_runLoop := false
          trace := (flush env w).trace ++ [Call.PopRunState, Call.AfterRun,
            Call.UnhookWindowsHookEx (flush env w).d_windowProcedureHook,
            Call.UnhookWindowsHookEx (flush env w).d_messageFilter] }
      else none) := by
  cases h : (flush env w).d_runLoop <;> simp [cleanup, record, h]

/-- When `cleanup` returns, `flush`'s result held a run loop, and the result
is that of `flush` with the run loop released and the calls of the teardown
recorded. -/
theorem cleanup_some (env : Env) (w w2 : MainMessagePump) (h : cleanup env w = some w2) :
    (flush env w).d_runLoop = true ∧
    w2 = { flush env w with
      d_runLoop := false
      trace := (flush env w).trace ++ [Call.PopRunState, Call.AfterRun,
        Call.UnhookWindowsHookEx (flush env w).d_windowProcedureHook,
        Call.UnhookWindowsHookEx (flush env w).d_messageFilter] } := by
  rw [cleanup_eq] at h
  cases hr : (flush env w).d_runLoop
  · rw [hr] at h
    exact absurd h (by simp)
  · rw [hr] at h
    simp only [if_true, Option.some.injEq] at h
    exact ⟨rfl, h.symm⟩

theorem postAttempts_record (c : Call) (w : MainMessagePump) :
    postAttempts (record c w) =
      postAttempts w + (match c with | Call.PostMessageW _ => 1 | _ => 0) := by
  cases c <;> simp [postAttempts, record, List.countP_append]

/-- What `schedulePump` leaves alone. -/
theorem schedulePump_frame (env : Env) (w : MainMessagePump) :
    (schedulePump env w).work_state_ = w.work_state_ ∧
    (schedulePump env w).d_scheduleTime = w.d_scheduleTime ∧
    (schedulePump env w).d_skipIdleWork = w.d_skipIdleWork ∧
    (schedulePump env w).d_isInsideMainLoop = w.d_isInsideMainLoop ∧
    (schedulePump env w).d_isInsideModalLoop = w.d_isInsideModalLoop ∧
    (schedulePump env w).d_nestLevel = w.d_nestLevel ∧
    (schedulePump env w).d_maxPumpCountInsideModalLoop = w.d_maxPumpCountInsideModalLoop ∧
    (schedulePump env w).tickCount = w.tickCount := by
  unfold schedulePump
  by_cases h : (0 : Int) ≠ w.d_isPumped
  · simp [h]
  · cases hr : env.PostMessageW { w with d_isPumped := 1 } <;> simp [h, hr, record]

theorem schedulePump_pumped (env : Env) (w : MainMessagePump) (h : w.d_isPumped ≠ 0) :
    schedulePump env w = { w with d_isPumped := 1 } := by
  have h' : (0 : Int) ≠ w.d_isPumped := fun e => h e.symm
  simp [schedulePump, h']

theorem schedulePump_posts (env : Env) (w : MainMessagePump) (h : w.d_isPumped = 0) :
    schedulePump env w =
      { w with d_isPumped := if env.PostMessageW { w with d_isPumped := 1 } then 1 else 0,
               d_needRepost := if env.PostMessageW { w with d_isPumped := 1 } then 0 else 1,
               pumpMessages := w.pumpMessages +
                 (if env.PostMessageW { w with d_isPumped := 1 } then 1 else 0),
               trace := w.trace ++ [Call.PostMessageW (env.PostMessageW { w with d_isPumped := 1 })] } := by
  cases hr : env.PostMessageW { w with d_isPumped := 1 } <;> simp [schedulePump, h, hr, record]

theorem postAttempts_schedulePump (env : Env) (w : MainMessagePump) :
    postAttempts (schedulePump env w) = postAttempts w + (if w.d_isPumped = 0 then 1 else 0) := by
  by_cases h : w.d_isPumped = 0
  · rw [schedulePump_posts env w h]
    simp [postAttempts, List.countP_append, h]
  · rw [schedulePump_pumped env w h]
    simp [postAttempts, h]

theorem DCHECK_eq (cond : Bool) (c : Check) (w : MainMessagePump) :
    DCHECK cond c w =
      { w with trace := w.trace ++ (if cond then [] else [Call.DCheckFailed c]) } := by
  cases cond <;> simp [DCHECK, record]

theorem drainLoop_one (env : Env) (w : MainMessagePump) :
    drainLoop env 1 w = (drain env w, 1) := by
  simp [drainLoop]

theorem postAttempts_doWorkExit (env : Env) (t : Nat) (w : MainMessagePump) :
    postAttempts (doWorkExit env t w) = postAttempts w := by
  unfold doWorkExit
  by_cases h : env.shouldTrace w (subDWORD (GetTickCount w) t) = true
  · simp [h, postAttempts, record, List.countP_append]
  · simp [h, postAttempts]

theorem doWorkExit_frame (env : Env) (t : Nat) (w : MainMessagePump) :
    (doWorkExit env t w).work_state_ = w.work_state_ ∧
    (doWorkExit env t w).d_scheduleTime = w.d_scheduleTime ∧
    (doWorkExit env t w).d_isPumped = w.d_isPumped ∧
    (doWorkExit env t w).d_skipIdleWork = w.d_skipIdleWork ∧
    (doWorkExit env t w).pumpMessages = w.pumpMessages ∧
    (doWorkExit env t w).d_nestLevel = w.d_nestLevel - 1 := by
  unfold doWorkExit
  by_cases h : env.shouldTrace w (subDWORD (GetTickCount w) t) = true
  · simp [h, record]
  · simp [h]

theorem doWorkIdle_skip (env : Env) (w : MainMessagePump) (h : w.d_skipIdleWork = true) :
    doWorkIdle env w = { w with d_skipIdleWork := false } := by
  simp [doWorkIdle, h]

theorem doWorkEnter_work_state (w : MainMessagePump) :
    (doWorkEnter w).work_state_ = w.work_state_ := by
  simp [doWorkEnter, DCHECK_eq]

theorem drain_work_state (env : Env) (w : MainMessagePump)
    (h : ∀ s, (env.handler s).work_state_ = s.work_state_) :
    (drain env w).work_state_ = READY := by
  unfold drain
  rw [h]
  simp [record, resetWorkState, ResetWorkState, DCHECK_eq]

theorem doWorkIdle_work_state (env : Env) (w : MainMessagePump)
    (h : ∀ s, (env.DoIdleWork s).work_state_ = s.work_state_) :
    (doWorkIdle env w).work_state_ = w.work_state_ := by
  have h1 : (env.DoIdleWork (record Call.DoIdleWork w)).work_state_ = w.work_state_ :=
    h (record Call.DoIdleWork w)
  simp only [doWorkIdle]
  split_ifs
  · exact h1
  · exact h1
  · rfl

/-- With a handler that always leaves HAVE_WORK behind, the drain loop ends
with the work flag HAVE_WORK. -/
theorem drainLoop_busy (env : Env) (hH : ∀ s, (env.handler s).work_state_ = HAVE_WORK) :
    ∀ (n : Nat) (w : MainMessagePump), w.work_state_ = HAVE_WORK →
      (drainLoop env n w).1.work_state_ = HAVE_WORK
  | 0, w, h => by simpa [drainLoop] using h
  | n + 1, w, _ => by
    have hd : (drain env w).work_state_ = HAVE_WORK := hH _
    have hne : ¬ (READY = (drain env w).work_state_) := by
      rw [hd]; decide
    simp only [drainLoop, hne, if_false]
    exact drainLoop_busy env hH n (drain env w) hd

theorem doWork_busy (env : Env) (hH : ∀ s, (env.handler s).work_state_ = HAVE_WORK)
    (hI : ∀ s, (env.DoIdleWork s).work_state_ = s.work_state_)
    (w : MainMessagePump) (h : w.work_state_ = HAVE_WORK) :
    (doWork env w).work_state_ = HAVE_WORK := by
  unfold doWork
  simp only []
  rw [(doWorkExit_frame env _ _).1, doWorkIdle_work_state env _ hI]
  exact drainLoop_busy env hH _ _ (by rw [doWorkEnter_work_state]; exact h)

theorem flushLoop_busy (env : Env) (hH : ∀ s, (env.handler s).work_state_ = HAVE_WORK)
    (hI : ∀ s, (env.DoIdleWork s).work_state_ = s.work_state_) :
    ∀ (n : Nat) (w : MainMessagePump), w.work_state_ = HAVE_WORK →
      (flushLoop env n w).2 = n
  | 0, _, _ => by simp [flushLoop]
  | n + 1, w, h => by
    have h1 : (schedulePump env w).work_state_ = HAVE_WORK := by
      rw [(schedulePump_frame env w).1]; exact h
    have h2 := doWork_busy env hH hI _ h1
    simp only [flushLoop, if_pos h.symm]
    rw [flushLoop_busy env hH hI n _ h2]

theorem flushLoop_le (env : Env) :
    ∀ (n : Nat) (w : MainMessagePump), (flushLoop env n w).2 ≤ n
  | 0, _ => by simp [flushLoop]
  | n + 1, w => by
    by_cases h : HAVE_WORK = w.work_state_
    · simp only [flushLoop, if_pos h]
      exact Nat.succ_le_succ (flushLoop_le env n _)
    · simp [flushLoop, h]

theorem flushLoop_idle (env : Env) (n : Nat) (w : MainMessagePump)
    (h : w.work_state_ ≠ HAVE_WORK) : flushLoop env n w = (w, 0) := by
  have h' : ¬ (HAVE_WORK = w.work_state_) := fun e => h e.symm
  cases n <;> simp [flushLoop, h']

theorem flushLoop_drained_or_full (env : Env) :
    ∀ (n : Nat) (w : MainMessagePump),
      (flushLoop env n w).1.work_state_ ≠ HAVE_WORK ∨ (flushLoop env n w).2 = n
  | 0, _ => by simp [flushLoop]
  | n + 1, w => by
    by_cases h : HAVE_WORK = w.work_state_
    · simp only [flushLoop, if_pos h]
      rcases flushLoop_drained_or_full env n (doWork env (schedulePump env w)) with h1 | h1
      · exact Or.inl h1
      · exact Or.inr (by rw [h1])
    · left
      simp only [flushLoop, if_neg h]
      exact fun e => h e.symm

theorem ScheduleWork_work_state (env : Env) (w : MainMessagePump) :
    (ScheduleWork env w).work_state_ = HAVE_WORK := by
  unfold ScheduleWork
  simp only []
  split_ifs
  · rw [(schedulePump_frame env _).1]
  · rfl

theorem maxPumpCount_doWorkEnter (w : MainMessagePump) :
    maxPumpCount (doWorkEnter w) = maxPumpCount w := by
  simp [maxPumpCount, doWorkEnter, DCHECK_eq]

theorem maxPumpCount_schedulePump (env : Env) (w : MainMessagePump) :
    maxPumpCount (schedulePump env w) = maxPumpCount w := by
  obtain ⟨_, _, _, _, h5, _, h7, _⟩ := schedulePump_frame env w
  simp [maxPumpCount, h5, h7]

/-- When neither the handler nor the idle work touches the work flag and the
drain loop runs at all, one `doWork` cycle makes one drain and leaves READY. -/
theorem drainLoop_quiet (env : Env) (h : ∀ s, (env.handler s).work_state_ = s.work_state_)
    (n : Nat) (w : MainMessagePump) :
    drainLoop env (n + 1) w = (drain env w, 1) := by
  have hd : READY = (drain env w).work_state_ := (drain_work_state env w h).symm
  simp only [drainLoop, if_pos hd]

theorem doWork_quiet (env : Env) (hH : ∀ s, (env.handler s).work_state_ = s.work_state_)
    (hI : ∀ s, (env.DoIdleWork s).work_state_ = s.work_state_)
    (w : MainMessagePump) (hn : 0 < maxPumpCount w) :
    (doWork env w).work_state_ = READY := by
  obtain ⟨k, hk⟩ : ∃ k, maxPumpCount (doWorkEnter w) = k + 1 := by
    rw [maxPumpCount_doWorkEnter]
    exact ⟨maxPumpCount w - 1, by omega⟩
  unfold doWork
  simp only []
  rw [(doWorkExit_frame env _ _).1, doWorkIdle_work_state env _ hI, hk,
    drainLoop_quiet env hH]
  exact drain_work_state env _ hH

theorem flushLoop_have_work (env : Env) (n : Nat) (w : MainMessagePump)
    (h : w.work_state_ = HAVE_WORK) :
    flushLoop env (n + 1) w =
      ((flushLoop env n (doWork env (schedulePump env w))).1,
        (flushLoop env n (doWork env (schedulePump env w))).2 + 1) := by
  simp only [flushLoop, if_pos h.symm]

/-- The drain loop with `n` iterations left makes `k` drains, where
`1 ≤ k ≤ n` (for `n > 0`), no drain before the `k`-th leaves READY, and the
`k`-th leaves READY unless `k = n`. -/
theorem drainLoop_spec (env : Env) :
    ∀ (n : Nat) (w : MainMessagePump),
      (drainLoop env n w).1 = (drain env)^[(drainLoop env n w).2] w ∧
      (drainLoop env n w).2 ≤ n ∧
      (0 < n → 1 ≤ (drainLoop env n w).2) ∧
      (∀ j, 1 ≤ j → j < (drainLoop env n w).2 →
        ((drain env)^[j] w).work_state_ ≠ READY) ∧
      ((drainLoop env n w).2 < n →
        ((drain env)^[(drainLoop env n w).2] w).work_state_ = READY)
  | 0, w => by simp [drainLoop]
  | n + 1, w => by
    by_cases h : READY = (drain env w).work_state_
    · simp only [drainLoop, if_pos h]
      refine ⟨rfl, by omega, fun _ => le_refl 1, fun j h1 h2 => by omega, fun _ => ?_⟩
      exact h.symm
    · obtain ⟨i1, i2, _, i4, i5⟩ := drainLoop_spec env n (drain env w)
      simp only [drainLoop, if_neg h]
      refine ⟨?_, by omega, fun _ => by omega, fun j h1 h2 => ?_, fun h3 => ?_⟩
      · rw [Function.iterate_succ_apply]
        exact i1
      · obtain ⟨j', rfl⟩ : ∃ j', j = j' + 1 := ⟨j - 1, by omega⟩
        rw [Function.iterate_succ_apply]
        by_cases hj : j' = 0
        · subst hj
          exact fun e => h e.symm
        · exact i4 j' (by omega) (by omega)
      · rw [Function.iterate_succ_apply]
        exact i5 (by omega)

theorem sameSchedule_refl (w : MainMessagePump) : SameSchedule w w :=
  ⟨rfl, rfl, rfl, rfl, rfl, rfl⟩

theorem modalLoop_sameSchedule (b : Bool) (w : MainMessagePump) :
    SameSchedule (modalLoop b w) w := by
  unfold modalLoop SameSchedule
  split_ifs <;> simp [record, postAttempts, List.countP_append]

theorem windowProcedureHookSwitch_sameSchedule (message : Nat) (w : MainMessagePump) :
    SameSchedule (windowProcedureHookSwitch message w) w := by
  unfold windowProcedureHookSwitch
  split_ifs <;> first | exact modalLoop_sameSchedule _ w | exact sameSchedule_refl w

theorem sameTimers_refl (w : MainMessagePump) : SameTimers w w := ⟨rfl, rfl, rfl⟩

theorem sameTimers_trans {a b c : MainMessagePump} (h1 : SameTimers a b) (h2 : SameTimers b c) :
    SameTimers a c :=
  ⟨h1.1.trans h2.1, h1.2.1.trans h2.2.1, h1.2.2.trans h2.2.2⟩

theorem timerBalanced_of_same {a b : MainMessagePump} (h : SameTimers a b)
    (hb : TimerBalanced b) : TimerBalanced a := by
  unfold TimerBalanced at *
  rw [h.1, h.2.1, h.2.2]
  exact hb

theorem DCHECK_sameTimers (cond : Bool) (c : Check) (w : MainMessagePump) :
    SameTimers (DCHECK cond c w) w := by
  rw [DCHECK_eq]
  cases cond <;> simp [SameTimers, setTimerCalls, killTimerCalls, List.countP_append]

theorem schedulePump_sameTimers (env : Env) (w : MainMessagePump) :
    SameTimers (schedulePump env w) w := by
  by_cases h : w.d_isPumped = 0
  · rw [schedulePump_posts env w h]
    simp [SameTimers, setTimerCalls, killTimerCalls, List.countP_append]
  · rw [schedulePump_pumped env w h]
    exact ⟨rfl, rfl, rfl⟩

theorem schedulePumpIfNecessary_sameTimers (env : Env) (w : MainMessagePump) :
    SameTimers (schedulePumpIfNecessary env w) w := by
  unfold schedulePumpIfNecessary
  simp only []
  split_ifs
  · exact schedulePump_sameTimers env w
  · exact sameTimers_refl w

theorem modalLoop_noop (b : Bool) (w : MainMessagePump) (h : w.d_isInsideModalLoop = b) :
    modalLoop b w = w := by
  simp [modalLoop, h]

theorem modalLoop_balanced (b : Bool) (w : MainMessagePump) (h : TimerBalanced w) :
    TimerBalanced (modalLoop b w) := by
  unfold TimerBalanced at *
  cases hb : b <;> cases hm : w.d_isInsideModalLoop <;>
    simp [modalLoop, hm, record, setTimerCalls, killTimerCalls, List.countP_append] at h ⊢ <;>
    omega

theorem isModalCode_iff (code : Int) :
    isModalCode code = true ↔
      (code = MSGF_DIALOGBOX ∨ code = MSGF_MENU ∨ code = MSGF_SCROLLBAR ∨ code = 3 ∨ code = 4) := by
  simp only [isModalCode, MSGF_DIALOGBOX, MSGF_MENU, MSGF_SCROLLBAR, Bool.or_eq_true, beq_iff_eq]
  constructor <;> intro h <;> omega

theorem messageFilter_balanced (env : Env) (code : Int) (w : MainMessagePump)
    (h : TimerBalanced w) : TimerBalanced (messageFilter env code w).1 := by
  simp only [messageFilter]
  split_ifs
  · exact modalLoop_balanced true w h
  · exact h

theorem windowProcedureHookSwitch_balanced (message : Nat) (w : MainMessagePump)
    (h : TimerBalanced w) : TimerBalanced (windowProcedureHookSwitch message w) := by
  unfold windowProcedureHookSwitch
  split_ifs <;> first | exact modalLoop_balanced _ w h | exact h

theorem windowProcedureHook_balanced (env : Env) (code : Int) (message : Nat)
    (w : MainMessagePump) (h : TimerBalanced w) :
    TimerBalanced (windowProcedureHook env code message w).1 := by
  have h1 := windowProcedureHookSwitch_balanced message w h
  simp only [windowProcedureHook]
  split_ifs
  · exact timerBalanced_of_same (schedulePumpIfNecessary_sameTimers env _) h1
  · exact timerBalanced_of_same
      (sameTimers_trans (schedulePumpIfNecessary_sameTimers env _) ⟨rfl, rfl, rfl⟩) h1
  · exact h1
  · exact h1

theorem preHandleMessage_balanced (env : Env) (w : MainMessagePump) (h : TimerBalanced w) :
    TimerBalanced (preHandleMessage env w).1 := by
  simp only [preHandleMessage]
  apply messageFilter_balanced
  refine timerBalanced_of_same (sameTimers_trans (DCHECK_sameTimers _ _ _) ?_) h
  exact sameTimers_trans ⟨rfl, rfl, rfl⟩ (DCHECK_sameTimers _ _ w)

theorem postHandleMessageExit_balanced (w : MainMessagePump) (h : TimerBalanced w) :
    TimerBalanced (postHandleMessageExit w) := by
  have h3 : TimerBalanced (DCHECK (1 == (DCHECK w.d_runLoop Check.runLoop w).d_isInsideMainLoop)
      Check.wasInsideMainLoop
      { DCHECK w.d_runLoop Check.runLoop w with d_isInsideMainLoop := 0 }) := by
    refine timerBalanced_of_same (sameTimers_trans (DCHECK_sameTimers _ _ _) ?_) h
    exact sameTimers_trans ⟨rfl, rfl, rfl⟩ (DCHECK_sameTimers _ _ w)
  simp only [postHandleMessageExit]
  split_ifs
  · exact modalLoop_balanced false _ h3
  · exact h3

theorem postHandleMessageSchedule_sameTimers (env : Env) (w : MainMessagePump) :
    SameTimers (postHandleMessageSchedule env w) w := by
  simp only [postHandleMessageSchedule]
  split_ifs
  · split
    · split
      · exact sameTimers_trans (schedulePump_sameTimers env _)
          (sameTimers_trans ⟨rfl, rfl, rfl⟩ (DCHECK_sameTimers _ _ w))
      · exact sameTimers_refl w
    · exact schedulePump_sameTimers env w
  · exact sameTimers_refl w

theorem postHandleMessage_balanced (env : Env) (w : MainMessagePump) (h : TimerBalanced w) :
    TimerBalanced (postHandleMessage env w) :=
  timerBalanced_of_same (postHandleMessageSchedule_sameTimers env _)
    (postHandleMessageExit_balanced w h)

theorem init_sameTimers (env : Env) (w : MainMessagePump) : SameTimers (init env w) w := by
  simp [SameTimers, init, record, setTimerCalls, killTimerCalls, List.countP_append]

theorem ScheduleWork_sameTimers (env : Env) (w : MainMessagePump) :
    SameTimers (ScheduleWork env w) w := by
  simp only [ScheduleWork]
  split_ifs
  · exact sameTimers_trans (schedulePump_sameTimers env _) ⟨rfl, rfl, rfl⟩
  · exact ⟨rfl, rfl, rfl⟩

theorem setTraceThreshold_sameTimers (timeoutMS : Nat) (w : MainMessagePump) :
    SameTimers (setTraceThreshold timeoutMS w) w := by
  simp [SameTimers, setTraceThreshold, record, setTimerCalls, killTimerCalls,
    List.countP_append]

theorem windowProcedure_sameTimers (env : Env) (message : Nat) (w : MainMessagePump)
    (h : message ≠ kPumpMessage) : SameTimers (windowProcedure env message w).1 w := by
  have h' : ¬ (kPumpMessage = message) := fun e => h e.symm
  simp only [windowProcedure, if_neg h']
  split_ifs
  · exact sameTimers_trans (schedulePumpIfNecessary_sameTimers env _)
      (sameTimers_trans ⟨rfl, rfl, rfl⟩ (DCHECK_sameTimers _ _ w))
  · exact DCHECK_sameTimers _ _ w
  · exact sameTimers_refl w

theorem modalReachable_balanced {w : MainMessagePump} (h : ModalReachable w) :
    TimerBalanced w := by
  induction h with
  | new hwnd now => simp [TimerBalanced, MainMessagePump.new, setTimerCalls, killTimerCalls]
  | modalLoop b _ ih => exact modalLoop_balanced b _ ih
  | messageFilter env code _ ih => exact messageFilter_balanced env code _ ih
  | windowProcedureHook env code message _ ih =>
    exact windowProcedureHook_balanced env code message _ ih
  | preHandleMessage env _ ih => exact preHandleMessage_balanced env _ ih
  | postHandleMessage env _ ih => exact postHandleMessage_balanced env _ ih
  | init env _ ih => exact timerBalanced_of_same (init_sameTimers env _) ih
  | ScheduleWork env _ ih => exact timerBalanced_of_same (ScheduleWork_sameTimers env _) ih
  | setTraceThreshold t _ ih => exact timerBalanced_of_same (setTraceThreshold_sameTimers t _) ih
  | windowProcedure env message hm _ ih =>
    exact timerBalanced_of_same (windowProcedure_sameTimers env message _ hm) ih

/-! ## Claims -/

/-- C1: for every pump state `ScheduleWork` sets the work flag to HAVE_WORK
and `d_scheduleTime` to the current tick count; when `d_isInsideMainLoop` is 0
it also sets `d_skipIdleWork` and goes on as `schedulePump` does (one post
attempt when `d_isPumped` was 0, none otherwise); when `d_isInsideMainLoop` is
not 0 it attempts no post and leaves `d_isPumped`, `d_needRepost` and
`d_skipIdleWork` as they were. -/
theorem C1_ScheduleWork_contract (env : Env) (w : MainMessagePump) :
    (ScheduleWork env w).work_state_ = HAVE_WORK ∧
    (ScheduleWork env w).d_scheduleTime = GetTickCount w ∧
    (w.d_isInsideMainLoop = 0 →
      (ScheduleWork env w).d_skipIdleWork = true ∧
      ScheduleWork env w =
        schedulePump env { w with work_state_ := HAVE_WORK, d_scheduleTime := GetTickCount w,
                                  d_skipIdleWork := true } ∧
      (w.d_isPumped = 0 → postAttempts (ScheduleWork env w) = postAttempts w + 1) ∧
      (w.d_isPumped ≠ 0 → postAttempts (ScheduleWork env w) = postAttempts w)) ∧
    (w.d_isInsideMainLoop ≠ 0 →
      postAttempts (ScheduleWork env w) = postAttempts w ∧
      (ScheduleWork env w).d_isPumped = w.d_isPumped ∧
      (ScheduleWork env w).d_needRepost = w.d_needRepost ∧
      (ScheduleWork env w).d_skipIdleWork = w.d_skipIdleWork) := by
  by_cases hm : w.d_isInsideMainLoop = 0
  · have hS : ScheduleWork env w =
        schedulePump env { w with work_state_ := HAVE_WORK, d_scheduleTime := GetTickCount w,
                                  d_skipIdleWork := true } := by
      simp [ScheduleWork, hm, GetTickCount]
    have hf := schedulePump_frame env
      { w with work_state_ := HAVE_WORK, d_scheduleTime := GetTickCount w, d_skipIdleWork := true }
    have hc := postAttempts_schedulePump env
      { w with work_state_ := HAVE_WORK, d_scheduleTime := GetTickCount w, d_skipIdleWork := true }
    rw [← hS] at hf hc
    refine ⟨hf.1, hf.2.1, fun _ => ⟨hf.2.2.1, hS, ?_, ?_⟩, fun h => absurd hm h⟩
    · intro hp
      rw [hc]
      simp [hp, postAttempts]
    · intro hp
      rw [hc]
      simp [hp, postAttempts]
  · have hm' : (0 : Int) ≠ w.d_isInsideMainLoop := fun e => hm e.symm
    have hS : ScheduleWork env w =
        { w with work_state_ := HAVE_WORK, d_scheduleTime := GetTickCount w } := by
      simp [ScheduleWork, hm', GetTickCount]
    refine ⟨?_, ?_, fun h => absurd h hm, fun _ => ?_⟩
    · rw [hS]
    · rw [hS]
    · rw [hS]
      exact ⟨rfl, rfl, rfl, rfl⟩

/-- C1, evaluated: on a freshly constructed pump one `ScheduleWork` makes one
post attempt; on a pump between `preHandleMessage` and `postHandleMessage`
(`d_isInsideMainLoop = 1`) it makes none. -/
theorem C1_ScheduleWork_witness :
    (new 7 100).d_isInsideMainLoop = 0 ∧ (new 7 100).d_isPumped = 0 ∧
    postAttempts (ScheduleWork quietEnv (new 7 100)) = postAttempts (new 7 100) + 1 ∧
    postAttempts (ScheduleWork quietEnv { new 7 100 with d_isInsideMainLoop := 1 }) =
      postAttempts { new 7 100 with d_isInsideMainLoop := 1 } :=
  ⟨rfl, rfl, ((C1_ScheduleWork_contract quietEnv (new 7 100)).2.2.1 rfl).2.2.1 rfl,
    ((C1_ScheduleWork_contract quietEnv { new 7 100 with d_isInsideMainLoop := 1 }).2.2.2
      (by decide)).1⟩

/-- C2: from a state as the constructor leaves it (not inside the main loop,
not in a modal loop, `d_isPumped = 0`, work flag READY), when the post made by
`ScheduleWork` succeeds and the task handler does not reschedule work, exactly
one wake-up message is posted, by `ScheduleWork` itself; dispatching it runs
`doWork` with exactly one drain, and afterwards the work flag is READY,
`d_isPumped` is 0, `d_scheduleTime` is 0 and no further post was attempted. -/
theorem C2_idle_schedule_scenario (env : Env) (w : MainMessagePump)
    (hMain : w.d_isInsideMainLoop = 0) (hModal : w.d_isInsideModalLoop = false)
    (hPumped : w.d_isPumped = 0) (_hReady : w.work_state_ = READY)
    (hPost : env.PostMessageW
      { w with work_state_ := HAVE_WORK, d_scheduleTime := GetTickCount w,
               d_skipIdleWork := true, d_isPumped := 1 } = true)
    (hHandler : NoReschedule env.handler) :
    postAttempts (ScheduleWork env w) = postAttempts w + 1 ∧
    (ScheduleWork env w).pumpMessages = w.pumpMessages + 1 ∧
    (ScheduleWork env w).trace = w.trace ++ [Call.PostMessageW true] ∧
    ∃ w2, dispatchPumpMessage env (ScheduleWork env w) = some w2 ∧
      w2 = doWork env { ScheduleWork env w with pumpMessages := w.pumpMessages } ∧
      doWorkDrains env { ScheduleWork env w with pumpMessages := w.pumpMessages } = 1 ∧
      w2.work_state_ = READY ∧ w2.d_isPumped = 0 ∧ w2.d_scheduleTime = 0 ∧
      w2.pumpMessages = w.pumpMessages ∧ postAttempts w2 = postAttempts w + 1 := by
  have hS : ScheduleWork env w =
      { w with work_state_ := HAVE_WORK, d_scheduleTime := GetTickCount w,
               d_skipIdleWork := true, d_isPumped := 1, d_needRepost := 0,
               pumpMessages := w.pumpMessages + 1,
               trace := w.trace ++ [Call.PostMessageW true] } := by
    have h1 : ScheduleWork env w = schedulePump env
        { w with work_state_ := HAVE_WORK, d_scheduleTime := GetTickCount w,
                 d_skipIdleWork := true } := by
      simp [ScheduleWork, hMain, GetTickCount]
    rw [h1]
    simp [schedulePump, hPumped, hPost, record]
  have hA : postAttempts (ScheduleWork env w) = postAttempts w + 1 := by
    rw [hS]; simp [postAttempts, List.countP_append]
  refine ⟨hA, by rw [hS], by rw [hS], ?_⟩
  have hD : dispatchPumpMessage env (ScheduleWork env w) =
      some (doWork env { ScheduleWork env w with pumpMessages := w.pumpMessages }) := by
    rw [hS]
    simp [dispatchPumpMessage, windowProcedure]
  refine ⟨_, hD, rfl, ?_, ?_⟩
  · unfold doWorkDrains
    have hm : maxPumpCount (doWorkEnter { ScheduleWork env w with pumpMessages := w.pumpMessages })
        = 1 := by
      rw [hS]
      simp [maxPumpCount, doWorkEnter, DCHECK_eq, hModal]
    rw [hm, drainLoop_one]
  · have hm : maxPumpCount (doWorkEnter { ScheduleWork env w with pumpMessages := w.pumpMessages })
        = 1 := by
      rw [hS]
      simp [maxPumpCount, doWorkEnter, DCHECK_eq, hModal]
    have hW : doWork env { ScheduleWork env w with pumpMessages := w.pumpMessages } =
        doWorkExit env
          (GetTickCount (doWorkEnter { ScheduleWork env w with pumpMessages := w.pumpMessages }))
          (doWorkIdle env
            (drain env (doWorkEnter { ScheduleWork env w with pumpMessages := w.pumpMessages }))) := by
      simp only [doWork]
      rw [hm, drainLoop_one]
    obtain ⟨h1, h2, h3, h4, h5, h6⟩ := hHandler (record Call.SendMessageW (resetWorkState
      (doWorkEnter { ScheduleWork env w with pumpMessages := w.pumpMessages })))
    have hskip : (drain env
        (doWorkEnter { ScheduleWork env w with pumpMessages := w.pumpMessages })).d_skipIdleWork
        = true := by
      unfold drain
      rw [h4, hS]
      simp [record, resetWorkState, ResetWorkState, doWorkEnter, DCHECK_eq]
    have e1 := doWorkExit_frame env
      (GetTickCount (doWorkEnter { ScheduleWork env w with pumpMessages := w.pumpMessages }))
      (doWorkIdle env
        (drain env (doWorkEnter { ScheduleWork env w with pumpMessages := w.pumpMessages })))
    have e2 := postAttempts_doWorkExit env
      (GetTickCount (doWorkEnter { ScheduleWork env w with pumpMessages := w.pumpMessages }))
      (doWorkIdle env
        (drain env (doWorkEnter { ScheduleWork env w with pumpMessages := w.pumpMessages })))
    rw [← hW] at e1 e2
    rw [doWorkIdle_skip env _ hskip] at e1 e2
    obtain ⟨f1, f2, f3, _, f5, _⟩ := e1
    simp only [] at f1 f2 f3 f5
    refine ⟨?_, ?_, ?_, ?_, ?_⟩
    · rw [f1]; unfold drain; rw [h1]
      simp [record, resetWorkState, ResetWorkState, DCHECK_eq]
    · rw [f3]; unfold drain; rw [h3]
      simp [record, resetWorkState, ResetWorkState, doWorkEnter, DCHECK_eq]
    · rw [f2]; unfold drain; rw [h2]
      simp [record, resetWorkState, ResetWorkState, DCHECK_eq]
    · rw [f5]; unfold drain; rw [h5]
      simp [record, resetWorkState, ResetWorkState, doWorkEnter, DCHECK_eq]
    · rw [e2]
      have : postAttempts { drain env
          (doWorkEnter { ScheduleWork env w with pumpMessages := w.pumpMessages })
          with d_skipIdleWork := false } = postAttempts (drain env
          (doWorkEnter { ScheduleWork env w with pumpMessages := w.pumpMessages })) := rfl
      rw [this]; unfold drain; rw [h6, hS]
      simp [postAttempts, record, resetWorkState, ResetWorkState, doWorkEnter, DCHECK_eq,
        List.countP_append]

/-- C2, evaluated on the freshly constructed pump with a handler that does
nothing. -/
theorem C2_idle_schedule_witness :
    postAttempts (ScheduleWork quietEnv (new 7 100)) = postAttempts (new 7 100) + 1 ∧
    (ScheduleWork quietEnv (new 7 100)).pumpMessages = (new 7 100).pumpMessages + 1 ∧
    (ScheduleWork quietEnv (new 7 100)).trace = (new 7 100).trace ++ [Call.PostMessageW true] ∧
    ∃ w2, dispatchPumpMessage quietEnv (ScheduleWork quietEnv (new 7 100)) = some w2 ∧
      w2 = doWork quietEnv
        { ScheduleWork quietEnv (new 7 100) with pumpMessages := (new 7 100).pumpMessages } ∧
      doWorkDrains quietEnv
        { ScheduleWork quietEnv (new 7 100) with pumpMessages := (new 7 100).pumpMessages } = 1 ∧
      w2.work_state_ = READY ∧ w2.d_isPumped = 0 ∧ w2.d_scheduleTime = 0 ∧
      w2.pumpMessages = (new 7 100).pumpMessages ∧
      postAttempts w2 = postAttempts (new 7 100) + 1 :=
  C2_idle_schedule_scenario quietEnv (new 7 100) rfl rfl rfl rfl rfl
    (fun _ => ⟨rfl, rfl, rfl, rfl, rfl, rfl⟩)

/-- C3 as stated fails: on a freshly constructed pump (work flag READY) a
handler that reschedules on every drain is never run by `flush`, which makes
no cycle at all, not 255. -/
theorem C3_flush_idle_counterexample :
    (∀ s, (busyEnv.handler s).work_state_ = HAVE_WORK) ∧
    (new 7 100).work_state_ = READY ∧
    flushCycles busyEnv (new 7 100) = 0 ∧
    flushCycles busyEnv (new 7 100) ≠ 255 :=
  ⟨fun s => ScheduleWork_work_state quietEnv s, rfl, by decide, by decide⟩

/-- C3 (amended): for every pump state and every task handler `flush` runs
at most 255 `doWork` cycles; it runs exactly 255 when the work flag is
HAVE_WORK at entry, the handler leaves HAVE_WORK behind on every drain and the
idle work does not touch the flag; it runs none when the work flag is not
HAVE_WORK at entry. (`flush` is a total function: it returns whenever the
handler does.) -/
theorem C3_flush_bounded (env : Env) (w : MainMessagePump) :
    flushCycles env w ≤ 255 ∧
    (w.work_state_ = HAVE_WORK →
      (∀ s, (env.handler s).work_state_ = HAVE_WORK) →
      (∀ s, (env.DoIdleWork s).work_state_ = s.work_state_) →
      flushCycles env w = 255) ∧
    (w.work_state_ ≠ HAVE_WORK → flushCycles env w = 0) := by
  refine ⟨flushLoop_le env 255 w, fun h hH hI => flushLoop_busy env hH hI 255 w h, fun h => ?_⟩
  unfold flushCycles
  rw [flushLoop_idle env 255 w h]

/-- C3, evaluated: once work is scheduled on the fresh pump, `flush` with the
always-rescheduling handler runs 255 cycles. -/
theorem C3_flush_bounded_witness :
    (ScheduleWork quietEnv (new 7 100)).work_state_ = HAVE_WORK ∧
    flushCycles busyEnv (ScheduleWork quietEnv (new 7 100)) = 255 :=
  ⟨rfl, (C3_flush_bounded busyEnv (ScheduleWork quietEnv (new 7 100))).2.1 rfl
    (fun s => ScheduleWork_work_state quietEnv s) (fun _ => rfl)⟩

/-- C4: when `flush` returns, the work flag is not HAVE_WORK or exactly 255
cycles were run; when the work flag is not HAVE_WORK at entry, `flush` runs no
cycle and changes nothing; when it is HAVE_WORK at entry and neither the
handler nor the idle work touches the work flag (the drain bound being
positive, as the constructor leaves it), `flush` runs a single cycle and
leaves the work flag READY. -/
theorem C4_flush_drains (env : Env) (w : MainMessagePump) :
    ((flush env w).work_state_ ≠ HAVE_WORK ∨ flushCycles env w = 255) ∧
    (w.work_state_ ≠ HAVE_WORK → flushCycles env w = 0 ∧ flush env w = w) ∧
    (w.work_state_ = HAVE_WORK →
      (∀ s, (env.handler s).work_state_ = s.work_state_) →
      (∀ s, (env.DoIdleWork s).work_state_ = s.work_state_) →
      0 < w.d_maxPumpCountInsideModalLoop →
      flushCycles env w = 1 ∧ (flush env w).work_state_ = READY ∧
      flush env w = doWork env (schedulePump env w)) := by
  refine ⟨flushLoop_drained_or_full env 255 w, fun h => ?_, fun h hH hI hn => ?_⟩
  · unfold flushCycles flush
    rw [flushLoop_idle env 255 w h]
    exact ⟨rfl, rfl⟩
  · have hpos : 0 < maxPumpCount (schedulePump env w) := by
      rw [maxPumpCount_schedulePump]
      unfold maxPumpCount
      split_ifs
      · decide
      · exact hn
    have hr : (doWork env (schedulePump env w)).work_state_ = READY :=
      doWork_quiet env hH hI _ hpos
    have hne : (doWork env (schedulePump env w)).work_state_ ≠ HAVE_WORK := by
      rw [hr]; decide
    have hL : flushLoop env 255 w = (doWork env (schedulePump env w), 1) := by
      have h1 := flushLoop_have_work env 254 w h
      rw [flushLoop_idle env 254 _ hne] at h1
      exact h1
    unfold flushCycles flush
    rw [hL]
    exact ⟨rfl, hr, rfl⟩

/-- C4, evaluated: with work scheduled on the fresh pump and a handler that
does nothing, `flush` runs one cycle and leaves READY; on the fresh pump
itself it runs none. -/
theorem C4_flush_drains_witness :
    (ScheduleWork quietEnv (new 7 100)).work_state_ = HAVE_WORK ∧
    flushCycles quietEnv (ScheduleWork quietEnv (new 7 100)) = 1 ∧
    (flush quietEnv (ScheduleWork quietEnv (new 7 100))).work_state_ = READY ∧
    flushCycles quietEnv (new 7 100) = 0 ∧ flush quietEnv (new 7 100) = new 7 100 :=
  ⟨rfl,
    ((C4_flush_drains quietEnv (ScheduleWork quietEnv (new 7 100))).2.2 rfl
      (fun _ => rfl) (fun _ => rfl) (by decide)).1,
    ((C4_flush_drains quietEnv (ScheduleWork quietEnv (new 7 100))).2.2 rfl
      (fun _ => rfl) (fun _ => rfl) (by decide)).2.1,
    ((C4_flush_drains quietEnv (new 7 100)).2.1 (by decide)).1,
    ((C4_flush_drains quietEnv (new 7 100)).2.1 (by decide)).2⟩

/-- C5: with the drain bound the constructor sets (16), one `doWork()` call
makes exactly 1 drain when `d_isInsideModalLoop` is false at entry and between
1 and 16 drains when it is true at entry; no drain before the last leaves the
work flag READY, and the last one does unless the bound taken at entry was
reached. This holds for every task handler, also one that changes the modal
flag during the drains: the bound depends on the entry state alone. -/
theorem C5_doWork_drain_count (env : Env) (w : MainMessagePump)
    (h16 : w.d_maxPumpCountInsideModalLoop = 16) :
    (w.d_isInsideModalLoop = false → doWorkDrains env w = 1) ∧
    (w.d_isInsideModalLoop = true → 1 ≤ doWorkDrains env w ∧ doWorkDrains env w ≤ 16) ∧
    (∀ j, 1 ≤ j → j < doWorkDrains env w →
      ((drain env)^[j] (doWorkEnter w)).work_state_ ≠ READY) ∧
    (doWorkDrains env w < (if w.d_isInsideModalLoop then 16 else 1) →
      ((drain env)^[doWorkDrains env w] (doWorkEnter w)).work_state_ = READY) ∧
    (drainLoop env (maxPumpCount (doWorkEnter w)) (doWorkEnter w)).1 =
      (drain env)^[doWorkDrains env w] (doWorkEnter w) := by
  have hb : maxPumpCount (doWorkEnter w) = if w.d_isInsideModalLoop then 16 else 1 := by
    rw [maxPumpCount_doWorkEnter]
    unfold maxPumpCount
    cases w.d_isInsideModalLoop <;> simp [h16]
  obtain ⟨s1, s2, s3, s4, s5⟩ :=
    drainLoop_spec env (maxPumpCount (doWorkEnter w)) (doWorkEnter w)
  unfold doWorkDrains
  generalize drainLoop env (maxPumpCount (doWorkEnter w)) (doWorkEnter w) = r at s1 s2 s3 s4 s5 ⊢
  rw [hb] at s2 s3 s5
  refine ⟨fun hm => ?_, fun hm => ?_, s4, s5, s1⟩
  · rw [hm] at s2 s3
    have h1 : 1 ≤ r.2 := s3 (by decide)
    have h2 : r.2 ≤ 1 := s2
    omega
  · rw [hm] at s2 s3
    exact ⟨s3 (by decide), s2⟩

/-- C5, evaluated with a handler that reschedules and flips the modal flag on
every drain: entered outside a modal loop `doWork` drains once although the
flag is true after the drain; entered inside a modal loop it drains 16 times
although the flag is false after the first drain. -/
theorem C5_doWork_drain_count_witness :
    (new 7 100).d_maxPumpCountInsideModalLoop = 16 ∧
    doWorkDrains flipEnv (new 7 100) = 1 ∧
    (drain flipEnv (doWorkEnter (new 7 100))).d_isInsideModalLoop = true ∧
    doWorkDrains flipEnv { new 7 100 with d_isInsideModalLoop := true } = 16 ∧
    (drain flipEnv
      (doWorkEnter { new 7 100 with d_isInsideModalLoop := true })).d_isInsideModalLoop = false :=
  ⟨rfl, (C5_doWork_drain_count flipEnv (new 7 100) rfl).1 rfl, rfl, by decide, rfl⟩

/-- C6: the first steps of `doWork()` record a failure of the pumped-flag
check `DCHECK_EQ(1, wasPumped)` if and only if `d_isPumped` is not 1 at entry;
in either case `d_isPumped` is 0 right after the check, and when `d_isPumped`
is 1 at entry no failure of that check is recorded. -/
theorem C6_doWork_pumped_assertion (env : Env) (w : MainMessagePump) :
    doWork env w =
      doWorkExit env (GetTickCount (doWorkEnter w))
        (doWorkIdle env (drainLoop env (maxPumpCount (doWorkEnter w)) (doWorkEnter w)).1) ∧
    (dcheckFailures Check.wasPumped (doWorkEnter w) = dcheckFailures Check.wasPumped w + 1 ↔
      w.d_isPumped ≠ 1) ∧
    (w.d_isPumped = 1 →
      dcheckFailures Check.wasPumped (doWorkEnter w) = dcheckFailures Check.wasPumped w) ∧
    (doWorkEnter w).d_isPumped = 0 := by
  have hc : dcheckFailures Check.wasPumped (doWorkEnter w) =
      dcheckFailures Check.wasPumped w + (if w.d_isPumped = 1 then 0 else 1) := by
    by_cases h1 : w.d_isPumped = 1
    · by_cases h2 : 0 ≤ w.d_nestLevel <;>
        simp [dcheckFailures, doWorkEnter, DCHECK_eq, List.countP_append, h1, h2]
    · have h1' : ¬ (1 = w.d_isPumped) := fun e => h1 e.symm
      by_cases h2 : 0 ≤ w.d_nestLevel <;>
        simp [dcheckFailures, doWorkEnter, DCHECK_eq, List.countP_append, h1, h1', h2]
  refine ⟨rfl, ?_, fun h => ?_, ?_⟩
  · rw [hc]
    by_cases h1 : w.d_isPumped = 1 <;> simp [h1]
  · rw [hc]
    simp [h]
  · simp [doWorkEnter, DCHECK_eq]

/-- C6, evaluated: entered with `d_isPumped = 0` the check fails once;
entered with `d_isPumped = 1` it does not fail. -/
theorem C6_doWork_pumped_assertion_witness :
    dcheckFailures Check.wasPumped (doWorkEnter (new 7 100)) = 1 ∧
    dcheckFailures Check.wasPumped (doWorkEnter { new 7 100 with d_isPumped := 1 }) = 0 :=
  ⟨(C6_doWork_pumped_assertion quietEnv (new 7 100)).2.1.mpr (by decide),
    (C6_doWork_pumped_assertion quietEnv { new 7 100 with d_isPumped := 1 }).2.2.1 rfl⟩

/-- C7: for every state with `d_isPumped = 0`, when the post made by
`schedulePump()` fails, on return `d_isPumped` is 0 again, `d_needRepost` is 1
and no wake-up message was queued; when it succeeds, `d_isPumped` is 1,
`d_needRepost` is 0 and one message was queued. In both cases the one thing
recorded is the post attempt: no check fails and the function returns. -/
theorem C7_schedulePump_post_failure (env : Env) (w : MainMessagePump)
    (h : w.d_isPumped = 0) :
    (env.PostMessageW { w with d_isPumped := 1 } = false →
      (schedulePump env w).d_isPumped = 0 ∧ (schedulePump env w).d_needRepost = 1 ∧
      (schedulePump env w).pumpMessages = w.pumpMessages ∧
      (schedulePump env w).trace = w.trace ++ [Call.PostMessageW false]) ∧
    (env.PostMessageW { w with d_isPumped := 1 } = true →
      (schedulePump env w).d_isPumped = 1 ∧ (schedulePump env w).d_needRepost = 0 ∧
      (schedulePump env w).pumpMessages = w.pumpMessages + 1 ∧
      (schedulePump env w).trace = w.trace ++ [Call.PostMessageW true]) := by
  rw [schedulePump_posts env w h]
  constructor
  · intro hp
    simp [hp]
  · intro hp
    simp [hp]

/-- C7, evaluated on the fresh pump with a full queue and with a queue that
accepts the post. -/
theorem C7_schedulePump_post_failure_witness :
    ((schedulePump fullQueueEnv (new 7 100)).d_isPumped = 0 ∧
      (schedulePump fullQueueEnv (new 7 100)).d_needRepost = 1 ∧
      (schedulePump fullQueueEnv (new 7 100)).pumpMessages = (new 7 100).pumpMessages ∧
      (schedulePump fullQueueEnv (new 7 100)).trace =
        (new 7 100).trace ++ [Call.PostMessageW false]) ∧
    ((schedulePump quietEnv (new 7 100)).d_isPumped = 1 ∧
      (schedulePump quietEnv (new 7 100)).d_needRepost = 0 ∧
      (schedulePump quietEnv (new 7 100)).pumpMessages = (new 7 100).pumpMessages + 1 ∧
      (schedulePump quietEnv (new 7 100)).trace =
        (new 7 100).trace ++ [Call.PostMessageW true]) :=
  ⟨(C7_schedulePump_post_failure fullQueueEnv (new 7 100) rfl).1 rfl,
    (C7_schedulePump_post_failure quietEnv (new 7 100) rfl).2 rfl⟩

/-- C8: for every state with `d_needRepost` set, work flag HAVE_WORK and
`d_isPumped = 0`, `windowProcedureHook`, whatever the hooked message, makes
one more post attempt (it goes on as `schedulePump` after its `switch`) and
leaves `d_skipIdleWork` as it was; when that post succeeds `d_isPumped` is 1
and `d_needRepost` is 0 afterwards, and when it fails again they are 0 and 1. -/
theorem C8_hook_retries_post (env : Env) (code : Int) (message : Nat) (w : MainMessagePump)
    (hR : w.d_needRepost ≠ 0) (hW : w.work_state_ = HAVE_WORK) (hP : w.d_isPumped = 0) :
    (windowProcedureHook env code message w).1 =
      schedulePump env (windowProcedureHookSwitch message w) ∧
    postAttempts (windowProcedureHook env code message w).1 = postAttempts w + 1 ∧
    (windowProcedureHook env code message w).1.d_skipIdleWork = w.d_skipIdleWork ∧
    (env.PostMessageW { windowProcedureHookSwitch message w with d_isPumped := 1 } = true →
      (windowProcedureHook env code message w).1.d_isPumped = 1 ∧
      (windowProcedureHook env code message w).1.d_needRepost = 0) ∧
    (env.PostMessageW { windowProcedureHookSwitch message w with d_isPumped := 1 } = false →
      (windowProcedureHook env code message w).1.d_isPumped = 0 ∧
      (windowProcedureHook env code message w).1.d_needRepost = 1) := by
  obtain ⟨f1, f2, f3, f4, _, f6⟩ := windowProcedureHookSwitch_sameSchedule message w
  have hR1 : (windowProcedureHookSwitch message w).d_needRepost ≠ 0 := by rw [f2]; exact hR
  have hW1 : HAVE_WORK = (windowProcedureHookSwitch message w).work_state_ := by rw [f1, hW]
  have hP1 : (windowProcedureHookSwitch message w).d_isPumped = 0 := by rw [f3]; exact hP
  have hE : (windowProcedureHook env code message w).1 =
      schedulePump env (windowProcedureHookSwitch message w) := by
    simp only [windowProcedureHook, schedulePumpIfNecessary]
    rw [if_pos hR1, if_pos hW1]
  rw [hE]
  refine ⟨rfl, ?_, ?_, ?_, ?_⟩
  · rw [postAttempts_schedulePump, if_pos hP1, f6]
  · rw [(schedulePump_frame env _).2.2.1, f4]
  · intro hp
    rw [schedulePump_posts env _ hP1]
    simp [hp]
  · intro hp
    rw [schedulePump_posts env _ hP1]
    simp [hp]

/-- C8, evaluated: after a failed post on the fresh pump with work scheduled,
a hooked `WM_TIMER` call with a queue that accepts the post leaves
`d_isPumped = 1` and `d_needRepost = 0`. -/
theorem C8_hook_retries_post_witness :
    (ScheduleWork fullQueueEnv (new 7 100)).d_needRepost = 1 ∧
    (ScheduleWork fullQueueEnv (new 7 100)).work_state_ = HAVE_WORK ∧
    (ScheduleWork fullQueueEnv (new 7 100)).d_isPumped = 0 ∧
    (windowProcedureHook quietEnv 0 WM_TIMER
      (ScheduleWork fullQueueEnv (new 7 100))).1.d_isPumped = 1 ∧
    (windowProcedureHook quietEnv 0 WM_TIMER
      (ScheduleWork fullQueueEnv (new 7 100))).1.d_needRepost = 0 :=
  ⟨rfl, rfl, rfl,
    ((C8_hook_retries_post quietEnv 0 WM_TIMER (ScheduleWork fullQueueEnv (new 7 100))
      (by decide) rfl rfl).2.2.2.1 rfl).1,
    ((C8_hook_retries_post quietEnv 0 WM_TIMER (ScheduleWork fullQueueEnv (new 7 100))
      (by decide) rfl rfl).2.2.2.1 rfl).2⟩

/-- C9: `modalLoop(b)` changes nothing (no flag change, no `SetTimer` or
`KillTimer` call) when `d_isInsideModalLoop` already equals `b`; and in every
state reached from construction by calls of `modalLoop` and of the functions
that call it (the two hooks, `preHandleMessage`, `postHandleMessage`), also
interleaved with `init`, `ScheduleWork`, `setTraceThreshold` and timer
messages, the `SetTimer` calls exceed the `KillTimer` calls by one when
`d_isInsideModalLoop` is true and equal them when it is false. -/
theorem C9_modalLoop_idempotent (w : MainMessagePump) :
    (∀ b, w.d_isInsideModalLoop = b → modalLoop b w = w) ∧
    (ModalReachable w →
      setTimerCalls w = killTimerCalls w + (if w.d_isInsideModalLoop then 1 else 0)) :=
  ⟨fun b h => modalLoop_noop b w h, fun h => modalReachable_balanced h⟩

/-- C9, evaluated: a dialog-box filter call followed by a hooked
`WM_ENTERSIZEMOVE` enters the modal loop once, with one `SetTimer` call and no
`KillTimer` call; a hooked `WM_EXITSIZEMOVE` followed by `postHandleMessage`
leaves it once, with one `KillTimer` call. -/
theorem C9_modalLoop_idempotent_witness :
    ModalReachable
      (windowProcedureHook quietEnv 0 WM_ENTERSIZEMOVE
        (messageFilter quietEnv MSGF_DIALOGBOX (new 7 100)).1).1 ∧
    (windowProcedureHook quietEnv 0 WM_ENTERSIZEMOVE
      (messageFilter quietEnv MSGF_DIALOGBOX (new 7 100)).1).1.d_isInsideModalLoop = true ∧
    setTimerCalls (windowProcedureHook quietEnv 0 WM_ENTERSIZEMOVE
      (messageFilter quietEnv MSGF_DIALOGBOX (new 7 100)).1).1 = 1 ∧
    killTimerCalls (windowProcedureHook quietEnv 0 WM_ENTERSIZEMOVE
      (messageFilter quietEnv MSGF_DIALOGBOX (new 7 100)).1).1 = 0 ∧
    setTimerCalls (windowProcedureHook quietEnv 0 WM_ENTERSIZEMOVE
      (messageFilter quietEnv MSGF_DIALOGBOX (new 7 100)).1).1 =
      killTimerCalls (windowProcedureHook quietEnv 0 WM_ENTERSIZEMOVE
        (messageFilter quietEnv MSGF_DIALOGBOX (new 7 100)).1).1 + 1 ∧
    setTimerCalls (postHandleMessage quietEnv (windowProcedureHook quietEnv 0 WM_EXITSIZEMOVE
      (windowProcedureHook quietEnv 0 WM_ENTERSIZEMOVE
        (messageFilter quietEnv MSGF_DIALOGBOX (new 7 100)).1).1).1) = 1 ∧
    killTimerCalls (postHandleMessage quietEnv (windowProcedureHook quietEnv 0 WM_EXITSIZEMOVE
      (windowProcedureHook quietEnv 0 WM_ENTERSIZEMOVE
        (messageFilter quietEnv MSGF_DIALOGBOX (new 7 100)).1).1).1) = 1 :=
  ⟨ModalReachable.windowProcedureHook quietEnv 0 WM_ENTERSIZEMOVE
      (ModalReachable.messageFilter quietEnv MSGF_DIALOGBOX (ModalReachable.new 7 100)),
    rfl, by decide, by decide,
    (C9_modalLoop_idempotent _).2
      (ModalReachable.windowProcedureHook quietEnv 0 WM_ENTERSIZEMOVE
        (ModalReachable.messageFilter quietEnv MSGF_DIALOGBOX (ModalReachable.new 7 100))),
    by decide, by decide⟩

/-- C10: the message-filter hook takes the pump from outside the modal-loop
state into it if and only if the pump is not in it and the code is
MSGF_DIALOGBOX, MSGF_MENU, MSGF_SCROLLBAR, 3 or 4, and then it does what
`modalLoop(true)` does; in every other case (another code, or a pump already
in the modal-loop state) it leaves the state as it is, as it does for the code
`preHandleMessage` passes to `CallMsgFilter`. -/
theorem C10_messageFilter_modal_codes (env : Env) (code : Int) (w : MainMessagePump) :
    ((w.d_isInsideModalLoop = false ∧ (messageFilter env code w).1.d_isInsideModalLoop = true) ↔
      (w.d_isInsideModalLoop = false ∧
        (code = MSGF_DIALOGBOX ∨ code = MSGF_MENU ∨ code = MSGF_SCROLLBAR ∨
          code = 3 ∨ code = 4))) ∧
    ((w.d_isInsideModalLoop = false ∧
        (code = MSGF_DIALOGBOX ∨ code = MSGF_MENU ∨ code = MSGF_SCROLLBAR ∨
          code = 3 ∨ code = 4)) →
      (messageFilter env code w).1 = modalLoop true w) ∧
    (¬ (w.d_isInsideModalLoop = false ∧
        (code = MSGF_DIALOGBOX ∨ code = MSGF_MENU ∨ code = MSGF_SCROLLBAR ∨
          code = 3 ∨ code = 4)) →
      (messageFilter env code w).1 = w) ∧
    (messageFilter env kMessageFilterCode w).1 = w ∧
    (preHandleMessage env w).1.d_isInsideModalLoop = w.d_isInsideModalLoop := by
  have hk : isModalCode kMessageFilterCode = false := by decide
  have hyes : (w.d_isInsideModalLoop = false ∧
        (code = MSGF_DIALOGBOX ∨ code = MSGF_MENU ∨ code = MSGF_SCROLLBAR ∨
          code = 3 ∨ code = 4)) → (messageFilter env code w).1 = modalLoop true w := by
    rintro ⟨h1, h2⟩
    have h3 := (isModalCode_iff code).mpr h2
    simp [messageFilter, h1, h3]
  have hno : ¬ (w.d_isInsideModalLoop = false ∧
        (code = MSGF_DIALOGBOX ∨ code = MSGF_MENU ∨ code = MSGF_SCROLLBAR ∨
          code = 3 ∨ code = 4)) → (messageFilter env code w).1 = w := by
    intro h
    rw [← isModalCode_iff] at h
    cases h1 : w.d_isInsideModalLoop <;> cases h3 : isModalCode code <;>
      simp [messageFilter, h1, h3] at h ⊢
  refine ⟨⟨fun ⟨h1, h2⟩ => ⟨h1, ?_⟩, fun h => ⟨h.1, ?_⟩⟩, hyes, hno, ?_, ?_⟩
  · by_contra hc
    rw [hno (fun h => hc h.2), h1] at h2
    exact absurd h2 (by decide)
  · rw [hyes h]
    simp [modalLoop, h.1, record]
  · simp [messageFilter, hk]
  · simp [preHandleMessage, messageFilter, hk, DCHECK_eq]

/-- C10, evaluated: the dialog-box code switches the fresh pump into the
modal-loop state, the code 1 (message box) does not. -/
theorem C10_messageFilter_modal_codes_witness :
    (messageFilter quietEnv MSGF_DIALOGBOX (new 7 100)).1 = modalLoop true (new 7 100) ∧
    (messageFilter quietEnv MSGF_DIALOGBOX (new 7 100)).1.d_isInsideModalLoop = true ∧
    (messageFilter quietEnv 1 (new 7 100)).1 = new 7 100 :=
  ⟨(C10_messageFilter_modal_codes quietEnv MSGF_DIALOGBOX (new 7 100)).2.1
      ⟨rfl, Or.inl rfl⟩,
    ((C10_messageFilter_modal_codes quietEnv MSGF_DIALOGBOX (new 7 100)).1.mpr
      ⟨rfl, Or.inl rfl⟩).2,
    (C10_messageFilter_modal_codes quietEnv 1 (new 7 100)).2.2.1 (by decide)⟩

/-! ## Claims C11 to C20 -/

theorem windowProcedureHook_eq (env : Env) (code : Int) (message : Nat) (w : MainMessagePump) :
    (windowProcedureHook env code message w).1 =
      windowProcedureHookSchedule env (windowProcedureHookSwitch message w) := rfl

theorem windowProcedureHookSchedule_sameTimers (env : Env) (w : MainMessagePump) :
    SameTimers (windowProcedureHookSchedule env w) w := by
  simp only [windowProcedureHookSchedule]
  split_ifs
  · exact schedulePumpIfNecessary_sameTimers env _
  · exact sameTimers_trans (schedulePumpIfNecessary_sameTimers env _) ⟨rfl, rfl, rfl⟩
  · exact sameTimers_refl w
  · exact sameTimers_refl w

theorem modalLoop_flag (b : Bool) (w : MainMessagePump) :
    (modalLoop b w).d_isInsideModalLoop = b := by
  cases b <;> cases h : w.d_isInsideModalLoop <;> simp [modalLoop, h, record]

theorem windowProcedureHookSwitch_flag (message : Nat) (w : MainMessagePump) :
    (windowProcedureHookSwitch message w).d_isInsideModalLoop =
      (if message = WM_ENTERSIZEMOVE ∨ message = WM_ENTERMENULOOP then true
       else if message = WM_EXITSIZEMOVE ∨ message = WM_EXITMENULOOP then false
       else if message = kMsgHaveWork then w.d_isInsideModalLoop
       else if 0 < w.d_nestLevel then true
       else w.d_isInsideModalLoop) := by
  unfold windowProcedureHookSwitch
  by_cases h1 : message = WM_ENTERSIZEMOVE
  · subst h1
    simp [modalLoop_flag]
  by_cases h2 : message = WM_EXITSIZEMOVE
  · subst h2
    have c1 : WM_EXITSIZEMOVE ≠ WM_ENTERSIZEMOVE := by decide
    have c2 : WM_EXITSIZEMOVE ≠ WM_ENTERMENULOOP := by decide
    simp [modalLoop_flag, c1, c2]
  by_cases h3 : message = WM_ENTERMENULOOP
  · subst h3
    have c1 : WM_ENTERMENULOOP ≠ WM_ENTERSIZEMOVE := by decide
    have c2 : WM_ENTERMENULOOP ≠ WM_EXITSIZEMOVE := by decide
    simp [modalLoop_flag, c1, c2]
  by_cases h4 : message = WM_EXITMENULOOP
  · subst h4
    have c1 : WM_EXITMENULOOP ≠ WM_ENTERSIZEMOVE := by decide
    have c2 : WM_EXITMENULOOP ≠ WM_EXITSIZEMOVE := by decide
    have c3 : WM_EXITMENULOOP ≠ WM_ENTERMENULOOP := by decide
    simp [modalLoop_flag, c1, c2, c3]
  by_cases h5 : message = kMsgHaveWork
  · simp only [h1, h2, h3, h4, if_false, or_self]
    simp only [h5, if_true]
  by_cases h6 : 0 < w.d_nestLevel
  · simp only [h1, h2, h3, h4, h5, if_false, or_self, gt_iff_lt, h6, if_true, modalLoop_flag]
  · simp only [h1, h2, h3, h4, h5, if_false, or_self, gt_iff_lt, h6]

/-- C11: the modal flag after `windowProcedureHook` is a function of the
hooked message, the nest level and the previous flag: WM_ENTERSIZEMOVE and
WM_ENTERMENULOOP give true, WM_EXITSIZEMOVE and WM_EXITMENULOOP give false,
`kMsgHaveWork` leaves the flag as it was whatever `d_nestLevel` is, and every
other message gives true when `d_nestLevel > 0` and leaves the flag as it was
otherwise. -/
theorem C11_hook_modal_flag (env : Env) (code : Int) (message : Nat) (w : MainMessagePump) :
    (windowProcedureHook env code message w).1.d_isInsideModalLoop =
      (if message = WM_ENTERSIZEMOVE ∨ message = WM_ENTERMENULOOP then true
       else if message = WM_EXITSIZEMOVE ∨ message = WM_EXITMENULOOP then false
       else if message = kMsgHaveWork then w.d_isInsideModalLoop
       else if 0 < w.d_nestLevel then true
       else w.d_isInsideModalLoop) ∧
    (message = kMsgHaveWork →
      (windowProcedureHook env code message w).1.d_isInsideModalLoop =
        w.d_isInsideModalLoop) ∧
    (message ≠ WM_ENTERSIZEMOVE → message ≠ WM_ENTERMENULOOP →
      message ≠ WM_EXITSIZEMOVE → message ≠ WM_EXITMENULOOP → message ≠ kMsgHaveWork →
      (0 < w.d_nestLevel →
        (windowProcedureHook env code message w).1.d_isInsideModalLoop = true) ∧
      (w.d_nestLevel = 0 →
        (windowProcedureHook env code message w).1.d_isInsideModalLoop =
          w.d_isInsideModalLoop)) := by
  have hE : (windowProcedureHook env code message w).1.d_isInsideModalLoop =
      (windowProcedureHookSwitch message w).d_isInsideModalLoop := by
    rw [windowProcedureHook_eq]
    exact (windowProcedureHookSchedule_sameTimers env _).1
  rw [hE, windowProcedureHookSwitch_flag]
  refine ⟨rfl, fun h => ?_, fun h1 h2 h3 h4 h5 => ⟨fun h6 => ?_, fun h6 => ?_⟩⟩
  · subst h
    simp [kMsgHaveWork, WM_USER, WM_ENTERSIZEMOVE, WM_ENTERMENULOOP, WM_EXITSIZEMOVE,
      WM_EXITMENULOOP]
  · simp [h1, h2, h3, h4, h5, h6]
  · simp [h1, h2, h3, h4, h5, h6]

/-- C11, evaluated: inside a `doWork` cycle (`d_nestLevel = 1`) a hooked
`kMsgHaveWork` leaves the fresh pump outside the modal-loop state, a hooked
`WM_PAINT` (0x000F) puts it into that state, and with `d_nestLevel = 0` the
same `WM_PAINT` does not. -/
theorem C11_hook_modal_flag_witness :
    (windowProcedureHook quietEnv 0 kMsgHaveWork
      { new 7 100 with d_nestLevel := 1 }).1.d_isInsideModalLoop = false ∧
    (windowProcedureHook quietEnv 0 0x000F
      { new 7 100 with d_nestLevel := 1 }).1.d_isInsideModalLoop = true ∧
    (windowProcedureHook quietEnv 0 0x000F (new 7 100)).1.d_isInsideModalLoop = false :=
  ⟨(C11_hook_modal_flag quietEnv 0 kMsgHaveWork { new 7 100 with d_nestLevel := 1 }).2.1 rfl,
    ((C11_hook_modal_flag quietEnv 0 0x000F { new 7 100 with d_nestLevel := 1 }).2.2
      (by decide) (by decide) (by decide) (by decide) (by decide)).1 (by decide),
    ((C11_hook_modal_flag quietEnv 0 0x000F (new 7 100)).2.2
      (by decide) (by decide) (by decide) (by decide) (by decide)).2 rfl⟩

theorem DCHECK_sameSchedule (cond : Bool) (c : Check) (w : MainMessagePump) :
    SameSchedule (DCHECK cond c w) w := by
  rw [DCHECK_eq]
  cases cond <;> simp [SameSchedule, postAttempts, List.countP_append]

theorem sameSchedule_trans {a b c : MainMessagePump} (h1 : SameSchedule a b)
    (h2 : SameSchedule b c) : SameSchedule a c :=
  ⟨h1.1.trans h2.1, h1.2.1.trans h2.2.1, h1.2.2.1.trans h2.2.2.1,
    h1.2.2.2.1.trans h2.2.2.2.1, h1.2.2.2.2.1.trans h2.2.2.2.2.1,
    h1.2.2.2.2.2.trans h2.2.2.2.2.2⟩

theorem postHandleMessageExit_sameSchedule (w : MainMessagePump) :
    SameSchedule (postHandleMessageExit w) w := by
  have h3 : SameSchedule (DCHECK (1 == (DCHECK w.d_runLoop Check.runLoop w).d_isInsideMainLoop)
      Check.wasInsideMainLoop
      { DCHECK w.d_runLoop Check.runLoop w with d_isInsideMainLoop := 0 }) w :=
    sameSchedule_trans (DCHECK_sameSchedule _ _ _)
      (sameSchedule_trans ⟨rfl, rfl, rfl, rfl, rfl, rfl⟩ (DCHECK_sameSchedule _ _ w))
  simp only [postHandleMessageExit]
  split_ifs
  · exact sameSchedule_trans (modalLoop_sameSchedule false _) h3
  · exact h3

theorem modalLoop_mainLoop (b : Bool) (w : MainMessagePump) :
    (modalLoop b w).d_isInsideMainLoop = w.d_isInsideMainLoop := by
  unfold modalLoop
  split_ifs <;> simp [record]

theorem postHandleMessageExit_mainLoop (w : MainMessagePump) :
    (postHandleMessageExit w).d_isInsideMainLoop = 0 := by
  simp only [postHandleMessageExit]
  split_ifs
  · rw [modalLoop_mainLoop]
    simp [DCHECK_eq]
  · simp [DCHECK_eq]

theorem postHandleMessageSchedule_mainLoop (env : Env) (w : MainMessagePump) :
    (postHandleMessageSchedule env w).d_isInsideMainLoop = w.d_isInsideMainLoop := by
  simp only [postHandleMessageSchedule]
  split_ifs
  · split
    · split
      · rw [(schedulePump_frame env _).2.2.2.1]
        simp [DCHECK_eq]
      · rfl
    · rw [(schedulePump_frame env _).2.2.2.1]
  · rfl

theorem postHandleMessageExit_timers (w : MainMessagePump) :
    (postHandleMessageExit w).d_isInsideModalLoop = false ∧
    setTimerCalls (postHandleMessageExit w) = setTimerCalls w ∧
    killTimerCalls (postHandleMessageExit w) =
      killTimerCalls w + (if w.d_isInsideModalLoop then 1 else 0) := by
  cases hm : w.d_isInsideModalLoop <;> cases hr : w.d_runLoop <;>
    by_cases hl : (1 : Int) = w.d_isInsideMainLoop <;>
    simp [postHandleMessageExit, DCHECK_eq, modalLoop, record, hm, hr, hl, setTimerCalls,
      killTimerCalls, List.countP_append]

theorem dcheckFailures_schedulePump (env : Env) (c : Check) (w : MainMessagePump) :
    dcheckFailures c (schedulePump env w) = dcheckFailures c w := by
  by_cases h : w.d_isPumped = 0
  · rw [schedulePump_posts env w h]
    simp [dcheckFailures, List.countP_append]
  · rw [schedulePump_pumped env w h]
    rfl

theorem dcheckFailures_postHandleMessageSchedule (env : Env) (w : MainMessagePump) :
    dcheckFailures Check.wasInsideMainLoop (postHandleMessageSchedule env w) =
      dcheckFailures Check.wasInsideMainLoop w := by
  simp only [postHandleMessageSchedule]
  split_ifs
  · split
    · split
      · rw [dcheckFailures_schedulePump, DCHECK_eq]
        split_ifs <;> simp [dcheckFailures, List.countP_append]
      · rfl
    · rw [dcheckFailures_schedulePump]
  · rfl

theorem dcheckFailures_postHandleMessageExit (w : MainMessagePump)
    (h : w.d_isInsideMainLoop = 1) :
    dcheckFailures Check.wasInsideMainLoop (postHandleMessageExit w) =
      dcheckFailures Check.wasInsideMainLoop w := by
  cases hm : w.d_isInsideModalLoop <;> cases hr : w.d_runLoop <;>
    simp [postHandleMessageExit, DCHECK_eq, modalLoop, record, hm, hr, h, dcheckFailures,
      List.countP_append]

/-- C12 as stated fails: a modal loop entered through the message-filter hook
(code MSGF_DIALOGBOX) is exited by a hooked `WM_EXITSIZEMOVE`, with its
`KillTimer` call, without any `postHandleMessage`. -/
theorem C12_hook_exit_counterexample :
    (new 7 100).d_isInsideModalLoop = false ∧
    (messageFilter quietEnv MSGF_DIALOGBOX (new 7 100)).1.d_isInsideModalLoop = true ∧
    (windowProcedureHook quietEnv 0 WM_EXITSIZEMOVE
      (messageFilter quietEnv MSGF_DIALOGBOX (new 7 100)).1).1.d_isInsideModalLoop = false ∧
    killTimerCalls (windowProcedureHook quietEnv 0 WM_EXITSIZEMOVE
      (messageFilter quietEnv MSGF_DIALOGBOX (new 7 100)).1).1 = 1 :=
  ⟨rfl, rfl, rfl, by decide⟩

/-- C12 (amended): for every state with `d_isInsideMainLoop = 1`, after
`postHandleMessage` returns `d_isInsideMainLoop` is 0 and `d_isInsideModalLoop`
is false, one `KillTimer` call was made if the modal flag was set and none
otherwise, no `SetTimer` call was made and the main-loop check did not fail.
The message-filter hook never exits a modal loop; the window-procedure hook
exits it on `WM_EXITSIZEMOVE` and `WM_EXITMENULOOP`, however it was entered. -/
theorem C12_postHandleMessage_exits_modal (env : Env) (w : MainMessagePump)
    (h : w.d_isInsideMainLoop = 1) :
    (postHandleMessage env w).d_isInsideMainLoop = 0 ∧
    (postHandleMessage env w).d_isInsideModalLoop = false ∧
    killTimerCalls (postHandleMessage env w) =
      killTimerCalls w + (if w.d_isInsideModalLoop then 1 else 0) ∧
    setTimerCalls (postHandleMessage env w) = setTimerCalls w ∧
    dcheckFailures Check.wasInsideMainLoop (postHandleMessage env w) =
      dcheckFailures Check.wasInsideMainLoop w ∧
    (∀ code, w.d_isInsideModalLoop = true → (messageFilter env code w).1 = w) ∧
    (∀ code, (windowProcedureHook env code WM_EXITSIZEMOVE w).1.d_isInsideModalLoop = false ∧
      (windowProcedureHook env code WM_EXITMENULOOP w).1.d_isInsideModalLoop = false) := by
  obtain ⟨t1, t2, t3⟩ := postHandleMessageExit_timers w
  obtain ⟨s1, s2, s3⟩ := postHandleMessageSchedule_sameTimers env (postHandleMessageExit w)
  refine ⟨?_, ?_, ?_, ?_, ?_, fun code hm => ?_, fun code => ⟨?_, ?_⟩⟩
  · unfold postHandleMessage
    rw [postHandleMessageSchedule_mainLoop, postHandleMessageExit_mainLoop]
  · unfold postHandleMessage
    rw [s1, t1]
  · unfold postHandleMessage
    rw [s3, t3]
  · unfold postHandleMessage
    rw [s2, t2]
  · unfold postHandleMessage
    rw [dcheckFailures_postHandleMessageSchedule, dcheckFailures_postHandleMessageExit w h]
  · simp [messageFilter, hm]
  · rw [windowProcedureHook_eq, (windowProcedureHookSchedule_sameTimers env _).1,
      windowProcedureHookSwitch_flag]
    simp [WM_EXITSIZEMOVE, WM_ENTERSIZEMOVE, WM_ENTERMENULOOP]
  · rw [windowProcedureHook_eq, (windowProcedureHookSchedule_sameTimers env _).1,
      windowProcedureHookSwitch_flag]
    simp [WM_EXITMENULOOP, WM_ENTERSIZEMOVE, WM_ENTERMENULOOP]

/-- C12, evaluated: after `init`, `preHandleMessage` and a dialog-box filter
call the pump is inside the main loop and the modal loop; `postHandleMessage`
leaves both with one `KillTimer` call. -/
theorem C12_postHandleMessage_exits_modal_witness :
    (messageFilter quietEnv MSGF_DIALOGBOX
      (preHandleMessage quietEnv (init quietEnv (new 7 100))).1).1.d_isInsideMainLoop = 1 ∧
    (messageFilter quietEnv MSGF_DIALOGBOX
      (preHandleMessage quietEnv (init quietEnv (new 7 100))).1).1.d_isInsideModalLoop = true ∧
    (postHandleMessage quietEnv (messageFilter quietEnv MSGF_DIALOGBOX
      (preHandleMessage quietEnv (init quietEnv (new 7 100))).1).1).d_isInsideMainLoop = 0 ∧
    (postHandleMessage quietEnv (messageFilter quietEnv MSGF_DIALOGBOX
      (preHandleMessage quietEnv (init quietEnv (new 7 100))).1).1).d_isInsideModalLoop = false ∧
    killTimerCalls (postHandleMessage quietEnv (messageFilter quietEnv MSGF_DIALOGBOX
      (preHandleMessage quietEnv (init quietEnv (new 7 100))).1).1) = 1 :=
  ⟨rfl, rfl,
    (C12_postHandleMessage_exits_modal quietEnv (messageFilter quietEnv MSGF_DIALOGBOX
      (preHandleMessage quietEnv (init quietEnv (new 7 100))).1).1 rfl).1,
    (C12_postHandleMessage_exits_modal quietEnv (messageFilter quietEnv MSGF_DIALOGBOX
      (preHandleMessage quietEnv (init quietEnv (new 7 100))).1).1 rfl).2.1,
    by decide⟩

/-- C13 as stated fails: with work pending and no wake-up posted, when the
thread queue holds only an input message (found by the unfiltered
`PeekMessage`, not by the one restricted to posted and sent messages),
`postHandleMessage` makes no post and leaves `d_isPumped` 0. -/
theorem C13_input_only_counterexample :
    pendingInsideMainLoop.work_state_ = HAVE_WORK ∧
    pendingInsideMainLoop.d_isPumped = 0 ∧
    pendingInsideMainLoop.d_isInsideMainLoop = 1 ∧
    inputOnlyEnv.PeekMessage PM_NOREMOVE (postHandleMessageExit pendingInsideMainLoop) =
      some WM_MOUSEMOVE ∧
    postAttempts (postHandleMessage inputOnlyEnv pendingInsideMainLoop) =
      postAttempts pendingInsideMainLoop ∧
    (postHandleMessage inputOnlyEnv pendingInsideMainLoop).d_isPumped = 0 ∧
    (postHandleMessage inputOnlyEnv pendingInsideMainLoop).pumpMessages = 0 :=
  ⟨rfl, rfl, rfl, rfl, by decide, rfl, rfl⟩

/-- C13 (amended): for every state in which the work flag is HAVE_WORK and
`d_isPumped` is 0 when `postHandleMessage` examines it, `postHandleMessage`
calls `schedulePump` when the queue is empty (immediately) and when it holds a
posted or sent message (piggybacked, with `d_skipIdleWork` set); when the queue
holds messages but none posted or sent, it requests no wake-up. -/
theorem C13_postHandleMessage_wakeup (env : Env) (w : MainMessagePump)
    (hW : w.work_state_ = HAVE_WORK) (hP : w.d_isPumped = 0) :
    (env.PeekMessage PM_NOREMOVE (postHandleMessageExit w) = none →
      postHandleMessage env w = schedulePump env (postHandleMessageExit w) ∧
      postAttempts (postHandleMessage env w) = postAttempts w + 1) ∧
    (∀ m m', env.PeekMessage PM_NOREMOVE (postHandleMessageExit w) = some m →
      env.PeekMessage (PM_NOREMOVE ||| PM_QS_POSTMESSAGE ||| PM_QS_SENDMESSAGE)
        (postHandleMessageExit w) = some m' →
      postHandleMessage env w =
        schedulePump env
          { DCHECK (kPumpMessage != m') Check.noPumpMessageQueued (postHandleMessageExit w)
            with d_skipIdleWork := true } ∧
      postAttempts (postHandleMessage env w) = postAttempts w + 1 ∧
      (postHandleMessage env w).d_skipIdleWork = true) ∧
    (∀ m, env.PeekMessage PM_NOREMOVE (postHandleMessageExit w) = some m →
      env.PeekMessage (PM_NOREMOVE ||| PM_QS_POSTMESSAGE ||| PM_QS_SENDMESSAGE)
        (postHandleMessageExit w) = none →
      postHandleMessage env w = postHandleMessageExit w ∧
      postAttempts (postHandleMessage env w) = postAttempts w) := by
  obtain ⟨e1, _, e3, _, _, e6⟩ := postHandleMessageExit_sameSchedule w
  have hc : HAVE_WORK = (postHandleMessageExit w).work_state_ ∧
      (0 : Int) = (postHandleMessageExit w).d_isPumped := by
    rw [e1, e3, hW, hP]
    exact ⟨rfl, rfl⟩
  refine ⟨fun h0 => ?_, fun m m' h1 h2 => ?_, fun m h1 h2 => ?_⟩
  · have hE : postHandleMessage env w = schedulePump env (postHandleMessageExit w) := by
      simp only [postHandleMessage, postHandleMessageSchedule]
      rw [if_pos hc, h0]
    refine ⟨hE, ?_⟩
    rw [hE, postAttempts_schedulePump, e3, hP, e6]
    rfl
  · have hE : postHandleMessage env w =
        schedulePump env
          { DCHECK (kPumpMessage != m') Check.noPumpMessageQueued (postHandleMessageExit w)
            with d_skipIdleWork := true } := by
      simp only [postHandleMessage, postHandleMessageSchedule]
      rw [if_pos hc, h1]
      simp only []
      rw [h2]
    obtain ⟨_, _, d3, _, _, d6⟩ := DCHECK_sameSchedule (kPumpMessage != m')
      Check.noPumpMessageQueued (postHandleMessageExit w)
    refine ⟨hE, ?_, ?_⟩
    · rw [hE, postAttempts_schedulePump]
      have hp : postAttempts
          { DCHECK (kPumpMessage != m') Check.noPumpMessageQueued (postHandleMessageExit w)
            with d_skipIdleWork := true } = postAttempts w := by
        show postAttempts (DCHECK (kPumpMessage != m') Check.noPumpMessageQueued
          (postHandleMessageExit w)) = _
        rw [d6, e6]
      have hq : ({ DCHECK (kPumpMessage != m') Check.noPumpMessageQueued
          (postHandleMessageExit w) with d_skipIdleWork := true } : MainMessagePump).d_isPumped
          = 0 := by
        show (DCHECK (kPumpMessage != m') Check.noPumpMessageQueued
          (postHandleMessageExit w)).d_isPumped = 0
        rw [d3, e3, hP]
      rw [hp, if_pos hq]
    · rw [hE, (schedulePump_frame env _).2.2.1]
  · have hE : postHandleMessage env w = postHandleMessageExit w := by
      simp only [postHandleMessage, postHandleMessageSchedule]
      rw [if_pos hc, h1]
      simp only []
      rw [h2]
    exact ⟨hE, by rw [hE, e6]⟩

/-- C13, evaluated on the pump with work pending inside the main loop: with an
empty queue and with a posted message in the queue `postHandleMessage` makes
one post; with the posted message it also sets `d_skipIdleWork`. -/
theorem C13_postHandleMessage_wakeup_witness :
    pendingInsideMainLoop.work_state_ = HAVE_WORK ∧
    pendingInsideMainLoop.d_isPumped = 0 ∧
    postAttempts (postHandleMessage quietEnv pendingInsideMainLoop) =
      postAttempts pendingInsideMainLoop + 1 ∧
    postAttempts (postHandleMessage postedMessageEnv pendingInsideMainLoop) =
      postAttempts pendingInsideMainLoop + 1 ∧
    (postHandleMessage postedMessageEnv pendingInsideMainLoop).d_skipIdleWork = true :=
  ⟨rfl, rfl,
    ((C13_postHandleMessage_wakeup quietEnv pendingInsideMainLoop rfl rfl).1 rfl).2,
    ((C13_postHandleMessage_wakeup postedMessageEnv pendingInsideMainLoop rfl rfl).2.1
      WM_TIMER WM_TIMER rfl rfl).2.1,
    ((C13_postHandleMessage_wakeup postedMessageEnv pendingInsideMainLoop rfl rfl).2.1
      WM_TIMER WM_TIMER rfl rfl).2.2⟩

theorem doWork_stages (env : Env) (w : MainMessagePump) :
    doWork env w =
      doWorkExit env (GetTickCount (doWorkEnter w)) (doWorkIdle env (doWorkDrained env w)) := rfl

theorem doWorkEnter_skip (w : MainMessagePump) :
    (doWorkEnter w).d_skipIdleWork = w.d_skipIdleWork := by
  simp [doWorkEnter, DCHECK_eq]

theorem drain_skip (env : Env) (h : ∀ s, (env.handler s).d_skipIdleWork = s.d_skipIdleWork)
    (w : MainMessagePump) : (drain env w).d_skipIdleWork = w.d_skipIdleWork := by
  unfold drain
  rw [h]
  simp [record, resetWorkState, ResetWorkState, DCHECK_eq]

theorem drainLoop_skip (env : Env)
    (h : ∀ s, (env.handler s).d_skipIdleWork = s.d_skipIdleWork) :
    ∀ (n : Nat) (w : MainMessagePump),
      (drainLoop env n w).1.d_skipIdleWork = w.d_skipIdleWork
  | 0, w => by simp [drainLoop]
  | n + 1, w => by
    by_cases hr : READY = (drain env w).work_state_
    · simp only [drainLoop, if_pos hr]
      exact drain_skip env h w
    · simp only [drainLoop, if_neg hr]
      rw [drainLoop_skip env h n (drain env w), drain_skip env h w]

theorem doWorkDrained_skip (env : Env)
    (h : ∀ s, (env.handler s).d_skipIdleWork = s.d_skipIdleWork) (w : MainMessagePump) :
    (doWorkDrained env w).d_skipIdleWork = w.d_skipIdleWork := by
  unfold doWorkDrained
  rw [drainLoop_skip env h, doWorkEnter_skip]

theorem idleCalls_doWorkExit (env : Env) (t : Nat) (w : MainMessagePump) :
    idleCalls (doWorkExit env t w) = idleCalls w := by
  simp only [doWorkExit]
  split_ifs <;> simp [idleCalls, record, List.countP_append]

theorem doWorkIdle_run (env : Env) (w : MainMessagePump) (h : w.d_skipIdleWork = false) :
    doWorkIdle env w =
      if env.shouldTrace (env.DoIdleWork (record Call.DoIdleWork w))
          (subDWORD (GetTickCount (env.DoIdleWork (record Call.DoIdleWork w)))
            (GetTickCount w)) then
        record (Call.LogWarning TraceSite.DoIdleWork
          (subDWORD (GetTickCount (env.DoIdleWork (record Call.DoIdleWork w)))
            (GetTickCount w)))
          (env.DoIdleWork (record Call.DoIdleWork w))
      else
        env.DoIdleWork (record Call.DoIdleWork w) := by
  simp [doWorkIdle, h]

theorem doWorkIdle_skipFlag (env : Env) (w : MainMessagePump)
    (h : ∀ s, s.d_skipIdleWork = false → (env.DoIdleWork s).d_skipIdleWork = false) :
    (doWorkIdle env w).d_skipIdleWork = false := by
  cases hs : w.d_skipIdleWork
  · rw [doWorkIdle_run env w hs]
    have h1 : (env.DoIdleWork (record Call.DoIdleWork w)).d_skipIdleWork = false :=
      h _ hs
    split_ifs
    · exact h1
    · exact h1
  · rw [doWorkIdle_skip env w hs]

/-- C14: `doWork()` runs the idle work once (the `DoIdleWork` call is
recorded and the idle work applied to the state, a warning possibly logged)
when `d_skipIdleWork` is false at the end of its drain loop; when it is true
the idle work is not run and the flag is reset to false. Hence, when the idle
work does not set the flag, `d_skipIdleWork` is false when `doWork` returns,
and, when the handler does not touch the flag either, a skip request set
before a cycle is in force at the end of that cycle's drain loop and no longer
at the end of the next cycle's. -/
theorem C14_idle_work_skip (env : Env) (w : MainMessagePump) :
    doWork env w =
      doWorkExit env (GetTickCount (doWorkEnter w)) (doWorkIdle env (doWorkDrained env w)) ∧
    ((doWorkDrained env w).d_skipIdleWork = false →
      doWorkIdle env (doWorkDrained env w) =
        (if env.shouldTrace (env.DoIdleWork (record Call.DoIdleWork (doWorkDrained env w)))
            (subDWORD
              (GetTickCount (env.DoIdleWork (record Call.DoIdleWork (doWorkDrained env w))))
              (GetTickCount (doWorkDrained env w))) then
          record (Call.LogWarning TraceSite.DoIdleWork
            (subDWORD
              (GetTickCount (env.DoIdleWork (record Call.DoIdleWork (doWorkDrained env w))))
              (GetTickCount (doWorkDrained env w))))
            (env.DoIdleWork (record Call.DoIdleWork (doWorkDrained env w)))
        else
          env.DoIdleWork (record Call.DoIdleWork (doWorkDrained env w))) ∧
      ((∀ s, idleCalls (env.DoIdleWork s) = idleCalls s) →
        idleCalls (doWork env w) = idleCalls (doWorkDrained env w) + 1)) ∧
    ((doWorkDrained env w).d_skipIdleWork = true →
      doWorkIdle env (doWorkDrained env w) =
        { doWorkDrained env w with d_skipIdleWork := false } ∧
      idleCalls (doWork env w) = idleCalls (doWorkDrained env w) ∧
      (doWork env w).d_skipIdleWork = false) ∧
    ((∀ s, s.d_skipIdleWork = false → (env.DoIdleWork s).d_skipIdleWork = false) →
      (doWork env w).d_skipIdleWork = false) ∧
    ((∀ s, (env.handler s).d_skipIdleWork = s.d_skipIdleWork) →
      (∀ s, s.d_skipIdleWork = false → (env.DoIdleWork s).d_skipIdleWork = false) →
      w.d_skipIdleWork = true →
      (doWorkDrained env w).d_skipIdleWork = true ∧
      (doWorkDrained env (doWork env w)).d_skipIdleWork = false) := by
  have hret : (∀ s, s.d_skipIdleWork = false → (env.DoIdleWork s).d_skipIdleWork = false) →
      (doWork env w).d_skipIdleWork = false := by
    intro hI
    rw [doWork_stages, (doWorkExit_frame env _ _).2.2.2.1]
    exact doWorkIdle_skipFlag env _ hI
  refine ⟨rfl, fun hs => ⟨doWorkIdle_run env _ hs, fun hI => ?_⟩, fun hs => ⟨?_, ?_, ?_⟩,
    hret, fun hH hI hw => ⟨?_, ?_⟩⟩
  · rw [doWork_stages, idleCalls_doWorkExit, doWorkIdle_run env _ hs]
    have h1 : idleCalls (env.DoIdleWork (record Call.DoIdleWork (doWorkDrained env w))) =
        idleCalls (doWorkDrained env w) + 1 := by
      rw [hI]
      simp [idleCalls, record, List.countP_append]
    split_ifs
    · rw [← h1]
      simp [idleCalls, record, List.countP_append]
    · exact h1
  · exact doWorkIdle_skip env _ hs
  · rw [doWork_stages, idleCalls_doWorkExit, doWorkIdle_skip env _ hs]
    rfl
  · rw [doWork_stages, (doWorkExit_frame env _ _).2.2.2.1, doWorkIdle_skip env _ hs]
  · rw [doWorkDrained_skip env hH, hw]
  · rw [doWorkDrained_skip env hH]
    exact hret hI

/-- C14, evaluated: on the fresh pump with work scheduled (`ScheduleWork`
sets the skip flag) the first cycle records no `DoIdleWork` call and returns
with the flag false; a second cycle records one. -/
theorem C14_idle_work_skip_witness :
    (ScheduleWork quietEnv (new 7 100)).d_skipIdleWork = true ∧
    (doWorkDrained quietEnv (ScheduleWork quietEnv (new 7 100))).d_skipIdleWork = true ∧
    idleCalls (doWork quietEnv (ScheduleWork quietEnv (new 7 100))) = 0 ∧
    (doWork quietEnv (ScheduleWork quietEnv (new 7 100))).d_skipIdleWork = false ∧
    (doWorkDrained quietEnv
      (doWork quietEnv (ScheduleWork quietEnv (new 7 100)))).d_skipIdleWork = false ∧
    idleCalls (doWork quietEnv (doWork quietEnv (ScheduleWork quietEnv (new 7 100)))) = 1 :=
  ⟨rfl,
    ((C14_idle_work_skip quietEnv (ScheduleWork quietEnv (new 7 100))).2.2.2.2
      (fun _ => rfl) (fun _ h => h) rfl).1,
    by decide,
    (C14_idle_work_skip quietEnv (ScheduleWork quietEnv (new 7 100))).2.2.2.1 (fun _ h => h),
    ((C14_idle_work_skip quietEnv (ScheduleWork quietEnv (new 7 100))).2.2.2.2
      (fun _ => rfl) (fun _ h => h) rfl).2,
    by decide⟩

theorem subDWORD_eq (a b : Nat) (ha : a < 2 ^ 32) (hb : b < 2 ^ 32) :
    (subDWORD a b : Int) = ((a : Int) - (b : Int)) % 2 ^ 32 := by
  unfold subDWORD DWORD_MOD
  norm_num at ha hb ⊢
  omega

theorem modalLoop_clock (b : Bool) (w : MainMessagePump) :
    (modalLoop b w).d_scheduleTime = w.d_scheduleTime ∧
    (modalLoop b w).d_maxTimer = w.d_maxTimer ∧
    (modalLoop b w).d_minTimer = w.d_minTimer ∧
    (modalLoop b w).tickCount = w.tickCount := by
  unfold modalLoop
  split_ifs <;> simp [record]

theorem windowProcedureHookSwitch_clock (message : Nat) (w : MainMessagePump) :
    (windowProcedureHookSwitch message w).d_scheduleTime = w.d_scheduleTime ∧
    (windowProcedureHookSwitch message w).d_maxTimer = w.d_maxTimer ∧
    (windowProcedureHookSwitch message w).d_minTimer = w.d_minTimer ∧
    (windowProcedureHookSwitch message w).tickCount = w.tickCount := by
  unfold windowProcedureHookSwitch
  split_ifs <;> first | exact modalLoop_clock _ w | exact ⟨rfl, rfl, rfl, rfl⟩

theorem windowProcedureHookSchedule_starved (env : Env) (w1 : MainMessagePump)
    (hR : w1.d_needRepost = 0) (hM : USER_TIMER_MAXIMUM ≠ w1.d_maxTimer)
    (hm : w1.d_isInsideModalLoop = true) (hW : w1.work_state_ = HAVE_WORK)
    (hS : w1.d_scheduleTime ≠ 0)
    (hE : w1.d_maxTimer < subDWORD (GetTickCount w1) w1.d_scheduleTime) :
    windowProcedureHookSchedule env w1 =
      schedulePump env { w1 with d_skipIdleWork := true } := by
  have hS' : ¬ (0 = w1.d_scheduleTime) := fun e => hS e.symm
  have hW' : HAVE_WORK = w1.work_state_ := hW.symm
  simp only [windowProcedureHookSchedule, schedulePumpIfNecessary]
  rw [if_neg (by simp [hR]), if_pos (by simp [hM, hm]), if_pos (by simp [hS', hE]),
    if_pos hW']

theorem windowProcedureHookSchedule_calm (env : Env) (w1 : MainMessagePump)
    (hR : w1.d_needRepost = 0)
    (hc : subDWORD (GetTickCount w1) w1.d_scheduleTime ≤ w1.d_maxTimer ∨
      w1.d_isInsideModalLoop = false) :
    windowProcedureHookSchedule env w1 = w1 := by
  simp only [windowProcedureHookSchedule]
  rw [if_neg (by simp [hR])]
  rcases hc with hc | hc
  · have hn : ¬ (w1.d_maxTimer < subDWORD (GetTickCount w1) w1.d_scheduleTime) := by omega
    split_ifs with h1 h2
    · simp [hn] at h2
    · rfl
    · rfl
  · rw [if_neg (by simp [hc])]

/-- C15 as stated fails, with the modal-loop state read when the hook is
entered. Both pumps have `d_needRepost = 0`, work scheduled at tick 100,
`d_isPumped = 0` and the hook runs at tick 141, 41 ms later
(`d_maxTimer = 40`). The pump in the modal-loop state hooks
`WM_EXITSIZEMOVE`: the `switch` leaves the modal loop first, and the hook makes
no post attempt and leaves `d_skipIdleWork` false. The pump outside the
modal-loop state hooks `WM_ENTERSIZEMOVE`: the `switch` enters the modal loop
first, and the hook sets `d_skipIdleWork` and makes a post attempt. -/
theorem C15_entry_flag_counterexample :
    ((modalPendingAt 141).d_needRepost = 0 ∧
      (modalPendingAt 141).d_isInsideModalLoop = true ∧
      (modalPendingAt 141).work_state_ = HAVE_WORK ∧
      (modalPendingAt 141).d_scheduleTime = 100 ∧
      (modalPendingAt 141).d_isPumped = 0 ∧
      (modalPendingAt 141).d_maxTimer = 40 ∧
      subDWORD (GetTickCount (modalPendingAt 141)) (modalPendingAt 141).d_scheduleTime = 41 ∧
      postAttempts (modalPendingAt 141) = 0 ∧
      (modalPendingAt 141).d_skipIdleWork = false ∧
      postAttempts (windowProcedureHook quietEnv 0 WM_EXITSIZEMOVE (modalPendingAt 141)).1 = 0 ∧
      (windowProcedureHook quietEnv 0 WM_EXITSIZEMOVE
        (modalPendingAt 141)).1.d_skipIdleWork = false) ∧
    (({ pendingInsideMainLoop with tickCount := 141 } : MainMessagePump).d_needRepost = 0 ∧
      ({ pendingInsideMainLoop with tickCount := 141 } :
        MainMessagePump).d_isInsideModalLoop = false ∧
      ({ pendingInsideMainLoop with tickCount := 141 } :
        MainMessagePump).work_state_ = HAVE_WORK ∧
      ({ pendingInsideMainLoop with tickCount := 141 } : MainMessagePump).d_skipIdleWork = false ∧
      postAttempts ({ pendingInsideMainLoop with tickCount := 141 } : MainMessagePump) = 0 ∧
      postAttempts (windowProcedureHook quietEnv 0 WM_ENTERSIZEMOVE
        { pendingInsideMainLoop with tickCount := 141 }).1 = 1 ∧
      (windowProcedureHook quietEnv 0 WM_ENTERSIZEMOVE
        { pendingInsideMainLoop with tickCount := 141 }).1.d_skipIdleWork = true) := by
  refine ⟨⟨rfl, rfl, rfl, rfl, rfl, rfl, by decide, by decide, rfl, by decide, rfl⟩,
    ⟨rfl, rfl, rfl, rfl, by decide, by decide, rfl⟩⟩

/-- C15 (amended): the constructor leaves `d_minTimer = USER_TIMER_MINIMUM` and
`d_maxTimer = 4 * d_minTimer`. With these values, the modal-loop state that
decides in `windowProcedureHook` is the modal flag as the `switch` on the
hooked message leaves it (lines 142-166): set for `WM_ENTERSIZEMOVE` and
`WM_ENTERMENULOOP`, clear for `WM_EXITSIZEMOVE` and `WM_EXITMENULOOP`, as at
entry for `kMsgHaveWork`, set for any other message when `d_nestLevel > 0` and
as at entry otherwise. When `d_needRepost` is 0, that flag is set, the work
flag is HAVE_WORK with `d_scheduleTime ≠ 0`, `d_isPumped` is 0 and the elapsed
time `(now - d_scheduleTime) mod 2^32` is strictly greater than `d_maxTimer`,
the hook sets `d_skipIdleWork` and makes one post attempt; when `d_needRepost`
is 0 and the elapsed time is at most `d_maxTimer` or that flag is not set, it
makes no post attempt and leaves `d_skipIdleWork` as it was. -/
theorem C15_hook_starvation (env : Env) (code : Int) (message : Nat) (w : MainMessagePump)
    (hmin : w.d_minTimer = USER_TIMER_MINIMUM) (hmax : w.d_maxTimer = 4 * w.d_minTimer) :
    (∀ hwnd now, (new hwnd now).d_minTimer = USER_TIMER_MINIMUM ∧
      (new hwnd now).d_maxTimer = 4 * (new hwnd now).d_minTimer) ∧
    (∀ a b, a < 2 ^ 32 → b < 2 ^ 32 →
      (subDWORD a b : Int) = ((a : Int) - (b : Int)) % 2 ^ 32) ∧
    (windowProcedureHookSwitch message w).d_isInsideModalLoop =
      (if message = WM_ENTERSIZEMOVE ∨ message = WM_ENTERMENULOOP then true
       else if message = WM_EXITSIZEMOVE ∨ message = WM_EXITMENULOOP then false
       else if message = kMsgHaveWork then w.d_isInsideModalLoop
       else if 0 < w.d_nestLevel then true
       else w.d_isInsideModalLoop) ∧
    (w.d_needRepost = 0 →
      (windowProcedureHookSwitch message w).d_isInsideModalLoop = true →
      w.work_state_ = HAVE_WORK → w.d_scheduleTime ≠ 0 → w.d_isPumped = 0 →
      w.d_maxTimer < subDWORD (GetTickCount w) w.d_scheduleTime →
      (windowProcedureHook env code message w).1 =
        schedulePump env { windowProcedureHookSwitch message w with d_skipIdleWork := true } ∧
      (windowProcedureHook env code message w).1.d_skipIdleWork = true ∧
      postAttempts (windowProcedureHook env code message w).1 = postAttempts w + 1) ∧
    (w.d_needRepost = 0 →
      (subDWORD (GetTickCount w) w.d_scheduleTime ≤ w.d_maxTimer ∨
        (windowProcedureHookSwitch message w).d_isInsideModalLoop = false) →
      (windowProcedureHook env code message w).1 = windowProcedureHookSwitch message w ∧
      (windowProcedureHook env code message w).1.d_skipIdleWork = w.d_skipIdleWork ∧
      postAttempts (windowProcedureHook env code message w).1 = postAttempts w) := by
  obtain ⟨f1, f2, f3, f4, _, f6⟩ := windowProcedureHookSwitch_sameSchedule message w
  obtain ⟨k1, k2, _, k4⟩ := windowProcedureHookSwitch_clock message w
  have hT : GetTickCount (windowProcedureHookSwitch message w) = GetTickCount w := by
    unfold GetTickCount
    rw [k4]
  have hM : USER_TIMER_MAXIMUM ≠ (windowProcedureHookSwitch message w).d_maxTimer := by
    rw [k2, hmax, hmin]
    decide
  refine ⟨fun hwnd now => ⟨rfl, rfl⟩, subDWORD_eq, windowProcedureHookSwitch_flag message w,
    fun hR hm hW hS hP hE => ?_, fun hR hc => ?_⟩
  · have hEq : (windowProcedureHook env code message w).1 =
        schedulePump env
          { windowProcedureHookSwitch message w with d_skipIdleWork := true } := by
      rw [windowProcedureHook_eq]
      exact windowProcedureHookSchedule_starved env _ (by rw [f2, hR]) hM hm (by rw [f1, hW])
        (by rw [k1]; exact hS) (by rw [k2, hT, k1]; exact hE)
    refine ⟨hEq, ?_, ?_⟩
    · rw [hEq, (schedulePump_frame env _).2.2.1]
    · rw [hEq, postAttempts_schedulePump]
      have hq : ({ windowProcedureHookSwitch message w with d_skipIdleWork := true } :
          MainMessagePump).d_isPumped = 0 := by
        show (windowProcedureHookSwitch message w).d_isPumped = 0
        rw [f3, hP]
      rw [if_pos hq]
      show postAttempts (windowProcedureHookSwitch message w) + 1 = _
      rw [f6]
  · have hEq : (windowProcedureHook env code message w).1 =
        windowProcedureHookSwitch message w := by
      rw [windowProcedureHook_eq]
      refine windowProcedureHookSchedule_calm env _ (by rw [f2, hR]) ?_
      rw [hT, k1, k2]
      exact hc
    exact ⟨hEq, by rw [hEq, f4], by rw [hEq, f6]⟩

/-- C15, evaluated on the fresh pump put into the modal-loop state with work
scheduled at tick 100 inside the main loop: a hooked `WM_TIMER` call at tick
141 (41 ms later, `d_maxTimer = 40`) sets `d_skipIdleWork` and makes one post
attempt; at tick 140 it makes none. -/
theorem C15_hook_starvation_witness :
    (ScheduleWork quietEnv
      (modalLoop true { new 7 100 with d_isInsideMainLoop := 1 })).d_maxTimer = 40 ∧
    postAttempts (windowProcedureHook quietEnv 0 WM_TIMER
      { ScheduleWork quietEnv (modalLoop true { new 7 100 with d_isInsideMainLoop := 1 })
        with tickCount := 141 }).1 = 1 ∧
    (windowProcedureHook quietEnv 0 WM_TIMER
      { ScheduleWork quietEnv (modalLoop true { new 7 100 with d_isInsideMainLoop := 1 })
        with tickCount := 141 }).1.d_skipIdleWork = true ∧
    postAttempts (windowProcedureHook quietEnv 0 WM_TIMER
      { ScheduleWork quietEnv (modalLoop true { new 7 100 with d_isInsideMainLoop := 1 })
        with tickCount := 140 }).1 = 0 :=
  ⟨rfl,
    ((C15_hook_starvation quietEnv 0 WM_TIMER
      { ScheduleWork quietEnv (modalLoop true { new 7 100 with d_isInsideMainLoop := 1 })
        with tickCount := 141 } rfl rfl).2.2.2.1
      rfl rfl rfl (by decide) rfl (by decide)).2.2,
    ((C15_hook_starvation quietEnv 0 WM_TIMER
      { ScheduleWork quietEnv (modalLoop true { new 7 100 with d_isInsideMainLoop := 1 })
        with tickCount := 141 } rfl rfl).2.2.2.1
      rfl rfl rfl (by decide) rfl (by decide)).2.1,
    ((C15_hook_starvation quietEnv 0 WM_TIMER
      { ScheduleWork quietEnv (modalLoop true { new 7 100 with d_isInsideMainLoop := 1 })
        with tickCount := 140 } rfl rfl).2.2.2.2
      rfl (Or.inl (by decide))).2.2⟩

/-- C16, the failing run: `ScheduleWork` posts the wake-up message
(`d_isPumped = 1`, one message queued); `flush()` then runs `doWork()` itself,
which clears `d_isPumped` while the message stays queued; the next
`ScheduleWork` posts a second message. Dispatching the stray message makes
`doWork()` fail its check `DCHECK_EQ(1, wasPumped)`, and a
`postHandleMessage` that finds it in the queue fails the check
`DCHECK(kPumpMessage != msg_.message)` of lines 493-494. -/
theorem C16_flush_leaves_wakeup_queued :
    (ScheduleWork quietEnv (init quietEnv (new 7 100))).pumpMessages = 1 ∧
    (ScheduleWork quietEnv (init quietEnv (new 7 100))).d_isPumped = 1 ∧
    flushedAfterSchedule.pumpMessages = 1 ∧
    flushedAfterSchedule.d_isPumped = 0 ∧
    (ScheduleWork quietEnv flushedAfterSchedule).pumpMessages = 2 ∧
    dcheckFailures Check.wasPumped flushedAfterSchedule = 0 ∧
    (∃ w2, dispatchPumpMessage quietEnv flushedAfterSchedule = some w2 ∧
      dcheckFailures Check.wasPumped w2 = 1) ∧
    dcheckFailures Check.noPumpMessageQueued
      (postHandleMessage pumpQueueEnv
        (ScheduleWork quietEnv (preHandleMessage quietEnv flushedAfterSchedule).1)) = 1 :=
  ⟨rfl, rfl, by decide, by decide, by decide, by decide, ⟨_, rfl, by decide⟩, by decide⟩

theorem wakeupInv_of_same {a b : MainMessagePump} (h : SameSchedule a b) (hb : WakeupInv b) :
    WakeupInv a := by
  unfold WakeupInv at *
  rw [h.2.2.1, h.2.2.2.2.1]
  exact hb

theorem schedulePump_wakeupInv (env : Env) (w : MainMessagePump) (h : WakeupInv w) :
    WakeupInv (schedulePump env w) := by
  by_cases hp : w.d_isPumped = 0
  · have h0 : w.pumpMessages = 0 := h.2 hp
    rw [schedulePump_posts env w hp]
    cases env.PostMessageW { w with d_isPumped := 1 } <;> simp [WakeupInv, h0]
  · rw [schedulePump_pumped env w hp]
    exact ⟨h.1, fun h1 => absurd (show (1 : Int) = 0 from h1) (by decide)⟩

theorem wakeupInv_skip (w : MainMessagePump) (b : Bool) (h : WakeupInv w) :
    WakeupInv { w with d_skipIdleWork := b } := h

theorem schedulePumpIfNecessary_wakeupInv (env : Env) (w : MainMessagePump)
    (h : WakeupInv w) : WakeupInv (schedulePumpIfNecessary env w) := by
  unfold schedulePumpIfNecessary
  simp only []
  split_ifs
  · exact schedulePump_wakeupInv env w h
  · exact h

theorem ScheduleWork_wakeupInv (env : Env) (w : MainMessagePump) (h : WakeupInv w) :
    WakeupInv (ScheduleWork env w) := by
  simp only [ScheduleWork]
  split_ifs
  · exact schedulePump_wakeupInv env _ (wakeupInv_skip _ true h)
  · exact h

theorem windowProcedureHook_wakeupInv (env : Env) (code : Int) (message : Nat)
    (w : MainMessagePump) (h : WakeupInv w) :
    WakeupInv (windowProcedureHook env code message w).1 := by
  have h1 : WakeupInv (windowProcedureHookSwitch message w) :=
    wakeupInv_of_same (windowProcedureHookSwitch_sameSchedule message w) h
  rw [windowProcedureHook_eq]
  simp only [windowProcedureHookSchedule]
  split_ifs
  · exact schedulePumpIfNecessary_wakeupInv env _ h1
  · exact schedulePumpIfNecessary_wakeupInv env _ (wakeupInv_skip _ true h1)
  · exact h1
  · exact h1

theorem postHandleMessage_wakeupInv (env : Env) (w : MainMessagePump) (h : WakeupInv w) :
    WakeupInv (postHandleMessage env w) := by
  have h1 : WakeupInv (postHandleMessageExit w) :=
    wakeupInv_of_same (postHandleMessageExit_sameSchedule w) h
  simp only [postHandleMessage, postHandleMessageSchedule]
  split_ifs
  · split
    · split
      · exact schedulePump_wakeupInv env _
          (wakeupInv_skip _ true (wakeupInv_of_same (DCHECK_sameSchedule _ _ _) h1))
      · exact h1
    · exact schedulePump_wakeupInv env _ h1
  · exact h1

theorem doWork_wakeupInv (env : Env)
    (hH : ∀ s, WakeupInv s → WakeupInv (env.handler s))
    (hI : ∀ s, WakeupInv s → WakeupInv (env.DoIdleWork s))
    (w : MainMessagePump) (h0 : w.pumpMessages = 0) : WakeupInv (doWork env w) := by
  have hEnter : WakeupInv (doWorkEnter w) := by
    simp [WakeupInv, doWorkEnter, DCHECK_eq, h0]
  have hDrain : ∀ s, WakeupInv s → WakeupInv (drain env s) := by
    intro s hs
    apply hH
    simpa [WakeupInv, record, resetWorkState, ResetWorkState, DCHECK_eq] using hs
  have hLoop : ∀ (n : Nat) (s : MainMessagePump), WakeupInv s →
      WakeupInv (drainLoop env n s).1 := by
    intro n
    induction n with
    | zero => intro s hs; simpa [drainLoop] using hs
    | succ n ih =>
      intro s hs
      by_cases hr : READY = (drain env s).work_state_
      · simp only [drainLoop, if_pos hr]
        exact hDrain s hs
      · simp only [drainLoop, if_neg hr]
        exact ih _ (hDrain s hs)
  have hIdle : ∀ s, WakeupInv s → WakeupInv (doWorkIdle env s) := by
    intro s hs
    have h1 : WakeupInv (env.DoIdleWork (record Call.DoIdleWork s)) := hI _ hs
    simp only [doWorkIdle]
    split_ifs
    · exact h1
    · exact h1
    · exact hs
  have hExit : ∀ t s, WakeupInv s → WakeupInv (doWorkExit env t s) := by
    intro t s hs
    simp only [doWorkExit]
    split_ifs
    · exact hs
    · exact hs
  rw [doWork_stages]
  exact hExit _ _ (hIdle _ (hLoop _ _ hEnter))

/-- Every operation of the pump other than `flush()` keeps `WakeupInv`, the
dispatch of a queued wake-up message included, when the task handler and the
idle work keep it. -/
theorem wakeupInv_preserved (env : Env) (w : MainMessagePump) (h : WakeupInv w) :
    WakeupInv (ScheduleWork env w) ∧
    (∀ code message, WakeupInv (windowProcedureHook env code message w).1) ∧
    (∀ code, WakeupInv (messageFilter env code w).1) ∧
    WakeupInv (windowProcedure env WM_TIMER w).1 ∧
    WakeupInv (preHandleMessage env w).1 ∧
    WakeupInv (postHandleMessage env w) ∧
    ((∀ s, WakeupInv s → WakeupInv (env.handler s)) →
      (∀ s, WakeupInv s → WakeupInv (env.DoIdleWork s)) →
      ∀ w2, dispatchPumpMessage env w = some w2 → WakeupInv w2) := by
  have hF : ∀ code s, WakeupInv s → WakeupInv (messageFilter env code s).1 := by
    intro code s hs
    simp only [messageFilter]
    split_ifs
    · exact wakeupInv_of_same (modalLoop_sameSchedule true s) hs
    · exact hs
  refine ⟨ScheduleWork_wakeupInv env w h,
    fun code message => windowProcedureHook_wakeupInv env code message w h,
    fun code => hF code w h, ?_, ?_, postHandleMessage_wakeupInv env w h,
    fun hH hI w2 hd => ?_⟩
  · have hk : ¬ (kPumpMessage = WM_TIMER) := by decide
    simp only [windowProcedure, if_neg hk, if_true]
    split_ifs
    · exact schedulePumpIfNecessary_wakeupInv env _
        (wakeupInv_skip _ true (wakeupInv_of_same (DCHECK_sameSchedule _ _ w) h))
    · exact wakeupInv_of_same (DCHECK_sameSchedule _ _ w) h
  · simp only [preHandleMessage]
    apply hF
    exact wakeupInv_of_same (sameSchedule_trans (DCHECK_sameSchedule _ _ _)
      (sameSchedule_trans ⟨rfl, rfl, rfl, rfl, rfl, rfl⟩ (DCHECK_sameSchedule _ _ w))) h
  · unfold dispatchPumpMessage at hd
    split_ifs at hd with hz
    simp only [Option.some.injEq, windowProcedure, if_true] at hd
    subst hd
    apply doWork_wakeupInv env hH hI
    show w.pumpMessages - 1 = 0
    have := h.1
    omega

/-- C17: for every state with `d_isPumped = 1`, `schedulePump()` leaves the
whole state as it is (no post, every field, `d_needRepost` included,
unchanged); and two consecutive `schedulePump()` calls queue at most one
wake-up message, the second call being without effect when the first one left
`d_isPumped = 1`. -/
theorem C17_schedulePump_idempotent (env : Env) (w : MainMessagePump) :
    (w.d_isPumped = 1 →
      schedulePump env w = w ∧ postAttempts (schedulePump env w) = postAttempts w) ∧
    ((schedulePump env w).d_isPumped = 1 →
      schedulePump env (schedulePump env w) = schedulePump env w) ∧
    (schedulePump env (schedulePump env w)).pumpMessages ≤ w.pumpMessages + 1 := by
  have h1 : ∀ s : MainMessagePump, s.d_isPumped = 1 → schedulePump env s = s := by
    intro s hs
    rw [schedulePump_pumped env s (by rw [hs]; decide)]
    cases s
    simp only [] at hs
    subst hs
    rfl
  refine ⟨fun h => ⟨h1 w h, by rw [h1 w h]⟩, fun h => h1 _ h, ?_⟩
  by_cases hp : w.d_isPumped = 0
  · cases hr : env.PostMessageW { w with d_isPumped := 1 }
    · have e1 : schedulePump env w =
          { w with d_isPumped := 0, d_needRepost := 1,
                   trace := w.trace ++ [Call.PostMessageW false] } := by
        rw [schedulePump_posts env w hp]
        simp [hr]
      rw [e1, schedulePump_posts env _ rfl]
      simp only []
      split_ifs <;> omega
    · have e1 : (schedulePump env w).d_isPumped = 1 ∧
          (schedulePump env w).pumpMessages = w.pumpMessages + 1 := by
        rw [schedulePump_posts env w hp]
        simp [hr]
      rw [h1 _ e1.1, e1.2]
  · rw [schedulePump_pumped env w hp, h1 _ rfl]
    exact Nat.le_succ _

/-- C17, evaluated: on the fresh pump the first call queues one message and
the second changes nothing. -/
theorem C17_schedulePump_idempotent_witness :
    (schedulePump quietEnv (new 7 100)).d_isPumped = 1 ∧
    (schedulePump quietEnv (new 7 100)).pumpMessages = 1 ∧
    schedulePump quietEnv (schedulePump quietEnv (new 7 100)) =
      schedulePump quietEnv (new 7 100) :=
  ⟨rfl, rfl, (C17_schedulePump_idempotent quietEnv (new 7 100)).2.1 rfl⟩

/-- C18 as stated fails: on the freshly constructed pump (outside the main
loop) `ScheduleWork` changes `d_skipIdleWork` from false to true and
`d_isPumped` from 0 to 1, and with a full queue `d_needRepost` from 0 to 1. -/
theorem C18_ScheduleWork_frame_counterexample :
    (new 7 100).d_skipIdleWork = false ∧
    (ScheduleWork quietEnv (new 7 100)).d_skipIdleWork = true ∧
    (new 7 100).d_isPumped = 0 ∧
    (ScheduleWork quietEnv (new 7 100)).d_isPumped = 1 ∧
    (new 7 100).d_needRepost = 0 ∧
    (ScheduleWork fullQueueEnv (new 7 100)).d_needRepost = 1 :=
  ⟨rfl, rfl, rfl, rfl, rfl, rfl⟩

theorem schedulePump_members (env : Env) (w : MainMessagePump) :
    (schedulePump env w).d_window = w.d_window ∧
    (schedulePump env w).d_windowProcedureHook = w.d_windowProcedureHook ∧
    (schedulePump env w).d_messageFilter = w.d_messageFilter ∧
    (schedulePump env w).d_minTimer = w.d_minTimer ∧
    (schedulePump env w).d_maxTimer = w.d_maxTimer ∧
    (schedulePump env w).d_traceThreshold = w.d_traceThreshold ∧
    (schedulePump env w).d_scopedNestedTaskAllower = w.d_scopedNestedTaskAllower ∧
    (schedulePump env w).d_runLoop = w.d_runLoop := by
  by_cases h : w.d_isPumped = 0
  · rw [schedulePump_posts env w h]
    exact ⟨rfl, rfl, rfl, rfl, rfl, rfl, rfl, rfl⟩
  · rw [schedulePump_pumped env w h]
    exact ⟨rfl, rfl, rfl, rfl, rfl, rfl, rfl, rfl⟩

/-- C18 (amended): in every state `ScheduleWork` leaves
`d_isInsideMainLoop`, `d_isInsideModalLoop`, `d_nestLevel` and the members
that are set once (window, hook handles, timer bounds, drain bound, trace
threshold, nested-task allower, run loop) as they were. When
`d_isInsideMainLoop` is not 0 it writes the work flag and the schedule
timestamp and nothing else; when `d_isInsideMainLoop` is 0 it also writes
`d_skipIdleWork` and, through `schedulePump`, `d_isPumped` and
`d_needRepost`. -/
theorem C18_ScheduleWork_frame (env : Env) (w : MainMessagePump) :
    ((ScheduleWork env w).d_isInsideMainLoop = w.d_isInsideMainLoop ∧
      (ScheduleWork env w).d_isInsideModalLoop = w.d_isInsideModalLoop ∧
      (ScheduleWork env w).d_nestLevel = w.d_nestLevel ∧
      (ScheduleWork env w).d_window = w.d_window ∧
      (ScheduleWork env w).d_windowProcedureHook = w.d_windowProcedureHook ∧
      (ScheduleWork env w).d_messageFilter = w.d_messageFilter ∧
      (ScheduleWork env w).d_minTimer = w.d_minTimer ∧
      (ScheduleWork env w).d_maxTimer = w.d_maxTimer ∧
      (ScheduleWork env w).d_maxPumpCountInsideModalLoop = w.d_maxPumpCountInsideModalLoop ∧
      (ScheduleWork env w).d_traceThreshold = w.d_traceThreshold ∧
      (ScheduleWork env w).d_scopedNestedTaskAllower = w.d_scopedNestedTaskAllower ∧
      (ScheduleWork env w).d_runLoop = w.d_runLoop) ∧
    (w.d_isInsideMainLoop ≠ 0 →
      ScheduleWork env w =
        { w with work_state_ := HAVE_WORK, d_scheduleTime := GetTickCount w }) ∧
    (w.d_isInsideMainLoop = 0 →
      ScheduleWork env w =
        schedulePump env { w with work_state_ := HAVE_WORK, d_scheduleTime := GetTickCount w,
                                  d_skipIdleWork := true } ∧
      (ScheduleWork env w).d_skipIdleWork = true) := by
  by_cases hm : w.d_isInsideMainLoop = 0
  · have hS : ScheduleWork env w =
        schedulePump env { w with work_state_ := HAVE_WORK, d_scheduleTime := GetTickCount w,
                                  d_skipIdleWork := true } := by
      simp [ScheduleWork, hm, GetTickCount]
    obtain ⟨_, _, f3, f4, f5, f6, f7, _⟩ := schedulePump_frame env
      { w with work_state_ := HAVE_WORK, d_scheduleTime := GetTickCount w, d_skipIdleWork := true }
    obtain ⟨g1, g2, g3, g4, g5, g6, g7, g8⟩ := schedulePump_members env
      { w with work_state_ := HAVE_WORK, d_scheduleTime := GetTickCount w, d_skipIdleWork := true }
    rw [← hS] at f3 f4 f5 f6 f7 g1 g2 g3 g4 g5 g6 g7 g8
    exact ⟨⟨f4, f5, f6, g1, g2, g3, g4, g5, f7, g6, g7, g8⟩, fun h => absurd hm h,
      fun _ => ⟨hS, f3⟩⟩
  · have hm' : (0 : Int) ≠ w.d_isInsideMainLoop := fun e => hm e.symm
    have hS : ScheduleWork env w =
        { w with work_state_ := HAVE_WORK, d_scheduleTime := GetTickCount w } := by
      simp [ScheduleWork, hm', GetTickCount]
    rw [hS]
    exact ⟨⟨rfl, rfl, rfl, rfl, rfl, rfl, rfl, rfl, rfl, rfl, rfl, rfl⟩, fun _ => rfl,
      fun h => absurd h hm⟩

/-- C18, evaluated: between `preHandleMessage` and `postHandleMessage`
`ScheduleWork` leaves `d_isPumped`, `d_needRepost` and `d_skipIdleWork` of the
fresh pump as they were. -/
theorem C18_ScheduleWork_frame_witness :
    (ScheduleWork fullQueueEnv { new 7 100 with d_isInsideMainLoop := 1 }).d_isPumped = 0 ∧
    (ScheduleWork fullQueueEnv { new 7 100 with d_isInsideMainLoop := 1 }).d_needRepost = 0 ∧
    (ScheduleWork fullQueueEnv
      { new 7 100 with d_isInsideMainLoop := 1 }).d_skipIdleWork = false ∧
    (ScheduleWork fullQueueEnv { new 7 100 with d_isInsideMainLoop := 1 }).trace = [] :=
  ⟨by rw [(C18_ScheduleWork_frame fullQueueEnv
        { new 7 100 with d_isInsideMainLoop := 1 }).2.1 (by decide)]; rfl,
    by rw [(C18_ScheduleWork_frame fullQueueEnv
        { new 7 100 with d_isInsideMainLoop := 1 }).2.1 (by decide)]; rfl,
    by rw [(C18_ScheduleWork_frame fullQueueEnv
        { new 7 100 with d_isInsideMainLoop := 1 }).2.1 (by decide)]; rfl,
    by rw [(C18_ScheduleWork_frame fullQueueEnv
        { new 7 100 with d_isInsideMainLoop := 1 }).2.1 (by decide)]; rfl⟩

theorem doWorkEnter_nestLevel (w : MainMessagePump) :
    (doWorkEnter w).d_nestLevel = w.d_nestLevel + 1 := by
  simp [doWorkEnter, DCHECK_eq]

theorem drain_nestLevel (env : Env) (hH : NestNeutral env.handler) (w : MainMessagePump) :
    (drain env w).d_nestLevel = w.d_nestLevel := by
  unfold drain
  rw [hH]
  simp [record, resetWorkState, ResetWorkState, DCHECK_eq]

theorem drain_iterate_nestLevel (env : Env) (hH : NestNeutral env.handler) :
    ∀ (j : Nat) (w : MainMessagePump), ((drain env)^[j] w).d_nestLevel = w.d_nestLevel
  | 0, _ => rfl
  | j + 1, w => by
    rw [Function.iterate_succ_apply, drain_iterate_nestLevel env hH j, drain_nestLevel env hH]

theorem doWorkDrained_nestLevel (env : Env) (hH : NestNeutral env.handler)
    (w : MainMessagePump) : (doWorkDrained env w).d_nestLevel = w.d_nestLevel + 1 := by
  unfold doWorkDrained
  rw [(drainLoop_spec env _ _).1, drain_iterate_nestLevel env hH, doWorkEnter_nestLevel]

theorem doWorkIdle_nestLevel (env : Env) (hI : NestNeutral env.DoIdleWork)
    (w : MainMessagePump) : (doWorkIdle env w).d_nestLevel = w.d_nestLevel := by
  have h1 : (env.DoIdleWork (record Call.DoIdleWork w)).d_nestLevel = w.d_nestLevel :=
    hI (record Call.DoIdleWork w)
  simp only [doWorkIdle]
  split_ifs
  · exact h1
  · exact h1
  · rfl

theorem doWork_nestLevel (env : Env) (hH : NestNeutral env.handler)
    (hI : NestNeutral env.DoIdleWork) (w : MainMessagePump) :
    (doWork env w).d_nestLevel = w.d_nestLevel := by
  rw [doWork_stages, (doWorkExit_frame env _ _).2.2.2.2.2, doWorkIdle_nestLevel env hI,
    doWorkDrained_nestLevel env hH]
  omega

theorem flushLoop_nestLevel (env : Env) (hH : NestNeutral env.handler)
    (hI : NestNeutral env.DoIdleWork) :
    ∀ (n : Nat) (w : MainMessagePump), (flushLoop env n w).1.d_nestLevel = w.d_nestLevel
  | 0, _ => by simp [flushLoop]
  | n + 1, w => by
    by_cases h : HAVE_WORK = w.work_state_
    · simp only [flushLoop, if_pos h]
      rw [flushLoop_nestLevel env hH hI n, doWork_nestLevel env hH hI,
        (schedulePump_frame env w).2.2.2.2.2.1]
    · simp only [flushLoop, if_neg h]

theorem modalLoop_nestLevel (b : Bool) (w : MainMessagePump) :
    (modalLoop b w).d_nestLevel = w.d_nestLevel := by
  unfold modalLoop
  split_ifs <;> simp [record]

theorem schedulePumpIfNecessary_nestLevel (env : Env) (w : MainMessagePump) :
    (schedulePumpIfNecessary env w).d_nestLevel = w.d_nestLevel := by
  unfold schedulePumpIfNecessary
  simp only []
  split_ifs
  · exact (schedulePump_frame env w).2.2.2.2.2.1
  · rfl

theorem messageFilter_nestLevel (env : Env) (code : Int) (w : MainMessagePump) :
    (messageFilter env code w).1.d_nestLevel = w.d_nestLevel := by
  simp only [messageFilter]
  split_ifs
  · exact modalLoop_nestLevel true w
  · rfl

theorem windowProcedureHook_nestLevel (env : Env) (code : Int) (message : Nat)
    (w : MainMessagePump) :
    (windowProcedureHook env code message w).1.d_nestLevel = w.d_nestLevel := by
  have h1 : (windowProcedureHookSwitch message w).d_nestLevel = w.d_nestLevel := by
    unfold windowProcedureHookSwitch
    split_ifs <;> first | exact modalLoop_nestLevel _ w | rfl
  rw [windowProcedureHook_eq]
  simp only [windowProcedureHookSchedule]
  split_ifs
  · rw [schedulePumpIfNecessary_nestLevel, h1]
  · rw [schedulePumpIfNecessary_nestLevel]
    exact h1
  · exact h1
  · exact h1

theorem preHandleMessage_nestLevel (env : Env) (w : MainMessagePump) :
    (preHandleMessage env w).1.d_nestLevel = w.d_nestLevel := by
  simp only [preHandleMessage]
  rw [messageFilter_nestLevel]
  simp [DCHECK_eq]

theorem postHandleMessage_nestLevel (env : Env) (w : MainMessagePump) :
    (postHandleMessage env w).d_nestLevel = w.d_nestLevel := by
  have h1 : (postHandleMessageExit w).d_nestLevel = w.d_nestLevel := by
    simp only [postHandleMessageExit]
    split_ifs
    · rw [modalLoop_nestLevel]
      simp [DCHECK_eq]
    · simp [DCHECK_eq]
  simp only [postHandleMessage, postHandleMessageSchedule]
  split_ifs
  · split
    · split
      · rw [(schedulePump_frame env _).2.2.2.2.2.1]
        simp only []
        rw [DCHECK_eq]
        exact h1
      · exact h1
    · rw [(schedulePump_frame env _).2.2.2.2.2.1]
      exact h1
  · exact h1

theorem windowProcedure_nestLevel (env : Env) (hH : NestNeutral env.handler)
    (hI : NestNeutral env.DoIdleWork) (message : Nat) (w : MainMessagePump) :
    (windowProcedure env message w).1.d_nestLevel = w.d_nestLevel := by
  simp only [windowProcedure]
  split_ifs
  · exact doWork_nestLevel env hH hI w
  · rw [schedulePumpIfNecessary_nestLevel]
    simp [DCHECK_eq]
  · simp [DCHECK_eq]
  · rfl

theorem ScheduleWork_nestLevel (env : Env) (w : MainMessagePump) :
    (ScheduleWork env w).d_nestLevel = w.d_nestLevel := by
  simp only [ScheduleWork]
  split_ifs
  · rw [(schedulePump_frame env _).2.2.2.2.2.1]
  · rfl

theorem nestReachable_zero {w : MainMessagePump} (h : NestReachable w) :
    w.d_nestLevel = 0 := by
  induction h with
  | new hwnd now => rfl
  | init env _ ih => simpa [init, record] using ih
  | ScheduleWork env _ ih => rw [ScheduleWork_nestLevel]; exact ih
  | setTraceThreshold t _ ih => simpa [setTraceThreshold, record] using ih
  | messageFilter env code _ ih => rw [messageFilter_nestLevel]; exact ih
  | windowProcedureHook env code message _ ih =>
    rw [windowProcedureHook_nestLevel]; exact ih
  | preHandleMessage env _ ih => rw [preHandleMessage_nestLevel]; exact ih
  | postHandleMessage env _ ih => rw [postHandleMessage_nestLevel]; exact ih
  | windowProcedure env message hH hI _ ih =>
    rw [windowProcedure_nestLevel env hH hI]; exact ih
  | dispatchPumpMessage env hH hI _ hd ih =>
    unfold dispatchPumpMessage at hd
    split_ifs at hd
    simp only [Option.some.injEq] at hd
    subst hd
    rw [windowProcedure_nestLevel env hH hI]
    exact ih
  | flush env hH hI _ ih =>
    unfold flush
    rw [flushLoop_nestLevel env hH hI]; exact ih
  | cleanup env hH hI _ hc ih =>
    rename_i w0 w2 hr0
    have hf : (flush env w0).d_nestLevel = 0 := by
      unfold flush
      rw [flushLoop_nestLevel env hH hI]
      exact ih
    rw [(cleanup_some env w0 w2 hc).2]
    exact hf

/-- C19: with a task handler and idle work that return with `d_nestLevel` as
they found it, `doWork()` raises `d_nestLevel` by one on entry, keeps it at
the entry value plus one for every drain and for the idle work, and returns
with the entry value; `doWork` is itself such a function, so the handler may
re-enter it. In every state between operations reached from construction
`d_nestLevel` is 0, hence never negative, and it is positive in every state
inside such a `doWork()` call. -/
theorem C19_nestLevel_balanced (env : Env) (w : MainMessagePump)
    (hH : NestNeutral env.handler) (hI : NestNeutral env.DoIdleWork) :
    (doWorkEnter w).d_nestLevel = w.d_nestLevel + 1 ∧
    (∀ j, ((drain env)^[j] (doWorkEnter w)).d_nestLevel = w.d_nestLevel + 1) ∧
    (doWorkDrained env w).d_nestLevel = w.d_nestLevel + 1 ∧
    (doWorkIdle env (doWorkDrained env w)).d_nestLevel = w.d_nestLevel + 1 ∧
    (doWork env w).d_nestLevel = w.d_nestLevel ∧
    NestNeutral (doWork env) ∧
    (NestReachable w →
      w.d_nestLevel = 0 ∧ (doWork env w).d_nestLevel = 0 ∧
      (∀ j, 0 < ((drain env)^[j] (doWorkEnter w)).d_nestLevel) ∧
      0 < (doWorkDrained env w).d_nestLevel) := by
  have h2 : ∀ j, ((drain env)^[j] (doWorkEnter w)).d_nestLevel = w.d_nestLevel + 1 := by
    intro j
    rw [drain_iterate_nestLevel env hH, doWorkEnter_nestLevel]
  have h3 := doWorkDrained_nestLevel env hH w
  refine ⟨doWorkEnter_nestLevel w, h2, h3, ?_, doWork_nestLevel env hH hI w,
    fun s => doWork_nestLevel env hH hI s, fun hr => ?_⟩
  · rw [doWorkIdle_nestLevel env hI, h3]
  · have h0 := nestReachable_zero hr
    refine ⟨h0, by rw [doWork_nestLevel env hH hI, h0], fun j => ?_, ?_⟩
    · rw [h2 j, h0]
      decide
    · rw [h3, h0]
      decide

/-- C19, evaluated with a handler that re-enters `doWork()`: on the fresh
pump with work scheduled the state the handler leaves after the first drain
has `d_nestLevel = 1` and `doWork()` returns with `d_nestLevel = 0`. -/
theorem C19_nestLevel_balanced_witness :
    NestNeutral reentrantEnv.handler ∧
    NestReachable (ScheduleWork quietEnv (new 7 100)) ∧
    (drain reentrantEnv (doWorkEnter (ScheduleWork quietEnv (new 7 100)))).d_nestLevel = 1 ∧
    (doWork reentrantEnv (ScheduleWork quietEnv (new 7 100))).d_nestLevel = 0 :=
  ⟨fun s => by
      show (doWork quietEnv (schedulePump quietEnv s)).d_nestLevel = s.d_nestLevel
      rw [doWork_nestLevel quietEnv (fun _ => rfl) (fun _ => rfl),
        (schedulePump_frame quietEnv s).2.2.2.2.2.1],
    NestReachable.ScheduleWork quietEnv (NestReachable.new 7 100),
    (C19_nestLevel_balanced reentrantEnv (ScheduleWork quietEnv (new 7 100))
      (fun s => by
        show (doWork quietEnv (schedulePump quietEnv s)).d_nestLevel = s.d_nestLevel
        rw [doWork_nestLevel quietEnv (fun _ => rfl) (fun _ => rfl),
          (schedulePump_frame quietEnv s).2.2.2.2.2.1])
      (fun _ => rfl)).2.1 1,
    (C19_nestLevel_balanced reentrantEnv (ScheduleWork quietEnv (new 7 100))
      (fun s => by
        show (doWork quietEnv (schedulePump quietEnv s)).d_nestLevel = s.d_nestLevel
        rw [doWork_nestLevel quietEnv (fun _ => rfl) (fun _ => rfl),
          (schedulePump_frame quietEnv s).2.2.2.2.2.1])
      (fun _ => rfl)).2.2.2.2.1⟩

theorem behaviour_record (c : Call) (w : MainMessagePump) :
    behaviour (record c w) =
      if isLogCall c then behaviour w else record c (behaviour w) := by
  cases h : isLogCall c <;> simp [behaviour, record, List.filter_append, h]

theorem sameBehaviour_record (c : Call) {a b : MainMessagePump}
    (h : behaviour a = behaviour b) : behaviour (record c a) = behaviour (record c b) := by
  rw [behaviour_record, behaviour_record, h]

theorem sameBehaviour_DCHECK (cond : Bool) (c : Check) {a b : MainMessagePump}
    (h : behaviour a = behaviour b) :
    behaviour (DCHECK cond c a) = behaviour (DCHECK cond c b) := by
  cases cond
  · exact sameBehaviour_record _ h
  · exact h

theorem sameBehaviour_schedulePump (env : Env) (hB : ThresholdBlind env)
    {a b : MainMessagePump} (h : behaviour a = behaviour b) :
    behaviour (schedulePump env a) = behaviour (schedulePump env b) := by
  have hp : a.d_isPumped = b.d_isPumped := congrArg (fun s => s.d_isPumped) h
  have hq : a.pumpMessages = b.pumpMessages := congrArg (fun s => s.pumpMessages) h
  have h1 : behaviour { a with d_isPumped := 1 } = behaviour { b with d_isPumped := 1 } :=
    congrArg (fun s => { s with d_isPumped := 1 }) h
  by_cases h0 : a.d_isPumped = 0
  · have hr := (hB _ _ h1).1
    rw [schedulePump_posts env a h0, schedulePump_posts env b (hp ▸ h0), hr, hq]
    have h2 := sameBehaviour_record
      (Call.PostMessageW (env.PostMessageW { b with d_isPumped := 1 })) h
    exact congrArg (fun s => { s with
      d_isPumped := if env.PostMessageW { b with d_isPumped := 1 } then 1 else 0,
      d_needRepost := if env.PostMessageW { b with d_isPumped := 1 } then 0 else 1,
      pumpMessages := b.pumpMessages +
        (if env.PostMessageW { b with d_isPumped := 1 } then 1 else 0) }) h2
  · rw [schedulePump_pumped env a h0, schedulePump_pumped env b (hp ▸ h0)]
    exact h1

theorem sameBehaviour_update (f : MainMessagePump → MainMessagePump)
    (hf : ∀ s, behaviour (f s) = f (behaviour s)) {a b : MainMessagePump}
    (h : behaviour a = behaviour b) : behaviour (f a) = behaviour (f b) := by
  rw [hf, hf, h]

theorem behaviour_logWarning (site : TraceSite) (t : Nat) (s : MainMessagePump) :
    behaviour (record (Call.LogWarning site t) s) = behaviour s := by
  simp [behaviour_record, isLogCall]

theorem sameBehaviour_schedulePumpIfNecessary (env : Env) (hB : ThresholdBlind env)
    {a b : MainMessagePump} (h : behaviour a = behaviour b) :
    behaviour (schedulePumpIfNecessary env a) = behaviour (schedulePumpIfNecessary env b) := by
  have hw : a.work_state_ = b.work_state_ := congrArg (fun s => s.work_state_) h
  by_cases hc : HAVE_WORK = a.work_state_
  · simp only [schedulePumpIfNecessary, if_pos hc, if_pos (hw ▸ hc)]
    exact sameBehaviour_schedulePump env hB h
  · simp only [schedulePumpIfNecessary, if_neg hc, if_neg (hw ▸ hc)]
    exact h

theorem sameBehaviour_modalLoop (enabled : Bool) {a b : MainMessagePump}
    (h : behaviour a = behaviour b) :
    behaviour (modalLoop enabled a) = behaviour (modalLoop enabled b) := by
  have hm : a.d_isInsideModalLoop = b.d_isInsideModalLoop :=
    congrArg (fun s => s.d_isInsideModalLoop) h
  have ht : a.d_minTimer = b.d_minTimer := congrArg (fun s => s.d_minTimer) h
  by_cases hc : (a.d_isInsideModalLoop != enabled) = true
  · have hc' : (b.d_isInsideModalLoop != enabled) = true := hm ▸ hc
    cases enabled
    · simp only [modalLoop, if_pos hc, if_pos hc', Bool.false_eq_true, if_false]
      exact sameBehaviour_record _ (sameBehaviour_update (fun s =>
        { s with d_isInsideModalLoop := false, d_scopedNestedTaskAllower := false })
        (fun _ => rfl) h)
    · simp only [modalLoop, if_pos hc, if_pos hc', if_true]
      have key1 := sameBehaviour_record (Call.SetTimer a.d_minTimer)
        (sameBehaviour_record Call.AllowNestedTasks (sameBehaviour_update (fun s =>
          { s with d_isInsideModalLoop := true, d_scopedNestedTaskAllower := true })
          (fun _ => rfl) h))
      have key2 : record (Call.SetTimer a.d_minTimer) (record Call.AllowNestedTasks
          { b with d_isInsideModalLoop := true, d_scopedNestedTaskAllower := true }) =
          record (Call.SetTimer b.d_minTimer) (record Call.AllowNestedTasks
          { b with d_isInsideModalLoop := true, d_scopedNestedTaskAllower := true }) := by
        rw [ht]
      exact key1.trans (congrArg behaviour key2)
  · have hc' : ¬ (b.d_isInsideModalLoop != enabled) = true := hm ▸ hc
    simp only [modalLoop, if_neg hc, if_neg hc']
    exact h

theorem sameBehaviour_resetWorkState {a b : MainMessagePump}
    (h : behaviour a = behaviour b) :
    behaviour (resetWorkState a) = behaviour (resetWorkState b) := by
  have hs : a.d_scheduleTime = b.d_scheduleTime := congrArg (fun s => s.d_scheduleTime) h
  simp only [resetWorkState, ResetWorkState]
  rw [hs]
  exact sameBehaviour_update (fun s => { s with work_state_ := READY }) (fun _ => rfl)
    (sameBehaviour_DCHECK _ _
      (sameBehaviour_update (fun s => { s with d_scheduleTime := 0 }) (fun _ => rfl) h))

theorem sameBehaviour_ScheduleWork (env : Env) (hB : ThresholdBlind env)
    {a b : MainMessagePump} (h : behaviour a = behaviour b) :
    behaviour (ScheduleWork env a) = behaviour (ScheduleWork env b) := by
  have hm : a.d_isInsideMainLoop = b.d_isInsideMainLoop :=
    congrArg (fun s => s.d_isInsideMainLoop) h
  by_cases hc : (0 : Int) = a.d_isInsideMainLoop
  · simp only [ScheduleWork, if_pos hc, if_pos (hm ▸ hc)]
    exact sameBehaviour_schedulePump env hB (sameBehaviour_update (fun s =>
      { s with work_state_ := HAVE_WORK, d_scheduleTime := GetTickCount s,
               d_skipIdleWork := true }) (fun _ => rfl) h)
  · simp only [ScheduleWork, if_neg hc, if_neg (hm ▸ hc)]
    exact congrArg (fun s =>
      { s with work_state_ := HAVE_WORK, d_scheduleTime := GetTickCount s }) h

theorem sameBehaviour_doWorkEnter {a b : MainMessagePump} (h : behaviour a = behaviour b) :
    behaviour (doWorkEnter a) = behaviour (doWorkEnter b) := by
  have hn : a.d_nestLevel = b.d_nestLevel := congrArg (fun s => s.d_nestLevel) h
  have hp : a.d_isPumped = b.d_isPumped := congrArg (fun s => s.d_isPumped) h
  have h1 := sameBehaviour_DCHECK (decide (0 ≤ a.d_nestLevel)) Check.nestLevel h
  have hp1 : (DCHECK (decide (0 ≤ a.d_nestLevel)) Check.nestLevel a).d_isPumped =
      b.d_isPumped := by rw [DCHECK_eq]; exact hp
  have hp2 : (DCHECK (decide (0 ≤ b.d_nestLevel)) Check.nestLevel b).d_isPumped =
      b.d_isPumped := by rw [DCHECK_eq]
  simp only [doWorkEnter]
  rw [hp1, hp2, ← hn]
  exact sameBehaviour_DCHECK _ _ (sameBehaviour_update (fun s =>
    { s with d_nestLevel := s.d_nestLevel + 1, d_isPumped := 0 }) (fun _ => rfl) h1)

theorem sameBehaviour_drain (env : Env) (hB : ThresholdBlind env) {a b : MainMessagePump}
    (h : behaviour a = behaviour b) : behaviour (drain env a) = behaviour (drain env b) :=
  (hB _ _ (sameBehaviour_record _ (sameBehaviour_resetWorkState h))).2.1

theorem sameBehaviour_drainLoop (env : Env) (hB : ThresholdBlind env) :
    ∀ (n : Nat) {a b : MainMessagePump}, behaviour a = behaviour b →
      behaviour (drainLoop env n a).1 = behaviour (drainLoop env n b).1 ∧
      (drainLoop env n a).2 = (drainLoop env n b).2
  | 0, a, b, h => by simpa [drainLoop] using h
  | n + 1, a, b, h => by
    have hd := sameBehaviour_drain env hB h
    have hw : (drain env a).work_state_ = (drain env b).work_state_ :=
      congrArg (fun s => s.work_state_) hd
    by_cases hc : READY = (drain env a).work_state_
    · simp only [drainLoop, if_pos hc, if_pos (hw ▸ hc)]
      exact ⟨hd, trivial⟩
    · simp only [drainLoop, if_neg hc, if_neg (hw ▸ hc)]
      obtain ⟨i1, i2⟩ := sameBehaviour_drainLoop env hB n hd
      exact ⟨i1, by rw [i2]⟩

theorem sameBehaviour_maxPumpCount {a b : MainMessagePump} (h : behaviour a = behaviour b) :
    maxPumpCount a = maxPumpCount b := by
  have hm : a.d_isInsideModalLoop = b.d_isInsideModalLoop :=
    congrArg (fun s => s.d_isInsideModalLoop) h
  have hc : a.d_maxPumpCountInsideModalLoop = b.d_maxPumpCountInsideModalLoop :=
    congrArg (fun s => s.d_maxPumpCountInsideModalLoop) h
  unfold maxPumpCount
  rw [hm, hc]

theorem sameBehaviour_doWorkIdle (env : Env) (hB : ThresholdBlind env) {a b : MainMessagePump}
    (h : behaviour a = behaviour b) :
    behaviour (doWorkIdle env a) = behaviour (doWorkIdle env b) := by
  have hs : a.d_skipIdleWork = b.d_skipIdleWork := congrArg (fun s => s.d_skipIdleWork) h
  have hi := (hB _ _ (sameBehaviour_record Call.DoIdleWork h)).2.2.1
  have hlog : ∀ (s : MainMessagePump) (t : Nat), behaviour
      (if env.shouldTrace s t then record (Call.LogWarning TraceSite.DoIdleWork t) s else s)
      = behaviour s := by
    intro s t
    split_ifs
    · simp [behaviour_record, isLogCall]
    · rfl
  cases hc : a.d_skipIdleWork
  · rw [doWorkIdle_run env a hc, doWorkIdle_run env b (hs ▸ hc), hlog, hlog]
    exact hi
  · rw [doWorkIdle_skip env a hc, doWorkIdle_skip env b (hs ▸ hc)]
    exact congrArg (fun s => { s with d_skipIdleWork := false }) h

theorem sameBehaviour_doWorkExit (env : Env) (t1 t2 : Nat) {a b : MainMessagePump}
    (h : behaviour a = behaviour b) :
    behaviour (doWorkExit env t1 a) = behaviour (doWorkExit env t2 b) := by
  have hlog : ∀ (s : MainMessagePump) (t : Nat), behaviour (doWorkExit env t s) =
      { behaviour s with d_nestLevel := s.d_nestLevel - 1 } := by
    intro s t
    simp only [doWorkExit]
    split_ifs
    · exact congrArg (fun x => { x with d_nestLevel := x.d_nestLevel - 1 })
        (behaviour_logWarning _ _ s)
    · rfl
  rw [hlog, hlog]
  exact congrArg (fun x => { x with d_nestLevel := x.d_nestLevel - 1 }) h

theorem sameBehaviour_doWork (env : Env) (hB : ThresholdBlind env) {a b : MainMessagePump}
    (h : behaviour a = behaviour b) :
    behaviour (doWork env a) = behaviour (doWork env b) ∧
    doWorkDrains env a = doWorkDrains env b := by
  have he := sameBehaviour_doWorkEnter h
  have hl : behaviour (doWorkDrained env a) = behaviour (doWorkDrained env b) ∧
      doWorkDrains env a = doWorkDrains env b := by
    unfold doWorkDrained doWorkDrains
    rw [sameBehaviour_maxPumpCount he]
    exact sameBehaviour_drainLoop env hB _ he
  refine ⟨?_, hl.2⟩
  rw [doWork_stages, doWork_stages]
  exact sameBehaviour_doWorkExit env _ _ (sameBehaviour_doWorkIdle env hB hl.1)

theorem sameBehaviour_flushLoop (env : Env) (hB : ThresholdBlind env) :
    ∀ (n : Nat) {a b : MainMessagePump}, behaviour a = behaviour b →
      behaviour (flushLoop env n a).1 = behaviour (flushLoop env n b).1 ∧
      (flushLoop env n a).2 = (flushLoop env n b).2
  | 0, a, b, h => by simpa [flushLoop] using h
  | n + 1, a, b, h => by
    have hw : a.work_state_ = b.work_state_ := congrArg (fun s => s.work_state_) h
    by_cases hc : HAVE_WORK = a.work_state_
    · simp only [flushLoop, if_pos hc, if_pos (hw ▸ hc)]
      obtain ⟨i1, i2⟩ := sameBehaviour_flushLoop env hB n
        (sameBehaviour_doWork env hB (sameBehaviour_schedulePump env hB h)).1
      exact ⟨i1, by rw [i2]⟩
    · simp only [flushLoop, if_neg hc, if_neg (hw ▸ hc)]
      exact ⟨h, trivial⟩

theorem sameBehaviour_messageFilter (env : Env) (hB : ThresholdBlind env) (code : Int)
    {a b : MainMessagePump} (h : behaviour a = behaviour b) :
    behaviour (messageFilter env code a).1 = behaviour (messageFilter env code b).1 ∧
    (messageFilter env code a).2 = (messageFilter env code b).2 := by
  have hm : a.d_isInsideModalLoop = b.d_isInsideModalLoop :=
    congrArg (fun s => s.d_isInsideModalLoop) h
  have hs : behaviour (messageFilter env code a).1 = behaviour (messageFilter env code b).1 := by
    by_cases hc : (!a.d_isInsideModalLoop && isModalCode code) = true
    · simp only [messageFilter, if_pos hc, if_pos (hm ▸ hc)]
      exact sameBehaviour_modalLoop true h
    · simp only [messageFilter, if_neg hc, if_neg (hm ▸ hc)]
      exact h
  refine ⟨hs, ?_⟩
  have hf : (messageFilter env code a).1.d_messageFilter =
      (messageFilter env code b).1.d_messageFilter := congrArg (fun s => s.d_messageFilter) hs
  show env.CallNextHookEx (messageFilter env code a).1.d_messageFilter code
      (messageFilter env code a).1 =
    env.CallNextHookEx (messageFilter env code b).1.d_messageFilter code
      (messageFilter env code b).1
  rw [hf]
  exact (hB _ _ hs).2.2.2.2.1 _ _

theorem sameBehaviour_windowProcedureHookSwitch (message : Nat) {a b : MainMessagePump}
    (h : behaviour a = behaviour b) :
    behaviour (windowProcedureHookSwitch message a) =
      behaviour (windowProcedureHookSwitch message b) := by
  have hn : a.d_nestLevel = b.d_nestLevel := congrArg (fun s => s.d_nestLevel) h
  unfold windowProcedureHookSwitch
  rw [hn]
  split_ifs <;> first | exact sameBehaviour_modalLoop _ h | exact h

theorem sameBehaviour_windowProcedureHookSchedule (env : Env) (hB : ThresholdBlind env)
    {a b : MainMessagePump} (h : behaviour a = behaviour b) :
    behaviour (windowProcedureHookSchedule env a) =
      behaviour (windowProcedureHookSchedule env b) := by
  have e1 : a.d_needRepost = b.d_needRepost := congrArg (fun s => s.d_needRepost) h
  have e2 : (decide (USER_TIMER_MAXIMUM ≠ a.d_maxTimer) && a.d_isInsideModalLoop) =
      (decide (USER_TIMER_MAXIMUM ≠ b.d_maxTimer) && b.d_isInsideModalLoop) :=
    congrArg (fun s => (decide (USER_TIMER_MAXIMUM ≠ s.d_maxTimer) && s.d_isInsideModalLoop)) h
  have e3 : (decide (0 ≠ a.d_scheduleTime) &&
        decide (a.d_maxTimer < subDWORD (GetTickCount a) a.d_scheduleTime)) =
      (decide (0 ≠ b.d_scheduleTime) &&
        decide (b.d_maxTimer < subDWORD (GetTickCount b) b.d_scheduleTime)) :=
    congrArg (fun s => (decide (0 ≠ s.d_scheduleTime) &&
        decide (s.d_maxTimer < subDWORD (GetTickCount s) s.d_scheduleTime))) h
  by_cases c1 : a.d_needRepost ≠ 0
  · simp only [windowProcedureHookSchedule, if_pos c1, if_pos (e1 ▸ c1)]
    exact sameBehaviour_schedulePumpIfNecessary env hB h
  · by_cases c2 : (decide (USER_TIMER_MAXIMUM ≠ a.d_maxTimer) && a.d_isInsideModalLoop) = true
    · by_cases c3 : (decide (0 ≠ a.d_scheduleTime) &&
          decide (a.d_maxTimer < subDWORD (GetTickCount a) a.d_scheduleTime)) = true
      · simp only [windowProcedureHookSchedule, if_neg c1, if_neg (e1 ▸ c1), if_pos c2,
          if_pos (e2 ▸ c2), if_pos c3, if_pos (e3 ▸ c3)]
        exact sameBehaviour_schedulePumpIfNecessary env hB
          (sameBehaviour_update (fun s => { s with d_skipIdleWork := true }) (fun _ => rfl) h)
      · simp only [windowProcedureHookSchedule, if_neg c1, if_neg (e1 ▸ c1), if_pos c2,
          if_pos (e2 ▸ c2), if_neg c3, if_neg (e3 ▸ c3)]
        exact h
    · simp only [windowProcedureHookSchedule, if_neg c1, if_neg (e1 ▸ c1), if_neg c2,
        if_neg (e2 ▸ c2)]
      exact h

theorem sameBehaviour_windowProcedureHook (env : Env) (hB : ThresholdBlind env) (code : Int)
    (message : Nat) {a b : MainMessagePump} (h : behaviour a = behaviour b) :
    behaviour (windowProcedureHook env code message a).1 =
      behaviour (windowProcedureHook env code message b).1 ∧
    (windowProcedureHook env code message a).2 = (windowProcedureHook env code message b).2 := by
  have hs : behaviour (windowProcedureHook env code message a).1 =
      behaviour (windowProcedureHook env code message b).1 := by
    rw [windowProcedureHook_eq, windowProcedureHook_eq]
    exact sameBehaviour_windowProcedureHookSchedule env hB
      (sameBehaviour_windowProcedureHookSwitch message h)
  refine ⟨hs, ?_⟩
  have hf : (windowProcedureHook env code message a).1.d_windowProcedureHook =
      (windowProcedureHook env code message b).1.d_windowProcedureHook :=
    congrArg (fun s => s.d_windowProcedureHook) hs
  show env.CallNextHookEx (windowProcedureHook env code message a).1.d_windowProcedureHook code
      (windowProcedureHook env code message a).1 =
    env.CallNextHookEx (windowProcedureHook env code message b).1.d_windowProcedureHook code
      (windowProcedureHook env code message b).1
  rw [hf]
  exact (hB _ _ hs).2.2.2.2.1 _ _

theorem sameBehaviour_windowProcedure (env : Env) (hB : ThresholdBlind env) (message : Nat)
    {a b : MainMessagePump} (h : behaviour a = behaviour b) :
    behaviour (windowProcedure env message a).1 = behaviour (windowProcedure env message b).1 ∧
    (windowProcedure env message a).2 = (windowProcedure env message b).2 := by
  by_cases hk : kPumpMessage = message
  · simp only [windowProcedure, if_pos hk]
    exact ⟨(sameBehaviour_doWork env hB h).1, trivial⟩
  · by_cases ht : WM_TIMER = message
    · have hd := sameBehaviour_DCHECK a.d_isInsideModalLoop Check.timerInsideModalLoop h
      have hm : a.d_isInsideModalLoop = b.d_isInsideModalLoop :=
        congrArg (fun s => s.d_isInsideModalLoop) h
      rw [hm] at hd
      have e3' := congrArg (fun s => decide (s.d_minTimer <
          subDWORD (GetTickCount s) s.d_scheduleTime)) hd
      have e3 : decide ((DCHECK b.d_isInsideModalLoop Check.timerInsideModalLoop a).d_minTimer <
            subDWORD (GetTickCount (DCHECK b.d_isInsideModalLoop Check.timerInsideModalLoop a))
              (DCHECK b.d_isInsideModalLoop Check.timerInsideModalLoop a).d_scheduleTime) =
          decide ((DCHECK b.d_isInsideModalLoop Check.timerInsideModalLoop b).d_minTimer <
            subDWORD (GetTickCount (DCHECK b.d_isInsideModalLoop Check.timerInsideModalLoop b))
              (DCHECK b.d_isInsideModalLoop Check.timerInsideModalLoop b).d_scheduleTime) := e3'
      simp only [windowProcedure, if_neg hk, if_pos ht]
      rw [hm]
      simp only [decide_eq_decide] at e3
      by_cases c : (DCHECK b.d_isInsideModalLoop Check.timerInsideModalLoop a).d_minTimer <
            subDWORD (GetTickCount (DCHECK b.d_isInsideModalLoop Check.timerInsideModalLoop a))
              (DCHECK b.d_isInsideModalLoop Check.timerInsideModalLoop a).d_scheduleTime
      · rw [if_pos c, if_pos (e3.mp c)]
        exact ⟨sameBehaviour_schedulePumpIfNecessary env hB
          (sameBehaviour_update (fun s => { s with d_skipIdleWork := true }) (fun _ => rfl) hd),
          trivial⟩
      · rw [if_neg c, if_neg (fun c' => c (e3.mpr c'))]
        exact ⟨hd, trivial⟩
    · simp only [windowProcedure, if_neg hk, if_neg ht]
      exact ⟨h, (hB _ _ h).2.2.2.2.2.1 _⟩

theorem sameBehaviour_preHandleMessage (env : Env) (hB : ThresholdBlind env)
    {a b : MainMessagePump} (h : behaviour a = behaviour b) :
    behaviour (preHandleMessage env a).1 = behaviour (preHandleMessage env b).1 ∧
    (preHandleMessage env a).2 = (preHandleMessage env b).2 := by
  have hr : a.d_runLoop = b.d_runLoop := congrArg (fun s => s.d_runLoop) h
  have hm : a.d_isInsideMainLoop = b.d_isInsideMainLoop :=
    congrArg (fun s => s.d_isInsideMainLoop) h
  have h1 := sameBehaviour_DCHECK a.d_runLoop Check.runLoop h
  have hm1 : (DCHECK a.d_runLoop Check.runLoop a).d_isInsideMainLoop =
      (DCHECK a.d_runLoop Check.runLoop b).d_isInsideMainLoop :=
    congrArg (fun s => s.d_isInsideMainLoop) h1
  have h3 := sameBehaviour_DCHECK
    (0 == (DCHECK a.d_runLoop Check.runLoop a).d_isInsideMainLoop) Check.wasOutsideMainLoop
    (sameBehaviour_update (fun s => { s with d_isInsideMainLoop := 1 }) (fun _ => rfl) h1)
  obtain ⟨k1, k2⟩ := sameBehaviour_messageFilter env hB kMessageFilterCode h3
  simp only [preHandleMessage]
  rw [← hr, ← hm1]
  exact ⟨k1, by rw [k2]⟩

theorem sameBehaviour_postHandleMessageExit {a b : MainMessagePump}
    (h : behaviour a = behaviour b) :
    behaviour (postHandleMessageExit a) = behaviour (postHandleMessageExit b) := by
  have hr : a.d_runLoop = b.d_runLoop := congrArg (fun s => s.d_runLoop) h
  have h1 := sameBehaviour_DCHECK a.d_runLoop Check.runLoop h
  have hm1 : (DCHECK a.d_runLoop Check.runLoop a).d_isInsideMainLoop =
      (DCHECK a.d_runLoop Check.runLoop b).d_isInsideMainLoop :=
    congrArg (fun s => s.d_isInsideMainLoop) h1
  have h3 := sameBehaviour_DCHECK
    (1 == (DCHECK a.d_runLoop Check.runLoop a).d_isInsideMainLoop) Check.wasInsideMainLoop
    (sameBehaviour_update (fun s => { s with d_isInsideMainLoop := 0 }) (fun _ => rfl) h1)
  have hmod := congrArg (fun s => s.d_isInsideModalLoop) h3
  simp only [postHandleMessageExit]
  rw [← hr, ← hm1]
  simp only [] at hmod
  by_cases c : (DCHECK (1 == (DCHECK a.d_runLoop Check.runLoop a).d_isInsideMainLoop)
      Check.wasInsideMainLoop
      { DCHECK a.d_runLoop Check.runLoop a with d_isInsideMainLoop := 0 }).d_isInsideModalLoop
      = true
  · rw [if_pos c, if_pos (hmod ▸ c)]
    exact sameBehaviour_modalLoop false h3
  · rw [if_neg c, if_neg (hmod ▸ c)]
    exact h3

theorem sameBehaviour_postHandleMessageSchedule (env : Env) (hB : ThresholdBlind env)
    {a b : MainMessagePump} (h : behaviour a = behaviour b) :
    behaviour (postHandleMessageSchedule env a) =
      behaviour (postHandleMessageSchedule env b) := by
  have e1 : (HAVE_WORK = a.work_state_ ∧ (0 : Int) = a.d_isPumped) =
      (HAVE_WORK = b.work_state_ ∧ (0 : Int) = b.d_isPumped) :=
    congrArg (fun s => (HAVE_WORK = s.work_state_ ∧ (0 : Int) = s.d_isPumped)) h
  have hp := (hB _ _ h).2.2.2.1
  by_cases c : HAVE_WORK = a.work_state_ ∧ (0 : Int) = a.d_isPumped
  · simp only [postHandleMessageSchedule, if_pos c, if_pos (e1 ▸ c)]
    rw [hp PM_NOREMOVE, hp (PM_NOREMOVE ||| PM_QS_POSTMESSAGE ||| PM_QS_SENDMESSAGE)]
    cases env.PeekMessage PM_NOREMOVE b with
    | none => exact sameBehaviour_schedulePump env hB h
    | some m =>
      cases env.PeekMessage (PM_NOREMOVE ||| PM_QS_POSTMESSAGE ||| PM_QS_SENDMESSAGE) b with
      | none => exact h
      | some m' =>
        exact sameBehaviour_schedulePump env hB
          (sameBehaviour_update (fun s => { s with d_skipIdleWork := true }) (fun _ => rfl)
            (sameBehaviour_DCHECK _ _ h))
  · simp only [postHandleMessageSchedule, if_neg c, if_neg (e1 ▸ c)]
    exact h

theorem sameBehaviour_postHandleMessage (env : Env) (hB : ThresholdBlind env)
    {a b : MainMessagePump} (h : behaviour a = behaviour b) :
    behaviour (postHandleMessage env a) = behaviour (postHandleMessage env b) :=
  sameBehaviour_postHandleMessageSchedule env hB (sameBehaviour_postHandleMessageExit h)

theorem behaviour_setTraceThreshold (timeoutMS : Nat) (w : MainMessagePump) :
    behaviour (setTraceThreshold timeoutMS w) = behaviour w := by
  simp [setTraceThreshold, behaviour_record, isLogCall]
  rfl

theorem countP_behaviour (p : Call → Bool) (hp : ∀ c, isLogCall c = true → p c = false)
    (w : MainMessagePump) : (behaviour w).trace.countP p = w.trace.countP p := by
  show (w.trace.filter fun c => !isLogCall c).countP p = w.trace.countP p
  rw [List.countP_filter]
  congr 1
  funext c
  cases h : isLogCall c
  · simp
  · simp [hp c h]

theorem observations_behaviour {a b : MainMessagePump} (h : behaviour a = behaviour b) :
    postAttempts a = postAttempts b ∧ setTimerCalls a = setTimerCalls b ∧
    killTimerCalls a = killTimerCalls b ∧ idleCalls a = idleCalls b ∧
    (∀ c, dcheckFailures c a = dcheckFailures c b) := by
  have key : ∀ (p : Call → Bool), (∀ c, isLogCall c = true → p c = false) →
      a.trace.countP p = b.trace.countP p := by
    intro p hp
    rw [← countP_behaviour p hp a, ← countP_behaviour p hp b, h]
  refine ⟨?_, ?_, ?_, ?_, fun k => ?_⟩
  · unfold postAttempts
    refine key _ fun c hc => ?_
    cases c <;> first | rfl | exact absurd hc (by decide) | exact absurd hc (by simp [isLogCall])
  · unfold setTimerCalls
    refine key _ fun c hc => ?_
    cases c <;> first | rfl | exact absurd hc (by decide) | exact absurd hc (by simp [isLogCall])
  · unfold killTimerCalls
    refine key _ fun c hc => ?_
    cases c <;> first | rfl | exact absurd hc (by decide)
  · unfold idleCalls
    refine key _ fun c hc => ?_
    cases c <;> first | rfl | exact absurd hc (by decide)
  · unfold dcheckFailures
    refine key _ fun c hc => ?_
    cases c <;> first | rfl | exact absurd hc (by decide) | exact absurd hc (by simp [isLogCall])

theorem thresholdBlind_quietEnv : ThresholdBlind quietEnv :=
  fun _ _ h => ⟨rfl, h, h, fun _ => rfl, fun _ _ => rfl, fun _ => rfl, fun _ => rfl⟩

theorem thresholdBlind_tracingEnv : ThresholdBlind tracingEnv :=
  fun _ _ h => ⟨rfl,
    sameBehaviour_ScheduleWork quietEnv thresholdBlind_quietEnv
      (sameBehaviour_update (fun s => { s with tickCount := s.tickCount + 5 }) (fun _ => rfl) h),
    h, fun _ => rfl, fun _ _ => rfl, fun _ => rfl, fun _ => rfl⟩

/-- C20: `setTraceThreshold(ms)` writes `d_traceThreshold` and one line of log
output and nothing else. In surroundings that do not look at the threshold or
at the log output, two states with the same `behaviour` (in particular two
states that differ only in `d_traceThreshold`) are taken by `ScheduleWork`,
`doWork`, `flush`, `modalLoop`, `preHandleMessage`, `postHandleMessage`, the
two hooks and the window procedure to states with the same `behaviour` again,
with the same number of drains and cycles and the same results; states with
the same `behaviour` have the same posts, timer calls, idle-work calls and
failed checks. Whatever `shouldTrace` answers, only log output differs. -/
theorem C20_traceThreshold_no_effect (env : Env) (hB : ThresholdBlind env)
    (a b : MainMessagePump) (h : behaviour a = behaviour b) :
    (∀ ms, ({ setTraceThreshold ms a with d_traceThreshold := a.d_traceThreshold,
                                           trace := a.trace } : MainMessagePump) = a ∧
      (setTraceThreshold ms a).d_traceThreshold = ms ∧
      (setTraceThreshold ms a).trace = a.trace ++ [Call.LogInfo ms] ∧
      behaviour (setTraceThreshold ms a) = behaviour a) ∧
    (∀ t, behaviour { a with d_traceThreshold := t } = behaviour a) ∧
    behaviour (ScheduleWork env a) = behaviour (ScheduleWork env b) ∧
    (behaviour (doWork env a) = behaviour (doWork env b) ∧
      doWorkDrains env a = doWorkDrains env b) ∧
    (behaviour (flush env a) = behaviour (flush env b) ∧
      flushCycles env a = flushCycles env b) ∧
    (∀ enabled, behaviour (modalLoop enabled a) = behaviour (modalLoop enabled b)) ∧
    (behaviour (preHandleMessage env a).1 = behaviour (preHandleMessage env b).1 ∧
      (preHandleMessage env a).2 = (preHandleMessage env b).2) ∧
    behaviour (postHandleMessage env a) = behaviour (postHandleMessage env b) ∧
    (∀ code, behaviour (messageFilter env code a).1 = behaviour (messageFilter env code b).1 ∧
      (messageFilter env code a).2 = (messageFilter env code b).2) ∧
    (∀ code message,
      behaviour (windowProcedureHook env code message a).1 =
        behaviour (windowProcedureHook env code message b).1 ∧
      (windowProcedureHook env code message a).2 =
        (windowProcedureHook env code message b).2) ∧
    (∀ message,
      behaviour (windowProcedure env message a).1 =
        behaviour (windowProcedure env message b).1 ∧
      (windowProcedure env message a).2 = (windowProcedure env message b).2) ∧
    (∀ x y : MainMessagePump, behaviour x = behaviour y →
      postAttempts x = postAttempts y ∧ setTimerCalls x = setTimerCalls y ∧
      killTimerCalls x = killTimerCalls y ∧ idleCalls x = idleCalls y ∧
      (∀ c, dcheckFailures c x = dcheckFailures c y) ∧
      x.work_state_ = y.work_state_ ∧ x.d_isPumped = y.d_isPumped ∧
      x.d_needRepost = y.d_needRepost ∧ x.d_skipIdleWork = y.d_skipIdleWork ∧
      x.d_isInsideModalLoop = y.d_isInsideModalLoop ∧
      x.d_isInsideMainLoop = y.d_isInsideMainLoop ∧ x.d_nestLevel = y.d_nestLevel ∧
      x.d_scheduleTime = y.d_scheduleTime ∧ x.pumpMessages = y.pumpMessages) := by
  refine ⟨fun ms => ⟨rfl, rfl, rfl, behaviour_setTraceThreshold ms a⟩, fun t => rfl,
    sameBehaviour_ScheduleWork env hB h, sameBehaviour_doWork env hB h,
    sameBehaviour_flushLoop env hB 255 h, fun enabled => sameBehaviour_modalLoop enabled h,
    sameBehaviour_preHandleMessage env hB h, sameBehaviour_postHandleMessage env hB h,
    fun code => sameBehaviour_messageFilter env hB code h,
    fun code message => sameBehaviour_windowProcedureHook env hB code message h,
    fun message => sameBehaviour_windowProcedure env hB message h, fun x y hxy => ?_⟩
  obtain ⟨o1, o2, o3, o4, o5⟩ := observations_behaviour hxy
  exact ⟨o1, o2, o3, o4, o5, congrArg (fun s => s.work_state_) hxy,
    congrArg (fun s => s.d_isPumped) hxy, congrArg (fun s => s.d_needRepost) hxy,
    congrArg (fun s => s.d_skipIdleWork) hxy, congrArg (fun s => s.d_isInsideModalLoop) hxy,
    congrArg (fun s => s.d_isInsideMainLoop) hxy, congrArg (fun s => s.d_nestLevel) hxy,
    congrArg (fun s => s.d_scheduleTime) hxy, congrArg (fun s => s.pumpMessages) hxy⟩

/-- C20, evaluated in surroundings that trace cycles longer than the
threshold and whose handler takes 5 ms: with the threshold 0 the record holds
no log output after the cycle, with the threshold set to 3 it holds two lines
(the one of `setTraceThreshold` and one warning), and the two result states
have the same `behaviour` and the same number of drains. -/
theorem C20_traceThreshold_no_effect_witness :
    ThresholdBlind tracingEnv ∧
    behaviour (ScheduleWork quietEnv (new 7 100)) =
      behaviour (setTraceThreshold 3 (ScheduleWork quietEnv (new 7 100))) ∧
    (doWork tracingEnv (ScheduleWork quietEnv (new 7 100))).trace.countP isLogCall = 0 ∧
    (doWork tracingEnv
      (setTraceThreshold 3 (ScheduleWork quietEnv (new 7 100)))).trace.countP isLogCall = 2 ∧
    behaviour (doWork tracingEnv (ScheduleWork quietEnv (new 7 100))) =
      behaviour (doWork tracingEnv (setTraceThreshold 3 (ScheduleWork quietEnv (new 7 100)))) ∧
    doWorkDrains tracingEnv (ScheduleWork quietEnv (new 7 100)) =
      doWorkDrains tracingEnv (setTraceThreshold 3 (ScheduleWork quietEnv (new 7 100))) :=
  ⟨thresholdBlind_tracingEnv, rfl, by decide, by decide,
    (C20_traceThreshold_no_effect tracingEnv thresholdBlind_tracingEnv
      (ScheduleWork quietEnv (new 7 100))
      (setTraceThreshold 3 (ScheduleWork quietEnv (new 7 100))) rfl).2.2.2.1.1,
    (C20_traceThreshold_no_effect tracingEnv thresholdBlind_tracingEnv
      (ScheduleWork quietEnv (new 7 100))
      (setTraceThreshold 3 (ScheduleWork quietEnv (new 7 100))) rfl).2.2.2.1.2⟩

/-! ## Claims C21 to C30 -/

theorem hookView_record (c : Call) (w : MainMessagePump) (h : c ≠ Call.DestroyWindow) :
    hookView (record c w) = hookView w := by
  simp [hookView, destroyCalls, record, List.countP_append, h]

theorem hookView_DCHECK (cond : Bool) (c : Check) (w : MainMessagePump) :
    hookView (DCHECK cond c w) = hookView w := by
  rw [DCHECK_eq]
  cases cond <;> simp [hookView, destroyCalls, List.countP_append]

theorem hookView_schedulePump (env : Env) (w : MainMessagePump) :
    hookView (schedulePump env w) = hookView w := by
  by_cases h : w.d_isPumped = 0
  · rw [schedulePump_posts env w h]
    simp [hookView, destroyCalls, List.countP_append]
  · rw [schedulePump_pumped env w h]
    rfl

theorem hookView_doWorkEnter (w : MainMessagePump) : hookView (doWorkEnter w) = hookView w := by
  simp [doWorkEnter, DCHECK_eq, hookView, destroyCalls, List.countP_append]

theorem hookView_drain (env : Env) (hH : KeepsHooks env.handler) (w : MainMessagePump) :
    hookView (drain env w) = hookView w := by
  unfold drain
  rw [hH]
  simp [record, resetWorkState, ResetWorkState, DCHECK_eq, hookView, destroyCalls,
    List.countP_append]

theorem hookView_drain_iterate (env : Env) (hH : KeepsHooks env.handler) :
    ∀ (j : Nat) (w : MainMessagePump), hookView ((drain env)^[j] w) = hookView w
  | 0, _ => rfl
  | j + 1, w => by
    rw [Function.iterate_succ_apply, hookView_drain_iterate env hH j, hookView_drain env hH]

theorem hookView_doWorkIdle (env : Env) (hI : KeepsHooks env.DoIdleWork)
    (w : MainMessagePump) : hookView (doWorkIdle env w) = hookView w := by
  have h1 : hookView (env.DoIdleWork (record Call.DoIdleWork w)) = hookView w := by
    rw [hI]
    exact hookView_record _ _ (by decide)
  simp only [doWorkIdle]
  split_ifs
  · rw [hookView_record _ _ (by simp)]
    exact h1
  · exact h1
  · rfl

theorem hookView_doWorkExit (env : Env) (t : Nat) (w : MainMessagePump) :
    hookView (doWorkExit env t w) = hookView w := by
  unfold doWorkExit
  by_cases h : env.shouldTrace w (subDWORD (GetTickCount w) t) = true
  · simp [h, record, hookView, destroyCalls, List.countP_append]
  · simp [h, hookView, destroyCalls]

theorem hookView_doWork (env : Env) (hH : KeepsHooks env.handler)
    (hI : KeepsHooks env.DoIdleWork) (w : MainMessagePump) :
    hookView (doWork env w) = hookView w := by
  rw [doWork_stages, hookView_doWorkExit, hookView_doWorkIdle env hI]
  unfold doWorkDrained
  rw [(drainLoop_spec env _ _).1, hookView_drain_iterate env hH, hookView_doWorkEnter]

theorem hookView_flushLoop (env : Env) (hH : KeepsHooks env.handler)
    (hI : KeepsHooks env.DoIdleWork) :
    ∀ (n : Nat) (w : MainMessagePump), hookView (flushLoop env n w).1 = hookView w
  | 0, _ => by simp [flushLoop]
  | n + 1, w => by
    by_cases h : HAVE_WORK = w.work_state_
    · simp only [flushLoop, if_pos h]
      rw [hookView_flushLoop env hH hI n, hookView_doWork env hH hI, hookView_schedulePump]
    · simp only [flushLoop, if_neg h]

/-- C21: `init()` installs the message-filter hook, then the
window-procedure hook, then opens the run-loop bracket (`BeforeRun`,
`PrepareRunHandler`, `PushRunState`), and makes no other call. On a pump that
holds a run loop, as it does after `init()`, `cleanup()` first runs `flush()`,
then closes the bracket (`PopRunState`, `AfterRun`) and then removes the
window-procedure hook and, last, the message-filter hook, and returns; on a
pump that holds none it does not return. Neither `init`, `doWork`, `flush` nor
`cleanup` calls `DestroyWindow`; the destructor does, once. The task handler
and the idle work are taken to leave the hook handles, the run loop and the
window alone. -/
theorem C21_init_cleanup_order (env : Env) (w : MainMessagePump)
    (hH : KeepsHooks env.handler) (hI : KeepsHooks env.DoIdleWork) :
    (init env w).trace =
      w.trace ++ [Call.SetWindowsHookEx WH_MSGFILTER (init env w).d_messageFilter,
        Call.SetWindowsHookEx WH_CALLWNDPROC (init env w).d_windowProcedureHook,
        Call.BeforeRun, Call.PrepareRunHandler, Call.PushRunState] ∧
    (init env w).d_runLoop = true ∧
    (w.d_runLoop = true →
      ∃ w2, cleanup env w = some w2 ∧
        w2 = { flush env w with
          d_runLoop := false
          trace := (flush env w).trace ++ [Call.PopRunState, Call.AfterRun,
            Call.UnhookWindowsHookEx (flush env w).d_windowProcedureHook,
            Call.UnhookWindowsHookEx (flush env w).d_messageFilter] } ∧
        w2.trace =
          (flush env w).trace ++ [Call.PopRunState, Call.AfterRun,
            Call.UnhookWindowsHookEx w.d_windowProcedureHook,
            Call.UnhookWindowsHookEx w.d_messageFilter] ∧
        w2.d_runLoop = false ∧
        destroyCalls w2 = destroyCalls w) ∧
    (w.d_runLoop = false → cleanup env w = none) ∧
    destroyCalls (init env w) = destroyCalls w ∧
    destroyCalls (doWork env w) = destroyCalls w ∧
    destroyCalls (flush env w) = destroyCalls w ∧
    destroyCalls (delete w) = destroyCalls w + 1 := by
  have hf : hookView (flush env w) = hookView w := hookView_flushLoop env hH hI 255 w
  have hf1 : (flush env w).d_windowProcedureHook = w.d_windowProcedureHook :=
    congrArg (fun p => p.1) hf
  have hf2 : (flush env w).d_messageFilter = w.d_messageFilter :=
    congrArg (fun p => p.2.1) hf
  have hf3 : destroyCalls (flush env w) = destroyCalls w := congrArg (fun p => p.2.2.1) hf
  have hf4 : (flush env w).d_runLoop = w.d_runLoop := congrArg (fun p => p.2.2.2) hf
  refine ⟨by simp [init, record], by simp [init, record], fun hr => ?_, fun hr => ?_, ?_, ?_,
    hf3, ?_⟩
  · refine ⟨_, ?_, rfl, ?_, rfl, ?_⟩
    · rw [cleanup_eq, hf4, hr]
      rfl
    · rw [hf1, hf2]
    · rw [← hf3]
      simp [destroyCalls, List.countP_append]
  · rw [cleanup_eq, hf4, hr]
    rfl
  · simp [init, record, destroyCalls, List.countP_append]
  · exact congrArg (fun p => p.2.2.1) (hookView_doWork env hH hI w)
  · simp [delete, record, destroyCalls, List.countP_append]

/-- C21, evaluated on the whole life of a pump: construction, `init`,
`cleanup`, destructor. The calls made are, in this order, the two hook
installations, the opening of the bracket, its closing, the two hook removals
in reverse order, and `DestroyWindow`; `cleanup` itself makes no
`DestroyWindow` call. On the pump that was never initialised `cleanup` does
not return. -/
theorem C21_init_cleanup_order_witness :
    (init quietEnv (new 7 100)).d_runLoop = true ∧
    (cleanup quietEnv (init quietEnv (new 7 100))).map (fun s => (delete s).trace) =
      some [Call.SetWindowsHookEx WH_MSGFILTER 11, Call.SetWindowsHookEx WH_CALLWNDPROC 12,
        Call.BeforeRun, Call.PrepareRunHandler, Call.PushRunState,
        Call.PopRunState, Call.AfterRun,
        Call.UnhookWindowsHookEx 12, Call.UnhookWindowsHookEx 11, Call.DestroyWindow] ∧
    (∃ w2, cleanup quietEnv (init quietEnv (new 7 100)) = some w2 ∧ destroyCalls w2 = 0) ∧
    cleanup quietEnv (new 7 100) = none :=
  ⟨rfl, by decide,
    ((C21_init_cleanup_order quietEnv (init quietEnv (new 7 100)) (fun _ => rfl)
      (fun _ => rfl)).2.2.1 rfl).elim
      fun w2 h => ⟨w2, h.1, h.2.2.2.2.trans (by decide)⟩,
    (C21_init_cleanup_order quietEnv (new 7 100) (fun _ => rfl) (fun _ => rfl)).2.2.2.1 rfl⟩

/-- C22 as stated fails: when both `SetWindowsHookEx` calls return a null
handle, `init()` stores the null handles, goes on to open the run-loop
bracket and returns; the pump then still posts and runs a wake-up. -/
theorem C22_hook_failure_counterexample :
    noHookEnv.SetWindowsHookEx WH_MSGFILTER (new 7 100) = 0 ∧
    (init noHookEnv (new 7 100)).d_messageFilter = 0 ∧
    (init noHookEnv (new 7 100)).d_windowProcedureHook = 0 ∧
    (init noHookEnv (new 7 100)).d_runLoop = true ∧
    (init noHookEnv (new 7 100)).trace =
      [Call.SetWindowsHookEx WH_MSGFILTER 0, Call.SetWindowsHookEx WH_CALLWNDPROC 0,
        Call.BeforeRun, Call.PrepareRunHandler, Call.PushRunState] ∧
    (ScheduleWork noHookEnv (init noHookEnv (new 7 100))).pumpMessages = 1 ∧
    (dispatchPumpMessage noHookEnv
      (ScheduleWork noHookEnv (init noHookEnv (new 7 100)))).map
        (fun s => s.work_state_) = some READY := by
  refine ⟨rfl, rfl, rfl, rfl, by decide, rfl, by decide⟩

/-- C22 (amended): `init()` does not check what `SetWindowsHookEx` returns.
Whatever the two handles are, null included, it stores them, opens the
run-loop bracket and returns. The registration of the window class is fatal
when it fails: `getClassName` aborts exactly when it has to register the class
and `RegisterClassW` returns 0. -/
theorem C22_hook_failure_not_fatal (env : Env) (w : MainMessagePump) :
    (init env w).d_messageFilter = env.SetWindowsHookEx WH_MSGFILTER w ∧
    (init env w).d_windowProcedureHook =
      env.SetWindowsHookEx WH_CALLWNDPROC
        (record (Call.SetWindowsHookEx WH_MSGFILTER (env.SetWindowsHookEx WH_MSGFILTER w))
          { w with d_messageFilter := env.SetWindowsHookEx WH_MSGFILTER w }) ∧
    (init env w).d_runLoop = true ∧
    (init env w).trace =
      w.trace ++ [Call.SetWindowsHookEx WH_MSGFILTER (init env w).d_messageFilter,
        Call.SetWindowsHookEx WH_CALLWNDPROC (init env w).d_windowProcedureHook,
        Call.BeforeRun, Call.PrepareRunHandler, Call.PushRunState] ∧
    (∀ atom className, getClassName atom className = none ↔ className = none ∧ atom = 0) := by
  refine ⟨rfl, rfl, rfl, by simp [init, record], fun atom className => ?_⟩
  cases className with
  | none => by_cases h : atom = 0 <;> simp [getClassName, h]
  | some c => simp [getClassName]

theorem schedulePump_isPumped (env : Env) (w : MainMessagePump) :
    (schedulePump env w).d_isPumped =
      (if w.d_isPumped ≠ 0 ∨ env.PostMessageW { w with d_isPumped := 1 } = true then 1 else 0) := by
  by_cases h : w.d_isPumped = 0
  · rw [schedulePump_posts env w h]
    cases hr : env.PostMessageW { w with d_isPumped := 1 } <;> simp [h]
  · rw [schedulePump_pumped env w h]
    simp [h]

theorem dcheckFailures_doWorkEnter (w : MainMessagePump) :
    dcheckFailures Check.wasPumped (doWorkEnter w) =
      dcheckFailures Check.wasPumped w + (if w.d_isPumped = 1 then 0 else 1) := by
  by_cases h : w.d_isPumped = 1
  · by_cases hn : 0 ≤ w.d_nestLevel <;>
      simp [doWorkEnter, DCHECK_eq, dcheckFailures, List.countP_append, h, hn]
  · have h' : ¬ ((1 : Int) = w.d_isPumped) := fun e => h e.symm
    by_cases hn : 0 ≤ w.d_nestLevel <;>
      simp [doWorkEnter, DCHECK_eq, dcheckFailures, List.countP_append, h, h', hn]

/-- C24, evaluated with a full thread queue on the pump with work pending and
`d_isPumped = 0`: the `schedulePump()` call of `flush()` makes a post that
fails and returns with `d_isPumped` rolled back to 0, and the `doWork()` call
that follows records a failure of `DCHECK_EQ(1, wasPumped)`. With a queue that
takes the post the same `flush()` records none. -/
theorem C24_flush_failed_post :
    pendingAfterFailedPost.work_state_ = HAVE_WORK ∧
    pendingAfterFailedPost.d_isPumped = 0 ∧
    fullQueueEnv.PostMessageW { pendingAfterFailedPost with d_isPumped := 1 } = false ∧
    (schedulePump fullQueueEnv pendingAfterFailedPost).d_isPumped = 0 ∧
    dcheckFailures Check.wasPumped pendingAfterFailedPost = 0 ∧
    dcheckFailures Check.wasPumped
      (doWork fullQueueEnv (schedulePump fullQueueEnv pendingAfterFailedPost)) = 1 ∧
    flushCycles fullQueueEnv pendingAfterFailedPost = 1 ∧
    dcheckFailures Check.wasPumped (flush fullQueueEnv pendingAfterFailedPost) = 1 ∧
    dcheckFailures Check.wasPumped (flush quietEnv pendingAfterFailedPost) = 0 := by
  refine ⟨rfl, rfl, rfl, rfl, by decide, by decide, by decide, by decide, by decide⟩

/-- C25: in `postHandleMessage`, with the work flag HAVE_WORK and
`d_isPumped = 0`: when the queue holds a posted or sent message,
`d_skipIdleWork` is set to true and then `schedulePump` is called (one post
attempt, made on a state whose `d_skipIdleWork` is already true); when the
queue is empty, `schedulePump` is called and `d_skipIdleWork` is as it was.
When the work flag is not HAVE_WORK or `d_isPumped` is not 0, no post is
attempted and `d_skipIdleWork` is as it was. -/
theorem C25_postHandleMessage_skip (env : Env) (w : MainMessagePump) :
    (w.work_state_ = HAVE_WORK → w.d_isPumped = 0 →
      (∀ m m', env.PeekMessage PM_NOREMOVE (postHandleMessageExit w) = some m →
        env.PeekMessage (PM_NOREMOVE ||| PM_QS_POSTMESSAGE ||| PM_QS_SENDMESSAGE)
          (postHandleMessageExit w) = some m' →
        postHandleMessage env w =
          schedulePump env
            { DCHECK (kPumpMessage != m') Check.noPumpMessageQueued (postHandleMessageExit w)
              with d_skipIdleWork := true } ∧
        postAttempts (postHandleMessage env w) = postAttempts w + 1 ∧
        (postHandleMessage env w).d_skipIdleWork = true) ∧
      (env.PeekMessage PM_NOREMOVE (postHandleMessageExit w) = none →
        postHandleMessage env w = schedulePump env (postHandleMessageExit w) ∧
        postAttempts (postHandleMessage env w) = postAttempts w + 1 ∧
        (postHandleMessage env w).d_skipIdleWork = w.d_skipIdleWork)) ∧
    (w.work_state_ ≠ HAVE_WORK ∨ w.d_isPumped ≠ 0 →
      postHandleMessage env w = postHandleMessageExit w ∧
      postAttempts (postHandleMessage env w) = postAttempts w ∧
      (postHandleMessage env w).d_skipIdleWork = w.d_skipIdleWork) := by
  obtain ⟨e1, _, e3, e4, _, e6⟩ := postHandleMessageExit_sameSchedule w
  refine ⟨fun hW hP => ?_, fun hN => ?_⟩
  · have hc : HAVE_WORK = (postHandleMessageExit w).work_state_ ∧
        (0 : Int) = (postHandleMessageExit w).d_isPumped := by
      rw [e1, e3, hW, hP]
      exact ⟨rfl, rfl⟩
    refine ⟨fun m m' h1 h2 => ?_, fun h0 => ?_⟩
    · have hE : postHandleMessage env w =
          schedulePump env
            { DCHECK (kPumpMessage != m') Check.noPumpMessageQueued (postHandleMessageExit w)
              with d_skipIdleWork := true } := by
        simp only [postHandleMessage, postHandleMessageSchedule]
        rw [if_pos hc, h1]
        simp only []
        rw [h2]
      obtain ⟨_, _, d3, _, _, d6⟩ := DCHECK_sameSchedule (kPumpMessage != m')
        Check.noPumpMessageQueued (postHandleMessageExit w)
      refine ⟨hE, ?_, ?_⟩
      · rw [hE, postAttempts_schedulePump]
        have hp : postAttempts
            { DCHECK (kPumpMessage != m') Check.noPumpMessageQueued (postHandleMessageExit w)
              with d_skipIdleWork := true } = postAttempts w := by
          show postAttempts (DCHECK (kPumpMessage != m') Check.noPumpMessageQueued
            (postHandleMessageExit w)) = _
          rw [d6, e6]
        have hq : ({ DCHECK (kPumpMessage != m') Check.noPumpMessageQueued
            (postHandleMessageExit w) with d_skipIdleWork := true } : MainMessagePump).d_isPumped
            = 0 := by
          show (DCHECK (kPumpMessage != m') Check.noPumpMessageQueued
            (postHandleMessageExit w)).d_isPumped = 0
          rw [d3, e3, hP]
        rw [hp, if_pos hq]
      · rw [hE, (schedulePump_frame env _).2.2.1]
    · have hE : postHandleMessage env w = schedulePump env (postHandleMessageExit w) := by
        simp only [postHandleMessage, postHandleMessageSchedule]
        rw [if_pos hc, h0]
      refine ⟨hE, ?_, ?_⟩
      · rw [hE, postAttempts_schedulePump, e3, hP, e6]
        rfl
      · rw [hE, (schedulePump_frame env _).2.2.1, e4]
  · have hc : ¬ (HAVE_WORK = (postHandleMessageExit w).work_state_ ∧
        (0 : Int) = (postHandleMessageExit w).d_isPumped) := by
      rw [e1, e3]
      rintro ⟨a, b⟩
      rcases hN with hN | hN
      · exact hN a.symm
      · exact hN b.symm
    have hE : postHandleMessage env w = postHandleMessageExit w := by
      simp only [postHandleMessage, postHandleMessageSchedule]
      rw [if_neg hc]
    exact ⟨hE, by rw [hE, e6], by rw [hE, e4]⟩

/-- C25, evaluated: with work pending inside the main loop and a posted
message in the queue `postHandleMessage` sets `d_skipIdleWork` and makes one
post; with an empty queue it makes one post and leaves `d_skipIdleWork` false;
on the pump without pending work it makes no post. -/
theorem C25_postHandleMessage_skip_witness :
    pendingInsideMainLoop.d_skipIdleWork = false ∧
    (postHandleMessage postedMessageEnv pendingInsideMainLoop).d_skipIdleWork = true ∧
    postAttempts (postHandleMessage postedMessageEnv pendingInsideMainLoop) = 1 ∧
    (postHandleMessage quietEnv pendingInsideMainLoop).d_skipIdleWork = false ∧
    postAttempts (postHandleMessage quietEnv pendingInsideMainLoop) = 1 ∧
    postAttempts (postHandleMessage postedMessageEnv
      (preHandleMessage quietEnv (init quietEnv (new 7 100))).1) = 0 :=
  ⟨rfl,
    (((C25_postHandleMessage_skip postedMessageEnv pendingInsideMainLoop).1 rfl rfl).1
      WM_TIMER WM_TIMER rfl rfl).2.2,
    ((((C25_postHandleMessage_skip postedMessageEnv pendingInsideMainLoop).1 rfl rfl).1
      WM_TIMER WM_TIMER rfl rfl).2.1).trans (by decide),
    ((((C25_postHandleMessage_skip quietEnv pendingInsideMainLoop).1 rfl rfl).2 rfl).2.2).trans
      rfl,
    ((((C25_postHandleMessage_skip quietEnv pendingInsideMainLoop).1 rfl rfl).2 rfl).2.1).trans
      (by decide),
    (((C25_postHandleMessage_skip postedMessageEnv
      (preHandleMessage quietEnv (init quietEnv (new 7 100))).1).2
        (Or.inl (by decide))).2.1).trans (by decide)⟩

theorem windowProcedure_timer (env : Env) (w : MainMessagePump) :
    windowProcedure env WM_TIMER w =
      (if w.d_minTimer < subDWORD (GetTickCount w) w.d_scheduleTime then
          schedulePumpIfNecessary env
            { DCHECK w.d_isInsideModalLoop Check.timerInsideModalLoop w with
              d_skipIdleWork := true }
        else DCHECK w.d_isInsideModalLoop Check.timerInsideModalLoop w, S_OK) := by
  have h1 : ¬ (kPumpMessage = WM_TIMER) := by decide
  simp only [windowProcedure, if_neg h1, if_true]
  simp [DCHECK_eq, GetTickCount]

/-- C26: on a `WM_TIMER` message delivered to the pump window, with the
elapsed time `(now − d_scheduleTime) mod 2^32`: if it is strictly greater than
`d_minTimer`, `d_skipIdleWork` is set to true whether or not work is pending,
and `schedulePump` is called (a post attempted when `d_isPumped` is 0) if and
only if the work flag is HAVE_WORK; otherwise every member of the pump is as
before and no post is attempted. The window procedure returns `S_OK`. -/
theorem C26_timer_wakeup (env : Env) (w : MainMessagePump) :
    (∀ a b, a < 2 ^ 32 → b < 2 ^ 32 →
      (subDWORD a b : Int) = ((a : Int) - (b : Int)) % 2 ^ 32) ∧
    (windowProcedure env WM_TIMER w).2 = S_OK ∧
    (w.d_minTimer < subDWORD (GetTickCount w) w.d_scheduleTime →
      (windowProcedure env WM_TIMER w).1.d_skipIdleWork = true ∧
      (w.work_state_ = HAVE_WORK →
        (windowProcedure env WM_TIMER w).1 =
          schedulePump env
            { DCHECK w.d_isInsideModalLoop Check.timerInsideModalLoop w with
              d_skipIdleWork := true } ∧
        postAttempts (windowProcedure env WM_TIMER w).1 =
          postAttempts w + (if w.d_isPumped = 0 then 1 else 0)) ∧
      (w.work_state_ ≠ HAVE_WORK →
        (windowProcedure env WM_TIMER w).1 =
          { DCHECK w.d_isInsideModalLoop Check.timerInsideModalLoop w with
            d_skipIdleWork := true } ∧
        postAttempts (windowProcedure env WM_TIMER w).1 = postAttempts w ∧
        (windowProcedure env WM_TIMER w).1.d_isPumped = w.d_isPumped ∧
        (windowProcedure env WM_TIMER w).1.pumpMessages = w.pumpMessages)) ∧
    (subDWORD (GetTickCount w) w.d_scheduleTime ≤ w.d_minTimer →
      (windowProcedure env WM_TIMER w).1 =
        DCHECK w.d_isInsideModalLoop Check.timerInsideModalLoop w ∧
      { (windowProcedure env WM_TIMER w).1 with trace := w.trace } = w ∧
      (w.d_isInsideModalLoop = true → (windowProcedure env WM_TIMER w).1 = w) ∧
      postAttempts (windowProcedure env WM_TIMER w).1 = postAttempts w) := by
  obtain ⟨_, _, d3, _, _, d6⟩ := DCHECK_sameSchedule w.d_isInsideModalLoop
    Check.timerInsideModalLoop w
  refine ⟨subDWORD_eq, by rw [windowProcedure_timer], fun hlt => ?_, fun hle => ?_⟩
  · have hE : (windowProcedure env WM_TIMER w).1 =
        schedulePumpIfNecessary env
          { DCHECK w.d_isInsideModalLoop Check.timerInsideModalLoop w with
            d_skipIdleWork := true } := by
      rw [windowProcedure_timer, if_pos hlt]
    have hws : (DCHECK w.d_isInsideModalLoop Check.timerInsideModalLoop w).work_state_ =
        w.work_state_ := by rw [DCHECK_eq]
    refine ⟨?_, fun hW => ?_, fun hW => ?_⟩
    · rw [hE]
      unfold schedulePumpIfNecessary
      simp only []
      split_ifs
      · rw [(schedulePump_frame env _).2.2.1]
      · rfl
    · have hS : (windowProcedure env WM_TIMER w).1 =
          schedulePump env
            { DCHECK w.d_isInsideModalLoop Check.timerInsideModalLoop w with
              d_skipIdleWork := true } := by
        rw [hE]
        unfold schedulePumpIfNecessary
        simp only []
        rw [if_pos (show HAVE_WORK = _ from (hws.trans hW).symm)]
      refine ⟨hS, ?_⟩
      rw [hS, postAttempts_schedulePump]
      show postAttempts (DCHECK w.d_isInsideModalLoop Check.timerInsideModalLoop w) +
        (if (DCHECK w.d_isInsideModalLoop Check.timerInsideModalLoop w).d_isPumped = 0
          then 1 else 0) = _
      rw [d6, d3]
    · have hS : (windowProcedure env WM_TIMER w).1 =
          { DCHECK w.d_isInsideModalLoop Check.timerInsideModalLoop w with
            d_skipIdleWork := true } := by
        rw [hE]
        unfold schedulePumpIfNecessary
        simp only []
        rw [if_neg (show ¬ (HAVE_WORK = _) from fun e => hW (hws.symm.trans e.symm))]
      refine ⟨hS, ?_, ?_, ?_⟩
      · rw [hS]
        exact d6
      · rw [hS]
        exact d3
      · rw [hS, DCHECK_eq]
  · have hE : (windowProcedure env WM_TIMER w).1 =
        DCHECK w.d_isInsideModalLoop Check.timerInsideModalLoop w := by
      rw [windowProcedure_timer, if_neg (by omega)]
    refine ⟨hE, ?_, fun hm => ?_, ?_⟩
    · rw [hE, DCHECK_eq]
    · rw [hE, hm]
      rfl
    · rw [hE]
      exact d6

/-- C26, evaluated on the modal pump with work scheduled at tick 100 and
`d_minTimer = 10`: a `WM_TIMER` at tick 111 sets `d_skipIdleWork` and makes a
post, one at tick 110 changes nothing; on a modal pump without pending work
the timer at tick 111 still sets `d_skipIdleWork` and makes no post. -/
theorem C26_timer_wakeup_witness :
    (modalPendingAt 111).d_skipIdleWork = false ∧
    (windowProcedure quietEnv WM_TIMER (modalPendingAt 111)).1.d_skipIdleWork = true ∧
    postAttempts (windowProcedure quietEnv WM_TIMER (modalPendingAt 111)).1 = 1 ∧
    (windowProcedure quietEnv WM_TIMER (modalPendingAt 110)).1 = modalPendingAt 110 ∧
    (windowProcedure quietEnv WM_TIMER
      { modalPendingAt 111 with work_state_ := READY }).1.d_skipIdleWork = true ∧
    postAttempts (windowProcedure quietEnv WM_TIMER
      { modalPendingAt 111 with work_state_ := READY }).1 = 0 :=
  ⟨rfl,
    ((C26_timer_wakeup quietEnv (modalPendingAt 111)).2.2.1 (by decide)).1,
    ((((C26_timer_wakeup quietEnv (modalPendingAt 111)).2.2.1 (by decide)).2.1 rfl).2).trans
      (by decide),
    ((C26_timer_wakeup quietEnv (modalPendingAt 110)).2.2.2 (by decide)).2.2.1 rfl,
    ((C26_timer_wakeup quietEnv { modalPendingAt 111 with work_state_ := READY }).2.2.1
      (by decide)).1,
    ((((C26_timer_wakeup quietEnv { modalPendingAt 111 with work_state_ := READY }).2.2.1
      (by decide)).2.2 (by decide)).2.1).trans (by decide)⟩

theorem timedInv_of_view {a b : MainMessagePump} (h : timedView a = timedView b)
    (hb : TimedInv b) : TimedInv a := by
  have h1 : a.tickCount = b.tickCount := congrArg (fun p => p.1) h
  have h2 : a.work_state_ = b.work_state_ := congrArg (fun p => p.2.1) h
  have h3 : a.d_scheduleTime = b.d_scheduleTime := congrArg (fun p => p.2.2) h
  unfold TimedInv GetTickCount at *
  rw [h1, h2, h3]
  exact hb

theorem timedView_DCHECK (cond : Bool) (c : Check) (w : MainMessagePump) :
    timedView (DCHECK cond c w) = timedView w := by
  rw [DCHECK_eq]
  rfl

theorem timedView_schedulePump (env : Env) (w : MainMessagePump) :
    timedView (schedulePump env w) = timedView w := by
  obtain ⟨h1, h2, _, _, _, _, _, h8⟩ := schedulePump_frame env w
  simp [timedView, h1, h2, h8]

theorem timedView_schedulePumpIfNecessary (env : Env) (w : MainMessagePump) :
    timedView (schedulePumpIfNecessary env w) = timedView w := by
  unfold schedulePumpIfNecessary
  simp only []
  split_ifs
  · exact timedView_schedulePump env w
  · rfl

theorem timedView_modalLoop (b : Bool) (w : MainMessagePump) :
    timedView (modalLoop b w) = timedView w := by
  unfold modalLoop
  split_ifs <;> simp [record, timedView]

theorem timedView_messageFilter (env : Env) (code : Int) (w : MainMessagePump) :
    timedView (messageFilter env code w).1 = timedView w := by
  simp only [messageFilter]
  split_ifs
  · exact timedView_modalLoop true w
  · rfl

theorem timedView_windowProcedureHook (env : Env) (code : Int) (message : Nat)
    (w : MainMessagePump) :
    timedView (windowProcedureHook env code message w).1 = timedView w := by
  have h1 : timedView (windowProcedureHookSwitch message w) = timedView w := by
    unfold windowProcedureHookSwitch
    split_ifs <;> first | exact timedView_modalLoop _ w | rfl
  rw [windowProcedureHook_eq]
  simp only [windowProcedureHookSchedule]
  split_ifs
  · rw [timedView_schedulePumpIfNecessary, h1]
  · rw [timedView_schedulePumpIfNecessary]
    exact h1
  · exact h1
  · exact h1

theorem timedView_preHandleMessage (env : Env) (w : MainMessagePump) :
    timedView (preHandleMessage env w).1 = timedView w := by
  simp only [preHandleMessage]
  rw [timedView_messageFilter]
  simp [DCHECK_eq, timedView]

theorem timedView_postHandleMessage (env : Env) (w : MainMessagePump) :
    timedView (postHandleMessage env w) = timedView w := by
  have h1 : timedView (postHandleMessageExit w) = timedView w := by
    simp only [postHandleMessageExit]
    split_ifs
    · rw [timedView_modalLoop]
      simp [DCHECK_eq, timedView]
    · simp [DCHECK_eq, timedView]
  simp only [postHandleMessage, postHandleMessageSchedule]
  split_ifs
  · split
    · split
      · rw [timedView_schedulePump]
        exact (timedView_DCHECK _ _ _).trans h1
      · exact h1
    · rw [timedView_schedulePump]
      exact h1
  · exact h1

theorem timedView_doWorkEnter (w : MainMessagePump) :
    timedView (doWorkEnter w) = timedView w := by
  simp [doWorkEnter, DCHECK_eq, timedView]

theorem timedView_doWorkExit (env : Env) (t : Nat) (w : MainMessagePump) :
    timedView (doWorkExit env t w) = timedView w := by
  unfold doWorkExit
  by_cases h : env.shouldTrace w (subDWORD (GetTickCount w) t) = true
  · simp [h, record, timedView]
  · simp [h, timedView]

theorem ScheduleWork_timed (env : Env) (w : MainMessagePump) :
    (ScheduleWork env w).work_state_ = HAVE_WORK ∧
    (ScheduleWork env w).d_scheduleTime = GetTickCount w ∧
    (ScheduleWork env w).tickCount = w.tickCount := by
  simp only [ScheduleWork]
  split_ifs
  · obtain ⟨h1, h2, _, _, _, _, _, h8⟩ := schedulePump_frame env
      { w with work_state_ := HAVE_WORK, d_scheduleTime := GetTickCount w,
               d_skipIdleWork := true }
    exact ⟨h1, h2, h8⟩
  · exact ⟨rfl, rfl, rfl⟩

theorem resetWorkState_timed (w : MainMessagePump) :
    (resetWorkState w).work_state_ = READY ∧ (resetWorkState w).d_scheduleTime = 0 ∧
    (resetWorkState w).tickCount = w.tickCount := by
  simp [resetWorkState, ResetWorkState, DCHECK_eq]

theorem dcheckFailures_resetWorkState (w : MainMessagePump) :
    dcheckFailures Check.scheduleTime (resetWorkState w) =
      dcheckFailures Check.scheduleTime w + (if w.d_scheduleTime = 0 then 1 else 0) := by
  by_cases h : w.d_scheduleTime = 0 <;>
    simp [resetWorkState, ResetWorkState, DCHECK_eq, dcheckFailures, List.countP_append, h]

theorem ScheduleWork_timedInv (env : Env) (w : MainMessagePump) (h : GetTickCount w ≠ 0) :
    TimedInv (ScheduleWork env w) := by
  obtain ⟨h1, h2, h3⟩ := ScheduleWork_timed env w
  refine ⟨?_, Or.inl ⟨h1, by rw [h2]; exact h⟩⟩
  unfold GetTickCount at *
  rw [h3]
  exact h

theorem drain_timedInv (env : Env) (hH : KeepsTimed env.handler) (w : MainMessagePump)
    (h : GetTickCount w ≠ 0) : TimedInv (drain env w) := by
  obtain ⟨h1, h2, h3⟩ := resetWorkState_timed w
  have h0 : TimedInv (record Call.SendMessageW (resetWorkState w)) := by
    refine ⟨?_, Or.inr ⟨h1, h2⟩⟩
    unfold GetTickCount at *
    show (resetWorkState w).tickCount % DWORD_MOD ≠ 0
    rw [h3]
    exact h
  exact (hH _ h0).1

theorem drainLoop_timedInv (env : Env) (hH : KeepsTimed env.handler) :
    ∀ (n : Nat) (w : MainMessagePump), TimedInv w → TimedInv (drainLoop env n w).1
  | 0, _, h => by simpa [drainLoop] using h
  | n + 1, w, h => by
    have hd := drain_timedInv env hH w h.1
    simp only [drainLoop]
    split_ifs
    · exact hd
    · exact drainLoop_timedInv env hH n _ hd

theorem doWorkIdle_timedInv (env : Env) (hI : KeepsTimed env.DoIdleWork)
    (w : MainMessagePump) (h : TimedInv w) : TimedInv (doWorkIdle env w) := by
  have h0 : TimedInv (record Call.DoIdleWork w) := h
  have h1 := (hI _ h0).1
  simp only [doWorkIdle]
  split_ifs
  · exact h1
  · exact h1
  · exact h

theorem doWork_timedInv (env : Env) (hH : KeepsTimed env.handler)
    (hI : KeepsTimed env.DoIdleWork) (w : MainMessagePump) (h : TimedInv w) :
    TimedInv (doWork env w) := by
  rw [doWork_stages]
  refine timedInv_of_view (timedView_doWorkExit env _ _) (doWorkIdle_timedInv env hI _ ?_)
  exact drainLoop_timedInv env hH _ _ (timedInv_of_view (timedView_doWorkEnter w) h)

theorem flushLoop_timedInv (env : Env) (hH : KeepsTimed env.handler)
    (hI : KeepsTimed env.DoIdleWork) :
    ∀ (n : Nat) (w : MainMessagePump), TimedInv w → TimedInv (flushLoop env n w).1
  | 0, _, h => by simpa [flushLoop] using h
  | n + 1, w, h => by
    simp only [flushLoop]
    split_ifs
    · exact flushLoop_timedInv env hH hI n _
        (doWork_timedInv env hH hI _ (timedInv_of_view (timedView_schedulePump env w) h))
    · exact h

theorem windowProcedure_timedInv (env : Env) (hH : KeepsTimed env.handler)
    (hI : KeepsTimed env.DoIdleWork) (message : Nat) (w : MainMessagePump) (h : TimedInv w) :
    TimedInv (windowProcedure env message w).1 := by
  simp only [windowProcedure]
  split_ifs
  · exact doWork_timedInv env hH hI w h
  · refine timedInv_of_view (timedView_schedulePumpIfNecessary env _) ?_
    exact timedInv_of_view (timedView_DCHECK _ _ w) h
  · exact timedInv_of_view (timedView_DCHECK _ _ w) h
  · exact h

theorem workReachable_timedInv {w : MainMessagePump} (h : WorkReachable w) : TimedInv w := by
  induction h with
  | new hwnd now hn => exact ⟨hn, Or.inr ⟨rfl, rfl⟩⟩
  | tick now hn _ ih => exact ⟨hn, ih.2⟩
  | init env _ ih => exact timedInv_of_view (by simp [init, record, timedView]) ih
  | ScheduleWork env _ ih => exact ScheduleWork_timedInv env _ ih.1
  | setTraceThreshold t _ ih =>
    exact timedInv_of_view (by simp [setTraceThreshold, record, timedView]) ih
  | messageFilter env code _ ih => exact timedInv_of_view (timedView_messageFilter env code _) ih
  | windowProcedureHook env code message _ ih =>
    exact timedInv_of_view (timedView_windowProcedureHook env code message _) ih
  | preHandleMessage env _ ih => exact timedInv_of_view (timedView_preHandleMessage env _) ih
  | postHandleMessage env _ ih => exact timedInv_of_view (timedView_postHandleMessage env _) ih
  | windowProcedure env message hH hI _ ih => exact windowProcedure_timedInv env hH hI message _ ih
  | dispatchPumpMessage env hH hI _ hd ih =>
    rename_i w0 w2
    unfold dispatchPumpMessage at hd
    split_ifs at hd
    rw [← Option.some.inj hd]
    exact windowProcedure_timedInv env hH hI _ _ ih
  | flush env hH hI _ ih => exact flushLoop_timedInv env hH hI 255 _ ih
  | cleanup env hH hI _ hc ih =>
    rename_i w0 w2 hr0
    have hf : TimedInv (flush env w0) := flushLoop_timedInv env hH hI 255 _ ih
    rw [(cleanup_some env w0 w2 hc).2]
    exact hf

theorem dcheckFailures_ScheduleWork (env : Env) (c : Check) (w : MainMessagePump) :
    dcheckFailures c (ScheduleWork env w) = dcheckFailures c w := by
  simp only [ScheduleWork]
  split_ifs
  · rw [dcheckFailures_schedulePump]
    rfl
  · rfl

theorem keepsTimed_ScheduleWork (env : Env) : KeepsTimed (ScheduleWork env) :=
  fun s h => ⟨ScheduleWork_timedInv env s h.1, dcheckFailures_ScheduleWork env _ s⟩

theorem timedInv_iff {w : MainMessagePump} (h : TimedInv w) :
    w.work_state_ = HAVE_WORK ↔ w.d_scheduleTime ≠ 0 := by
  rcases h.2 with ⟨h1, h2⟩ | ⟨h1, h2⟩
  · exact ⟨fun _ => h2, fun _ => h1⟩
  · constructor
    · intro e
      rw [h1] at e
      exact absurd e (by decide)
    · intro e
      exact absurd h2 e

theorem drain_asserted (env : Env) (hH : KeepsTimed env.handler) (w : MainMessagePump)
    (h : TimedInv w) (hW : w.work_state_ = HAVE_WORK) :
    dcheckFailures Check.scheduleTime (drain env w) = dcheckFailures Check.scheduleTime w := by
  obtain ⟨h1, h2, h3⟩ := resetWorkState_timed w
  have h0 : TimedInv (record Call.SendMessageW (resetWorkState w)) := by
    refine ⟨?_, Or.inr ⟨h1, h2⟩⟩
    have ht := h.1
    unfold GetTickCount at *
    show (resetWorkState w).tickCount % DWORD_MOD ≠ 0
    rw [h3]
    exact ht
  have hs : w.d_scheduleTime ≠ 0 := (timedInv_iff h).1 hW
  unfold drain
  rw [(hH _ h0).2]
  have hr : dcheckFailures Check.scheduleTime (record Call.SendMessageW (resetWorkState w)) =
      dcheckFailures Check.scheduleTime (resetWorkState w) := by
    simp [dcheckFailures, record, List.countP_append]
  rw [hr, dcheckFailures_resetWorkState, if_neg hs]
  rfl

theorem drainLoop_asserted (env : Env) (hH : KeepsTimed env.handler) :
    ∀ (n : Nat) (w : MainMessagePump), TimedInv w → w.work_state_ = HAVE_WORK →
      dcheckFailures Check.scheduleTime (drainLoop env n w).1 =
        dcheckFailures Check.scheduleTime w
  | 0, _, _, _ => by simp [drainLoop]
  | n + 1, w, h, hW => by
    have hd := drain_timedInv env hH w h.1
    have hc := drain_asserted env hH w h hW
    simp only [drainLoop]
    split_ifs with hr
    · exact hc
    · have hW2 : (drain env w).work_state_ = HAVE_WORK := by
        rcases hd.2 with ⟨a, _⟩ | ⟨a, _⟩
        · exact a
        · exact absurd a.symm hr
      rw [drainLoop_asserted env hH n _ hd hW2, hc]

theorem doWork_asserted (env : Env) (hH : KeepsTimed env.handler)
    (hI : KeepsTimed env.DoIdleWork) (w : MainMessagePump)
    (h : TimedInv w) (hW : w.work_state_ = HAVE_WORK) :
    dcheckFailures Check.scheduleTime (doWork env w) = dcheckFailures Check.scheduleTime w := by
  have hE : TimedInv (doWorkEnter w) := timedInv_of_view (timedView_doWorkEnter w) h
  have hEw : (doWorkEnter w).work_state_ = HAVE_WORK := by
    rw [doWorkEnter_work_state]
    exact hW
  have hEc : dcheckFailures Check.scheduleTime (doWorkEnter w) =
      dcheckFailures Check.scheduleTime w := by
    by_cases h1 : 0 ≤ w.d_nestLevel <;> by_cases h2 : (1 : Int) = w.d_isPumped <;>
      simp [doWorkEnter, DCHECK_eq, dcheckFailures, List.countP_append, h1, h2]
  have hD : TimedInv (doWorkDrained env w) := drainLoop_timedInv env hH _ _ hE
  have hDc : dcheckFailures Check.scheduleTime (doWorkDrained env w) =
      dcheckFailures Check.scheduleTime w :=
    (drainLoop_asserted env hH _ _ hE hEw).trans hEc
  have hIc : dcheckFailures Check.scheduleTime (doWorkIdle env (doWorkDrained env w)) =
      dcheckFailures Check.scheduleTime (doWorkDrained env w) := by
    have h0 : TimedInv (record Call.DoIdleWork (doWorkDrained env w)) := hD
    have h1 : dcheckFailures Check.scheduleTime
        (env.DoIdleWork (record Call.DoIdleWork (doWorkDrained env w))) =
        dcheckFailures Check.scheduleTime (doWorkDrained env w) := by
      rw [(hI _ h0).2]
      simp [dcheckFailures, record, List.countP_append]
    simp only [doWorkIdle]
    split_ifs
    · rw [← h1]
      simp [dcheckFailures, record, List.countP_append]
    · exact h1
    · rfl
  have hXc : ∀ t s, dcheckFailures Check.scheduleTime (doWorkExit env t s) =
      dcheckFailures Check.scheduleTime s := by
    intro t s
    unfold doWorkExit
    by_cases hs : env.shouldTrace s (subDWORD (GetTickCount s) t) = true
    · simp [hs, record, dcheckFailures, List.countP_append]
    · simp [hs, dcheckFailures]
  rw [doWork_stages, hXc, hIc, hDc]

/-- C27: in the single-threaded model with a tick counter that never reads 0,
every state `w` reached by pump operations has the work flag HAVE_WORK if and
only if `d_scheduleTime ≠ 0`. `ScheduleWork` sets both, `resetWorkState`
clears both, and the hooks, the bracket calls, `schedulePump`, `modalLoop`,
`setTraceThreshold`, `init` and the timer message write neither. Hence, when
`doWork` is entered with the work flag HAVE_WORK, no drain it performs fails
the check `d_scheduleTime ≠ 0` of `resetWorkState`. The task handler and the
idle work are taken to write the two members only as the pump does. -/
theorem C27_work_flag_timestamp (env : Env) (w : MainMessagePump)
    (hH : KeepsTimed env.handler) (hI : KeepsTimed env.DoIdleWork) (hR : WorkReachable w) :
    (w.work_state_ = HAVE_WORK ↔ w.d_scheduleTime ≠ 0) ∧
    (w.work_state_ = HAVE_WORK ∨ w.work_state_ = READY) ∧
    ((ScheduleWork env w).work_state_ = HAVE_WORK ∧ (ScheduleWork env w).d_scheduleTime ≠ 0) ∧
    ((resetWorkState w).work_state_ = READY ∧ (resetWorkState w).d_scheduleTime = 0) ∧
    (∀ code message b timeoutMS,
      timedView (messageFilter env code w).1 = timedView w ∧
      timedView (windowProcedureHook env code message w).1 = timedView w ∧
      timedView (preHandleMessage env w).1 = timedView w ∧
      timedView (postHandleMessage env w) = timedView w ∧
      timedView (schedulePump env w) = timedView w ∧
      timedView (modalLoop b w) = timedView w ∧
      timedView (setTraceThreshold timeoutMS w) = timedView w ∧
      timedView (init env w) = timedView w ∧
      timedView (windowProcedure env WM_TIMER w).1 = timedView w) ∧
    (w.work_state_ = HAVE_WORK →
      dcheckFailures Check.scheduleTime (doWork env w) =
        dcheckFailures Check.scheduleTime w) ∧
    ((doWork env w).work_state_ = HAVE_WORK ↔ (doWork env w).d_scheduleTime ≠ 0) := by
  have hT := workReachable_timedInv hR
  obtain ⟨s1, s2, _⟩ := ScheduleWork_timed env w
  obtain ⟨r1, r2, _⟩ := resetWorkState_timed w
  refine ⟨timedInv_iff hT, ?_, ⟨s1, by rw [s2]; exact hT.1⟩, ⟨r1, r2⟩, ?_,
    fun hW => doWork_asserted env hH hI w hT hW,
    timedInv_iff (doWork_timedInv env hH hI w hT)⟩
  · rcases hT.2 with ⟨a, _⟩ | ⟨a, _⟩
    · exact Or.inl a
    · exact Or.inr a
  · intro code message b timeoutMS
    refine ⟨timedView_messageFilter env code w, timedView_windowProcedureHook env code message w,
      timedView_preHandleMessage env w, timedView_postHandleMessage env w,
      timedView_schedulePump env w, timedView_modalLoop b w,
      by simp [setTraceThreshold, record, timedView], by simp [init, record, timedView], ?_⟩
    rw [windowProcedure_timer]
    split_ifs
    · exact (timedView_schedulePumpIfNecessary env _).trans (timedView_DCHECK _ _ w)
    · exact timedView_DCHECK _ _ w

/-- C27, evaluated on the modal pump with work scheduled at tick 100, with a
task handler that schedules more work on every drain: the cycle makes 16
drains and none fails the check of `resetWorkState`. At a tick count of 0 the
proviso is not met: `ScheduleWork` leaves the work flag HAVE_WORK with
`d_scheduleTime = 0`, and the drain that follows fails the check. -/
theorem C27_work_flag_timestamp_witness :
    (modalPendingAt 111).work_state_ = HAVE_WORK ∧
    (modalPendingAt 111).d_scheduleTime = 100 ∧
    doWorkDrains busyEnv (modalPendingAt 111) = 16 ∧
    dcheckFailures Check.scheduleTime (doWork busyEnv (modalPendingAt 111)) = 0 ∧
    (ScheduleWork quietEnv (new 7 0)).work_state_ = HAVE_WORK ∧
    (ScheduleWork quietEnv (new 7 0)).d_scheduleTime = 0 ∧
    dcheckFailures Check.scheduleTime (doWork quietEnv (ScheduleWork quietEnv (new 7 0))) = 1 :=
  ⟨rfl, rfl, by decide,
    ((C27_work_flag_timestamp busyEnv (modalPendingAt 111) (keepsTimed_ScheduleWork quietEnv)
      (fun _ h => ⟨h, rfl⟩)
      (WorkReachable.tick 111 (by decide)
        (WorkReachable.ScheduleWork quietEnv
          (WorkReachable.messageFilter quietEnv MSGF_DIALOGBOX
            (WorkReachable.preHandleMessage quietEnv
              (WorkReachable.init quietEnv
                (WorkReachable.new 7 100 (by decide)))))))).2.2.2.2.2.1 rfl).trans (by decide),
    rfl, rfl, by decide⟩

theorem preHandleMessage_sameSchedule (env : Env) (w : MainMessagePump) :
    SameSchedule (preHandleMessage env w).1 w := by
  have h3 : SameSchedule (DCHECK (0 == (DCHECK w.d_runLoop Check.runLoop w).d_isInsideMainLoop)
      Check.wasOutsideMainLoop
      { DCHECK w.d_runLoop Check.runLoop w with d_isInsideMainLoop := 1 }) w :=
    sameSchedule_trans (DCHECK_sameSchedule _ _ _)
      (sameSchedule_trans ⟨rfl, rfl, rfl, rfl, rfl, rfl⟩ (DCHECK_sameSchedule _ _ w))
  simp only [preHandleMessage, messageFilter]
  split_ifs
  · exact sameSchedule_trans (modalLoop_sameSchedule true _) h3
  · exact h3

theorem ScheduleWork_pumpedQueued (env : Env) (w : MainMessagePump) (hP : PumpedQueued w) :
    PumpedQueued (ScheduleWork env w) ∧
    (ScheduleWork env w).d_isInsideMainLoop = w.d_isInsideMainLoop := by
  have key : ∀ s : MainMessagePump, PumpedQueued s → PumpedQueued (schedulePump env s) := by
    intro s hs
    by_cases hp : s.d_isPumped = 0
    · rw [schedulePump_posts env s hp]
      cases env.PostMessageW { s with d_isPumped := 1 } <;> simp [PumpedQueued]
    · rw [schedulePump_pumped env s hp]
      exact fun _ => hs hp
  simp only [ScheduleWork]
  split_ifs
  · exact ⟨key _ hP, (schedulePump_frame env _).2.2.2.1⟩
  · exact ⟨hP, rfl⟩

theorem pumpedQueued_of_same {a b : MainMessagePump} (h : SameSchedule a b)
    (hb : PumpedQueued b) : PumpedQueued a := by
  unfold PumpedQueued at *
  rw [h.2.2.1, h.2.2.2.2.1]
  exact hb

theorem schedulePump_pumpedQueued (env : Env) (w : MainMessagePump) (h : PumpedQueued w) :
    PumpedQueued (schedulePump env w) := by
  by_cases hp : w.d_isPumped = 0
  · rw [schedulePump_posts env w hp]
    cases env.PostMessageW { w with d_isPumped := 1 } <;> simp [PumpedQueued]
  · rw [schedulePump_pumped env w hp]
    exact fun _ => h hp

theorem schedulePumpIfNecessary_pumpedQueued (env : Env) (w : MainMessagePump)
    (h : PumpedQueued w) : PumpedQueued (schedulePumpIfNecessary env w) := by
  unfold schedulePumpIfNecessary
  simp only []
  split_ifs
  · exact schedulePump_pumpedQueued env w h
  · exact h

theorem doWork_pumpedQueued (env : Env)
    (hH : ∀ s, PumpedQueued s → PumpedQueued (env.handler s))
    (hI : ∀ s, PumpedQueued s → PumpedQueued (env.DoIdleWork s))
    (w : MainMessagePump) : PumpedQueued (doWork env w) := by
  have hEnter : PumpedQueued (doWorkEnter w) := by
    simp [PumpedQueued, doWorkEnter, DCHECK_eq]
  have hDrain : ∀ s, PumpedQueued s → PumpedQueued (drain env s) := by
    intro s hs
    apply hH
    simpa [PumpedQueued, record, resetWorkState, ResetWorkState, DCHECK_eq] using hs
  have hLoop : ∀ (n : Nat) (s : MainMessagePump), PumpedQueued s →
      PumpedQueued (drainLoop env n s).1 := by
    intro n
    induction n with
    | zero => intro s hs; simpa [drainLoop] using hs
    | succ n ih =>
      intro s hs
      by_cases hr : READY = (drain env s).work_state_
      · simp only [drainLoop, if_pos hr]
        exact hDrain s hs
      · simp only [drainLoop, if_neg hr]
        exact ih _ (hDrain s hs)
  have hIdle : ∀ s, PumpedQueued s → PumpedQueued (doWorkIdle env s) := by
    intro s hs
    have h1 : PumpedQueued (env.DoIdleWork (record Call.DoIdleWork s)) := hI _ hs
    simp only [doWorkIdle]
    split_ifs
    · exact h1
    · exact h1
    · exact hs
  have hExit : ∀ t s, PumpedQueued s → PumpedQueued (doWorkExit env t s) := by
    intro t s hs
    simp only [doWorkExit]
    split_ifs
    · exact hs
    · exact hs
  rw [doWork_stages]
  exact hExit _ _ (hIdle _ (hLoop _ _ hEnter))

theorem flushLoop_pumpedQueued (env : Env)
    (hH : ∀ s, PumpedQueued s → PumpedQueued (env.handler s))
    (hI : ∀ s, PumpedQueued s → PumpedQueued (env.DoIdleWork s)) :
    ∀ (n : Nat) (w : MainMessagePump), PumpedQueued w → PumpedQueued (flushLoop env n w).1
  | 0, _, h => by simpa [flushLoop] using h
  | n + 1, w, h => by
    simp only [flushLoop]
    split_ifs
    · exact flushLoop_pumpedQueued env hH hI n _ (doWork_pumpedQueued env hH hI _)
    · exact h

theorem windowProcedureHook_pumpedQueued (env : Env) (code : Int) (message : Nat)
    (w : MainMessagePump) (h : PumpedQueued w) :
    PumpedQueued (windowProcedureHook env code message w).1 := by
  have h1 : PumpedQueued (windowProcedureHookSwitch message w) :=
    pumpedQueued_of_same (windowProcedureHookSwitch_sameSchedule message w) h
  rw [windowProcedureHook_eq]
  simp only [windowProcedureHookSchedule]
  split_ifs
  · exact schedulePumpIfNecessary_pumpedQueued env _ h1
  · exact schedulePumpIfNecessary_pumpedQueued env _ h1
  · exact h1
  · exact h1

theorem messageFilter_pumpedQueued (env : Env) (code : Int) (w : MainMessagePump)
    (h : PumpedQueued w) : PumpedQueued (messageFilter env code w).1 := by
  simp only [messageFilter]
  split_ifs
  · exact pumpedQueued_of_same (modalLoop_sameSchedule true w) h
  · exact h

theorem windowProcedure_timer_pumpedQueued (env : Env) (w : MainMessagePump)
    (h : PumpedQueued w) : PumpedQueued (windowProcedure env WM_TIMER w).1 := by
  rw [windowProcedure_timer]
  have h1 : PumpedQueued (DCHECK w.d_isInsideModalLoop Check.timerInsideModalLoop w) :=
    pumpedQueued_of_same (DCHECK_sameSchedule _ _ w) h
  split_ifs
  · exact schedulePumpIfNecessary_pumpedQueued env _ h1
  · exact h1

theorem postHandleMessage_pumpedQueued (env : Env) (w : MainMessagePump)
    (h : PumpedQueued w) : PumpedQueued (postHandleMessage env w) := by
  have h1 : PumpedQueued (postHandleMessageExit w) :=
    pumpedQueued_of_same (postHandleMessageExit_sameSchedule w) h
  simp only [postHandleMessage, postHandleMessageSchedule]
  split_ifs
  · split
    · split
      · have h2 : ∀ c, PumpedQueued
            (DCHECK c Check.noPumpMessageQueued (postHandleMessageExit w)) :=
          fun c => pumpedQueued_of_same (DCHECK_sameSchedule _ _ _) h1
        refine schedulePump_pumpedQueued env _ ?_
        intro hne
        exact h2 _ hne
      · exact h1
    · exact schedulePump_pumpedQueued env _ h1
  · exact h1

theorem dispatchPumpMessage_pumpedQueued (env : Env)
    (hH : ∀ s, PumpedQueued s → PumpedQueued (env.handler s))
    (hI : ∀ s, PumpedQueued s → PumpedQueued (env.DoIdleWork s))
    (w w2 : MainMessagePump) (hd : dispatchPumpMessage env w = some w2) : PumpedQueued w2 := by
  unfold dispatchPumpMessage at hd
  split_ifs at hd with hz
  simp only [Option.some.injEq, windowProcedure, if_true] at hd
  subst hd
  exact doWork_pumpedQueued env hH hI _

theorem cleanup_pumpedQueued (env : Env)
    (hH : ∀ s, PumpedQueued s → PumpedQueued (env.handler s))
    (hI : ∀ s, PumpedQueued s → PumpedQueued (env.DoIdleWork s))
    (w w2 : MainMessagePump) (h : PumpedQueued w) (hc : cleanup env w = some w2) :
    PumpedQueued w2 := by
  have hf : PumpedQueued (flush env w) := flushLoop_pumpedQueued env hH hI 255 w h
  rw [(cleanup_some env w w2 hc).2]
  exact hf

/-- The precondition of the liveness statement is met between operations: a
freshly constructed pump has the pumped flag clear, and every operation of the
pump keeps `PumpedQueued`, the dispatch of a queued wake-up message and
`flush()` included, when the task handler and the idle work keep it. -/
theorem pumpedQueued_preserved (env : Env) (w : MainMessagePump) (h : PumpedQueued w) :
    (∀ hwnd now, PumpedQueued (new hwnd now)) ∧
    PumpedQueued (init env w) ∧
    PumpedQueued (ScheduleWork env w) ∧
    (∀ code message, PumpedQueued (windowProcedureHook env code message w).1) ∧
    (∀ code, PumpedQueued (messageFilter env code w).1) ∧
    PumpedQueued (windowProcedure env WM_TIMER w).1 ∧
    PumpedQueued (preHandleMessage env w).1 ∧
    PumpedQueued (postHandleMessage env w) ∧
    ((∀ s, PumpedQueued s → PumpedQueued (env.handler s)) →
      (∀ s, PumpedQueued s → PumpedQueued (env.DoIdleWork s)) →
      (∀ w2, dispatchPumpMessage env w = some w2 → PumpedQueued w2) ∧
      PumpedQueued (flush env w) ∧ (∀ w2, cleanup env w = some w2 → PumpedQueued w2)) :=
  ⟨fun _ _ hne => absurd rfl hne, h, (ScheduleWork_pumpedQueued env w h).1,
    fun code message => windowProcedureHook_pumpedQueued env code message w h,
    fun code => messageFilter_pumpedQueued env code w h,
    windowProcedure_timer_pumpedQueued env w h,
    pumpedQueued_of_same (preHandleMessage_sameSchedule env w) h,
    postHandleMessage_pumpedQueued env w h,
    fun hH hI => ⟨fun w2 hd => dispatchPumpMessage_pumpedQueued env hH hI w w2 hd,
      flushLoop_pumpedQueued env hH hI 255 w h,
      fun w2 hc => cleanup_pumpedQueued env hH hI w w2 h hc⟩⟩

end MainMessagePump

/-! ## Claims C28 to C30 -/

theorem BrowserContexts.lookup_null (key : String) (s : BrowserContexts)
    (h : ∀ e ∈ s.g_browserContexts, e.2 = none) : BrowserContexts.lookup key s = none := by
  unfold BrowserContexts.lookup
  cases hf : s.g_browserContexts.find? (fun e => e.1 == key) with
  | none => rfl
  | some e =>
    have he : e ∈ s.g_browserContexts := List.mem_of_find?_eq_some hf
    simp [h e he]

theorem BrowserContexts.index_null (key : String) (s : BrowserContexts)
    (h : ∀ e ∈ s.g_browserContexts, e.2 = none) :
    (∀ e ∈ (BrowserContexts.index key s).g_browserContexts, e.2 = none) ∧
    (BrowserContexts.index key s).objects = s.objects := by
  unfold BrowserContexts.index
  split_ifs
  · exact ⟨h, rfl⟩
  · refine ⟨fun e he => ?_, rfl⟩
    rcases List.mem_append.mp he with h1 | h1
    · exact h e h1
    · rw [List.mem_singleton.mp h1]

/-- As long as every entry of `g_browserContexts` holds a null pointer, which
is so at process start, `getBrowserContext` constructs a new object on every
call, isolated or not, and leaves every entry null. -/
theorem getBrowserContext_fresh (isolated : Bool) (profileDir : String) (s : BrowserContexts)
    (h : ∀ e ∈ s.g_browserContexts, e.2 = none) :
    (getBrowserContext isolated profileDir s).2 = s.objects.length ∧
    (getBrowserContext isolated profileDir s).1.objects = s.objects ++ [(profileDir, 1)] ∧
    (∀ e ∈ (getBrowserContext isolated profileDir s).1.g_browserContexts, e.2 = none) := by
  have key : ∀ (iso : Bool) (t : BrowserContexts), (∀ e ∈ t.g_browserContexts, e.2 = none) →
      ((if (!iso) = true then
          (match BrowserContexts.lookup profileDir (BrowserContexts.index profileDir t) with
            | none => BrowserContexts.newBrowserContextImpl profileDir
                (BrowserContexts.index profileDir t)
            | some p => (BrowserContexts.addRef p (BrowserContexts.index profileDir t), p))
        else BrowserContexts.newBrowserContextImpl profileDir t).2 = t.objects.length) ∧
      ((if (!iso) = true then
          (match BrowserContexts.lookup profileDir (BrowserContexts.index profileDir t) with
            | none => BrowserContexts.newBrowserContextImpl profileDir
                (BrowserContexts.index profileDir t)
            | some p => (BrowserContexts.addRef p (BrowserContexts.index profileDir t), p))
        else BrowserContexts.newBrowserContextImpl profileDir t).1.objects =
          t.objects ++ [(profileDir, 1)]) ∧
      (∀ e ∈ (if (!iso) = true then
          (match BrowserContexts.lookup profileDir (BrowserContexts.index profileDir t) with
            | none => BrowserContexts.newBrowserContextImpl profileDir
                (BrowserContexts.index profileDir t)
            | some p => (BrowserContexts.addRef p (BrowserContexts.index profileDir t), p))
        else BrowserContexts.newBrowserContextImpl profileDir t).1.g_browserContexts,
          e.2 = none) := by
    intro iso t ht
    obtain ⟨i1, i2⟩ := BrowserContexts.index_null profileDir t ht
    have hl := BrowserContexts.lookup_null profileDir _ i1
    cases iso
    · simp only [Bool.not_false, if_true]
      rw [hl]
      simp only [BrowserContexts.newBrowserContextImpl, i2]
      exact ⟨trivial, trivial, i1⟩
    · simp only [Bool.not_true, Bool.false_eq_true, if_false,
        BrowserContexts.newBrowserContextImpl]
      exact ⟨trivial, trivial, ht⟩
  unfold getBrowserContext
  simp only []
  by_cases hp : profileDir ≠ ""
  · simp only [if_pos hp]
    cases isolated
    · exact key false s h
    · exact key false { s with dcheckFailed := s.dcheckFailed + 1 } h
  · simp only [if_neg hp]
    exact key isolated s h

/-- C28, evaluated at process start: two calls of `getBrowserContext` with
`isolated = false` and the same profile directory. The first call constructs
the object at address 0 and leaves the map entry of the directory null; the
object is alive when the second call is made, and the second call constructs
and returns another object, at address 1, for the same directory. -/
theorem C28_getBrowserContext_no_reuse :
    (getBrowserContext false "profile" BrowserContexts.empty).2 = 0 ∧
    (getBrowserContext false "profile" BrowserContexts.empty).1.g_browserContexts =
      [("profile", none)] ∧
    BrowserContexts.alive 0 (getBrowserContext false "profile" BrowserContexts.empty).1 = true ∧
    (getBrowserContext false "profile"
      (getBrowserContext false "profile" BrowserContexts.empty).1).2 = 1 ∧
    (getBrowserContext false "profile"
      (getBrowserContext false "profile" BrowserContexts.empty).1).2 ≠
      (getBrowserContext false "profile" BrowserContexts.empty).2 ∧
    (getBrowserContext false "profile"
      (getBrowserContext false "profile" BrowserContexts.empty).1).1.objects =
      [("profile", 1), ("profile", 1)] ∧
    (getBrowserContext false "profile"
      (getBrowserContext false "profile" BrowserContexts.empty).1).1.g_browserContexts =
      [("profile", none)] ∧
    (getBrowserContext true "profile" BrowserContexts.empty).1.dcheckFailed = 1 ∧
    (getBrowserContext true "profile" BrowserContexts.empty).1.g_browserContexts =
      [("profile", none)] := by
  refine ⟨by decide, by decide, by decide, by decide, by decide, by decide, by decide,
    by decide, by decide⟩

/-- C29: if the maximum per group does not exceed the maximum per proxy server
before `setMaxSocketsPerProxy(count)` and `1 ≤ count ≤ 99`, then it does not
exceed it after the first of the two setter calls nor after the second; on
return the maximum per proxy server is `count` and the maximum per group is
`min(count, kDefaultMaxSocketsPerGroupNormal)`, and neither `DCHECK` on
`count` fails. -/
theorem C29_group_le_proxy (kDefaultMaxSocketsPerGroupNormal count : Int)
    (s : ClientSocketPoolManager)
    (h : s.max_sockets_per_group ≤ s.max_sockets_per_proxy_server)
    (h1 : 1 ≤ count) (h99 : count ≤ 99) :
    (setMaxSocketsPerProxy kDefaultMaxSocketsPerGroupNormal count s).1.max_sockets_per_group ≤
      (setMaxSocketsPerProxy kDefaultMaxSocketsPerGroupNormal
        count s).1.max_sockets_per_proxy_server ∧
    (setMaxSocketsPerProxy kDefaultMaxSocketsPerGroupNormal count s).2.max_sockets_per_group ≤
      (setMaxSocketsPerProxy kDefaultMaxSocketsPerGroupNormal
        count s).2.max_sockets_per_proxy_server ∧
    (setMaxSocketsPerProxy kDefaultMaxSocketsPerGroupNormal
      count s).2.max_sockets_per_proxy_server = count ∧
    (setMaxSocketsPerProxy kDefaultMaxSocketsPerGroupNormal count s).2.max_sockets_per_group =
      min count kDefaultMaxSocketsPerGroupNormal ∧
    (setMaxSocketsPerProxy kDefaultMaxSocketsPerGroupNormal count s).2.dcheckFailed =
      s.dcheckFailed := by
  have hd : ClientSocketPoolManager.DCHECK (decide (99 ≥ count))
      (ClientSocketPoolManager.DCHECK (decide (1 ≤ count)) s) = s := by
    simp [ClientSocketPoolManager.DCHECK, h1, h99]
  unfold setMaxSocketsPerProxy
  simp only [hd]
  have hmin : min count kDefaultMaxSocketsPerGroupNormal ≤ count := min_le_left _ _
  split_ifs with hc
  · simp only [ClientSocketPoolManager.set_max_sockets_per_proxy_server,
      ClientSocketPoolManager.set_max_sockets_per_group]
    refine ⟨?_, hmin, trivial, trivial, trivial⟩
    have hc' : s.max_sockets_per_proxy_server <
        min count kDefaultMaxSocketsPerGroupNormal := hc
    omega
  · simp only [ClientSocketPoolManager.set_max_sockets_per_proxy_server,
      ClientSocketPoolManager.set_max_sockets_per_group]
    refine ⟨?_, hmin, trivial, trivial, trivial⟩
    exact not_lt.mp hc

/-- C29, evaluated with the default of 6 per group: from the limits 2 per
proxy server and 2 per group, `setMaxSocketsPerProxy(50)` raises the maximum
per proxy server first (50 and 2) and then the maximum per group (50 and 6);
from 32 and 6, `setMaxSocketsPerProxy(3)` lowers the maximum per group first
(32 and 3) and then the maximum per proxy server (3 and 3). -/
theorem C29_group_le_proxy_witness :
    setMaxSocketsPerProxy 6 50
        { max_sockets_per_proxy_server := 2, max_sockets_per_group := 2, dcheckFailed := 0 } =
      ({ max_sockets_per_proxy_server := 50, max_sockets_per_group := 2, dcheckFailed := 0 },
       { max_sockets_per_proxy_server := 50, max_sockets_per_group := 6, dcheckFailed := 0 }) ∧
    setMaxSocketsPerProxy 6 3
        { max_sockets_per_proxy_server := 32, max_sockets_per_group := 6, dcheckFailed := 0 } =
      ({ max_sockets_per_proxy_server := 32, max_sockets_per_group := 3, dcheckFailed := 0 },
       { max_sockets_per_proxy_server := 3, max_sockets_per_group := 3, dcheckFailed := 0 }) ∧
    (setMaxSocketsPerProxy 6 50
      { max_sockets_per_proxy_server := 2, max_sockets_per_group := 2,
        dcheckFailed := 0 }).1.max_sockets_per_group ≤
      (setMaxSocketsPerProxy 6 50
        { max_sockets_per_proxy_server := 2, max_sockets_per_group := 2,
          dcheckFailed := 0 }).1.max_sockets_per_proxy_server :=
  ⟨by decide, by decide,
    (C29_group_le_proxy 6 50
      { max_sockets_per_proxy_server := 2, max_sockets_per_group := 2, dcheckFailed := 0 }
      (by decide) (by decide) (by decide)).1⟩

theorem find_spec (c : Nat) : ∀ (s : List Nat),
    (find s c = none → s.takeWhile (fun x => x != c) = s ∧ s.dropWhile (fun x => x != c) = []) ∧
    (∀ p, find s c = some p →
      s.take p = s.takeWhile (fun x => x != c) ∧
      s.drop (p + 1) = (s.dropWhile (fun x => x != c)).tail)
  | [] => by simp [find]
  | x :: xs => by
    obtain ⟨ih1, ih2⟩ := find_spec c xs
    by_cases hx : x = c
    · subst hx
      simp [find]
    · have hb : (x != c) = true := by simp [hx]
      constructor
      · intro h
        have h' : find xs c = none := by
          simpa [find, hx] using h
        obtain ⟨a, b⟩ := ih1 h'
        simp [List.takeWhile, List.dropWhile, hb, a, b]
      · intro p h
        simp only [find, if_neg hx, Option.map_eq_some'] at h
        obtain ⟨q, hq, rfl⟩ := h
        obtain ⟨a, b⟩ := ih2 q hq
        simp [List.takeWhile, List.dropWhile, hb, a, b]

theorem IsSwitch_eq (s : List Nat) :
    IsSwitch s =
      (if GetSwitchPrefixLength s = 0 ∨ GetSwitchPrefixLength s = s.length then
        (false, [], [])
      else
        (true, s.takeWhile (fun x => x != kSwitchValueSeparator),
          (s.dropWhile (fun x => x != kSwitchValueSeparator)).tail)) := by
  obtain ⟨h1, h2⟩ := find_spec kSwitchValueSeparator s
  unfold IsSwitch
  simp only []
  split_ifs
  · rfl
  · cases hf : find s kSwitchValueSeparator with
    | none =>
      obtain ⟨a, b⟩ := h1 hf
      simp [a, b]
    | some p =>
      obtain ⟨a, b⟩ := h2 p hf
      simp [a, b]

theorem GetSwitchPrefixLength_cases (s : List Nat) :
    (GetSwitchPrefixLength s = 0 ∨ GetSwitchPrefixLength s = s.length) ↔
      ((¬ [0x2D, 0x2D] <+: s ∧ ¬ [0x2D] <+: s ∧ ¬ [0x2F] <+: s) ∨
        s = [0x2D, 0x2D] ∨ s = [0x2D] ∨ s = [0x2F]) := by
  match s with
  | [] => simp [GetSwitchPrefixLength, GetSwitchPrefixLengthLoop, kSwitchPrefixes]
  | [a] =>
    by_cases h1 : a = 0x2D
    · subst h1
      simp [GetSwitchPrefixLength, GetSwitchPrefixLengthLoop, kSwitchPrefixes]
    · by_cases h2 : a = 0x2F
      · subst h2
        simp [GetSwitchPrefixLength, GetSwitchPrefixLengthLoop, kSwitchPrefixes]
      · have h1' : ¬ 45 = a := fun e => h1 e.symm
        have h2' : ¬ 47 = a := fun e => h2 e.symm
        simp [GetSwitchPrefixLength, GetSwitchPrefixLengthLoop, kSwitchPrefixes, h1, h2, h1', h2']
  | a :: b :: t =>
    by_cases h1 : a = 0x2D
    · subst h1
      by_cases h3 : b = 0x2D
      · subst h3
        cases t <;> simp [GetSwitchPrefixLength, GetSwitchPrefixLengthLoop, kSwitchPrefixes]
      · simp [GetSwitchPrefixLength, GetSwitchPrefixLengthLoop, kSwitchPrefixes, h3]
    · by_cases h2 : a = 0x2F
      · subst h2
        simp [GetSwitchPrefixLength, GetSwitchPrefixLengthLoop, kSwitchPrefixes]
      · have h1' : ¬ 45 = a := fun e => h1 e.symm
        have h2' : ¬ 47 = a := fun e => h2 e.symm
        simp [GetSwitchPrefixLength, GetSwitchPrefixLengthLoop, kSwitchPrefixes, h1, h2, h1', h2']

/-- C30: for every UTF-16 string `s`, `IsSwitch(s)` returns false with both
outputs empty if and only if `s` starts with none of the prefixes `--`, `-`,
`/` or is one of them alone; and whenever it returns false both outputs are
empty. Otherwise it returns true with `switch_string` the part of `s` before
the first `=` (the whole of `s` when it has none) and `switch_value` the part
after that first `=` (empty when it has none). -/
theorem C30_IsSwitch (s : List Nat) :
    (IsSwitch s = (false, [], []) ↔
      ((¬ [0x2D, 0x2D] <+: s ∧ ¬ [0x2D] <+: s ∧ ¬ [0x2F] <+: s) ∨
        s = [0x2D, 0x2D] ∨ s = [0x2D] ∨ s = [0x2F])) ∧
    ((IsSwitch s).1 = false → IsSwitch s = (false, [], [])) ∧
    ((IsSwitch s).1 = true →
      IsSwitch s =
        (true, s.takeWhile (fun x => x != 0x3D), (s.dropWhile (fun x => x != 0x3D)).tail)) ∧
    (0x3D ∉ s → s.takeWhile (fun x => x != 0x3D) = s ∧
      (s.dropWhile (fun x => x != 0x3D)).tail = []) := by
  have hE := IsSwitch_eq s
  have hC := GetSwitchPrefixLength_cases s
  refine ⟨?_, ?_, ?_, fun hn => ?_⟩
  · rw [← hC, hE]
    split_ifs with h
    · simp [h]
    · simp [h]
  · rw [hE]
    split_ifs with h
    · intro _
      rfl
    · intro e
      exact absurd e (by decide)
  · rw [hE]
    split_ifs with h
    · intro e
      exact absurd e (by decide)
    · intro _
      rfl
  · have h1 : s.takeWhile (fun x => x != 0x3D) = s := by
      rw [List.takeWhile_eq_self_iff]
      intro x hx
      simp only [bne_iff_ne, ne_eq]
      exact fun e => hn (e ▸ hx)
    have h2 : s.dropWhile (fun x => x != 0x3D) = [] := by
      rw [List.dropWhile_eq_nil_iff]
      intro x hx
      simp only [bne_iff_ne, ne_eq]
      exact fun e => hn (e ▸ hx)
    rw [h1, h2]
    exact ⟨rfl, rfl⟩

/-- C30, evaluated: `--` alone and `a=b` are no switches; `--a=b=c` is the
switch `--a` with the value `b=c`; `-=` is the switch `-` with an empty value;
`/a` is the switch `/a` with an empty value. -/
theorem C30_IsSwitch_witness :
    IsSwitch [0x2D, 0x2D] = (false, [], []) ∧
    IsSwitch [0x61, 0x3D, 0x62] = (false, [], []) ∧
    IsSwitch [0x2D, 0x2D, 0x61, 0x3D, 0x62, 0x3D, 0x63] =
      (true, [0x2D, 0x2D, 0x61], [0x62, 0x3D, 0x63]) ∧
    IsSwitch [0x2D, 0x3D] = (true, [0x2D], []) ∧
    IsSwitch [0x2F, 0x61] = (true, [0x2F, 0x61], []) :=
  ⟨(C30_IsSwitch [0x2D, 0x2D]).1.2 (Or.inr (Or.inl rfl)),
    (C30_IsSwitch [0x61, 0x3D, 0x62]).1.2 (Or.inl (by decide)),
    ((C30_IsSwitch [0x2D, 0x2D, 0x61, 0x3D, 0x62, 0x3D, 0x63]).2.2.1 (by decide)).trans
      (by decide),
    ((C30_IsSwitch [0x2D, 0x3D]).2.2.1 (by decide)).trans (by decide),
    by decide⟩

end blpwtk2
